import Mathlib

/-!
# hev-socks5-proxy: the SOCKS5 session state machine and the idle sweeper

A shallow embedding of `src/hev-socks5-session.c` and of the session list of
`src/hev-socks5-server.c`: its listener, its timeout sweeper and the close handler it
gives to its sessions.

* A session is a record `HevSocks5Session` mirroring the C struct.  Pointers to
  buffers are indices into a buffer heap; `NULL` is `none`.
* Every handler is a pure function on a `World`: the session object, the heap of
  buffers, and a chronological log of the calls the handler makes to its
  collaborators (buffer pool, pollable fds, socket, resolver, `close`, the close
  notifier).
* The results of calls to collaborators that the session cannot predict (does a
  submission succeed, does the pool hand out a buffer, ...) are inputs, collected
  in `Env`.
* Bytes are natural numbers; values loaded into a `uint8_t` are reduced modulo 256.
  A `uint16_t` / `uint32_t` held in network byte order is represented by its bytes
  in memory order.
-/

namespace HevSocks5

/-! ## Memory -/

/-- Byte `i` of a data area (bytes never written read as 0). -/
def load (data : List Nat) (i : Nat) : Nat := data.getD i 0

/-- The `n` bytes of a data area that start at `off`. -/
def slice (data : List Nat) (off n : Nat) : List Nat :=
  (List.range n).map (fun i => load data (off + i))

/-- The data area after `bytes` have been copied to position `off` (memcpy / recv). -/
def store (data : List Nat) (off : Nat) (bytes : List Nat) : List Nat :=
  (List.range (max data.length (off + bytes.length))).map
    (fun i => if off ≤ i ∧ i < off + bytes.length then load bytes (i - off) else load data i)

/-! ## SOCKS5 protocol codec (hev-socks5-proto) -/

/-- Modelled from the spec: `HEV_SOCKS5_PROTO_METHOD_NOAUTH` of hev-socks5-proto.h
(not among the sources), "NOAUTH (0x00)". -/
def HEV_SOCKS5_PROTO_METHOD_NOAUTH : Nat := 0

/-- Modelled from the spec: `HEV_SOCKS5_PROTO_ATYPE_IPV4` of hev-socks5-proto.h
(not among the sources), "IPv4 (0x01)". -/
def HEV_SOCKS5_PROTO_ATYPE_IPV4 : Nat := 1

/-- Modelled from the spec: `HEV_SOCKS5_PROTO_ATYPE_DOMAIN` of hev-socks5-proto.h
(not among the sources), "DOMAIN (0x03)". -/
def HEV_SOCKS5_PROTO_ATYPE_DOMAIN : Nat := 3

/-- Modelled from the spec: the IPv6 address type of hev-socks5-proto.h
(not among the sources), "IPv6 (0x04)". -/
def HEV_SOCKS5_PROTO_ATYPE_IPV6 : Nat := 4

/-- Modelled from the spec: `HEV_SOCKS5_PROTO_REP_SUCC` of hev-socks5-proto.h
(not among the sources), "0x00 success". -/
def HEV_SOCKS5_PROTO_REP_SUCC : Nat := 0

/-- Modelled from the spec: `HEV_SOCKS5_PROTO_REP_ATYPE_NOT_SUPPORT` of
hev-socks5-proto.h (not among the sources), "0x08 address-type-not-supported". -/
def HEV_SOCKS5_PROTO_REP_ATYPE_NOT_SUPPORT : Nat := 8

/-- Modelled from the spec: the CONNECT command of hev-socks5-proto.h
(not among the sources), "CMD = CONNECT (0x01)". -/
def HEV_SOCKS5_PROTO_CMD_CONNECT : Nat := 1

/-- Result of `hev_socks5_proto_auth_req_unpack`: the returned int and the two
out-parameters (`methods` is the position in the unpacked data area the returned
pointer refers to). -/
structure AuthReq where
  left_size : Int
  method_count : Nat
  methods : Nat
  deriving DecidableEq, Repr

/-- Modelled from the spec: `hev_socks5_proto_auth_req_unpack` of hev-socks5-proto.c
(not among the sources).  It "expects VER(1)=0x05, NMETHODS(1), METHODS(NMETHODS)";
the result is positive (the total number of bytes) when the frame is complete and
`-n` when `n` more bytes are required; the first read asks for 2 bytes
(VER+NMETHODS) and the remaining NMETHODS bytes are asked for once NMETHODS is
known.  The version byte is not checked ("no separate error code"). -/
def hev_socks5_proto_auth_req_unpack (data : List Nat) (size : Nat) : AuthReq :=
  if size < 2 then
    { left_size := (size : Int) - 2, method_count := 0, methods := 0 }
  else if size < 2 + load data 1 % 256 then
    { left_size := (size : Int) - ((2 + load data 1 % 256 : Nat) : Int),
      method_count := 0, methods := 0 }
  else
    { left_size := ((2 + load data 1 % 256 : Nat) : Int),
      method_count := load data 1 % 256, methods := 2 }

/-- Modelled from the spec: `hev_socks5_proto_auth_res_pack` of hev-socks5-proto.c
(not among the sources): "auth_res_pack(out, method) → 2 writes 0x05, method".
Returns the data area after the write and the packed length. -/
def hev_socks5_proto_auth_res_pack (data : List Nat) (method : Nat) : List Nat × Nat :=
  (store data 0 [5, method], 2)

/-- Result of `hev_socks5_proto_req_unpack`: the returned int and the four
out-parameters (`addr` is the position in the unpacked data area the returned
pointer refers to; `port` is the two port bytes, network byte order). -/
structure Req where
  left_size : Int
  cmd : Nat
  atype : Nat
  addr : Nat
  port : List Nat
  deriving DecidableEq, Repr

/-- Modelled from the spec: the length of the address field of a request or reply
whose address type is `atype` and whose address field starts with byte `first`:
"4 bytes for ATYP=1, length-prefixed for ATYP=3, 16 bytes for ATYP=4".  The spec
gives no length for any other address type; the model takes the address field of
such a frame to be empty. -/
def addr_size (atype first : Nat) : Nat :=
  if atype = HEV_SOCKS5_PROTO_ATYPE_IPV4 then 4
  else if atype = HEV_SOCKS5_PROTO_ATYPE_DOMAIN then 1 + first % 256
  else if atype = HEV_SOCKS5_PROTO_ATYPE_IPV6 then 16
  else 0

/-- Modelled from the spec: `hev_socks5_proto_req_unpack` of hev-socks5-proto.c
(not among the sources).  It "parses VER, CMD, RSV, ATYP, DST.ADDR, DST.PORT";
`addr` "points into bytes"; the port is left in network byte order; the result is
positive (the total number of bytes) when the frame is complete and `-n` when `n`
more bytes are required.  The bytes asked for are those of the next part of the
frame whose length is known: the 4 header bytes, then (DOMAIN only) the length
byte, then the rest of the address and the port. -/
def hev_socks5_proto_req_unpack (data : List Nat) (size : Nat) : Req :=
  if size < 4 then
    { left_size := (size : Int) - 4, cmd := 0, atype := 0, addr := 0, port := [] }
  else if load data 3 % 256 = HEV_SOCKS5_PROTO_ATYPE_DOMAIN ∧ size < 5 then
    { left_size := (size : Int) - 5, cmd := 0, atype := 0, addr := 0, port := [] }
  else if size < 4 + addr_size (load data 3 % 256) (load data 4) + 2 then
    { left_size := (size : Int) - ((4 + addr_size (load data 3 % 256) (load data 4) + 2 : Nat) : Int),
      cmd := 0, atype := 0, addr := 0, port := [] }
  else
    { left_size := ((4 + addr_size (load data 3 % 256) (load data 4) + 2 : Nat) : Int),
      cmd := load data 1 % 256,
      atype := load data 3 % 256,
      addr := 4,
      port := slice data (4 + addr_size (load data 3 % 256) (load data 4)) 2 }

/-- Modelled from the spec: `hev_socks5_proto_res_pack` of hev-socks5-proto.c
(not among the sources): it "writes the reply with the same framing",
`VER(0x05) REP RSV(0x00) ATYP BND.ADDR BND.PORT`, passing `addr` opaquely and the
port in network byte order.  `addr` is the memory the address pointer refers to.
Returns the data area after the write and the packed length. -/
def hev_socks5_proto_res_pack (data : List Nat) (rep atype : Nat) (addr : List Nat)
    (port : List Nat) : List Nat × Nat :=
  (store data 0
      ([5, rep, 0, atype] ++ slice addr 0 (addr_size atype (load addr 0)) ++ slice port 0 2),
    4 + addr_size atype (load addr 0) + 2)

/-! ## Collaborators: buffers, pollable fds, socket, resolver -/

/-- The ten completion handlers of the session (the callbacks it registers). -/
inductive Callback
  | read_auth_req_handler
  | write_auth_res_handler
  | read_req_handler
  | resolver_handler
  | socket_connect_handler
  | write_res_handler
  | read_client_data_handler
  | read_remote_data_handler
  | write_client_data_handler
  | write_remote_data_handler
  deriving DecidableEq, Repr

/-- Modelled from the spec: `HevBuffer` of hev-buffer.h (not among the sources):
"`data` (fixed capacity B), `offset` (next byte to read/write within `data`),
`length` (bytes remaining to transfer for the current operation)". -/
structure HevBuffer where
  data : List Nat
  offset : Nat
  length : Nat
  deriving DecidableEq, Repr

instance : Inhabited HevBuffer := ⟨{ data := [], offset := 0, length := 0 }⟩

/-- An operation submitted to a pollable fd and not yet completed: the buffer
pointer, the byte count and the callback given to `hev_pollable_fd_read_async` /
`hev_pollable_fd_write_async`. -/
structure AsyncOp where
  buffer : Nat
  count : Nat
  callback : Callback
  deriving DecidableEq, Repr

/-- Modelled from the spec: `HevPollableFD` of hev-pollable-fd.h (not among the
sources): a wrapper over a nonblocking fd with "at most one read and one write in
flight". -/
structure HevPollableFD where
  fd : Int
  reading : Option AsyncOp
  writing : Option AsyncOp
  deriving DecidableEq, Repr

/-- Modelled from the spec: `HevSocket` of hev-socket.h (not among the sources), the
"pending connect": a socket and its fd. -/
structure HevSocket where
  fd : Int
  deriving DecidableEq, Repr

/-- Modelled from the spec: `HevDNSResolver` of hev-dns-resolver.h (not among the
sources), created for a DNS server given by its four address bytes. -/
structure HevDNSResolver where
  server : List Nat
  deriving DecidableEq, Repr

/-- The part of `struct sockaddr_in` the session uses.  `sin_port` and `s_addr` hold
network-byte-order values and are represented by their bytes in memory order. -/
structure sockaddr_in where
  sin_family : Nat
  sin_port : List Nat
  s_addr : List Nat
  deriving DecidableEq, Repr

/-- `AF_INET`. -/
def AF_INET : Nat := 2

/-- Which of the session's two pollable fds a call is made on. -/
inductive PFD
  | client
  | remote
  deriving DecidableEq, Repr

/-! ## The session object -/

/-- `struct _HevSocks5Session`.  Buffer pointers are indices into the heap of
`World`; `buffer_list` is that heap; `notifer` tells whether `notify.notifer` is
non-NULL.  `client_pfd` is never NULL in a session object that
`hev_socks5_session_new` returns, so it is not optional. -/
structure HevSocks5Session where
  client_fd : Int
  remote_fd : Int
  is_idle : Bool
  buffer0 : Option Nat
  buffer1 : Option Nat
  socket : Option HevSocket
  resolver : Option HevDNSResolver
  client_pfd : HevPollableFD
  remote_pfd : Option HevPollableFD
  notifer : Bool
  addr : sockaddr_in
  deriving DecidableEq, Repr

/-- A call the session makes to a collaborator, or a use it makes of buffer memory
through a pointer kept from an unpack. -/
inductive Event
  | buffer_alloc (result : Option Nat)
  | buffer_free (buffer : Nat)
  | pfd_new (pfd : PFD) (fd : Int) (ok : Bool)
  | pfd_destroy (pfd : PFD)
  | read_async (pfd : Option PFD) (buffer offset count : Nat) (callback : Callback) (ok : Bool)
  | write_async (pfd : Option PFD) (buffer offset count : Nat) (callback : Callback) (ok : Bool)
  | socket_new (ok : Bool)
  | socket_connect_async (addr : sockaddr_in) (ok : Bool)
  | socket_destroy
  | resolver_new (ok : Bool)
  | resolver_query_async (buffer offset : Nat) (ok : Bool)
  | resolver_destroy
  | mem_read (buffer offset count : Nat)
  | close (fd : Int)
  | close_notify
  | free_self
  deriving DecidableEq, Repr

/-- The session object together with what it acts on: the heap of buffers (a buffer
pointer is an index), the log of its calls in chronological order, and whether the
object itself has been released by `hev_free`. -/
structure World where
  self : HevSocks5Session
  heap : List HevBuffer
  log : List Event
  freed : Bool
  deriving DecidableEq, Repr

/-- Results of the collaborator calls a handler may make, which the session cannot
predict: whether a submission is accepted, whether the pool hands out a buffer (and
what its data area holds), what the data area of a buffer holds once the pool has
taken it back (`none`: the bytes the session left; `some d`: the pool has overwritten
it and it holds `d`), whether an object can be created, what `dup` returns. -/
structure Env where
  client_read : Bool
  client_write : Bool
  remote_read : Bool
  remote_write : Bool
  buffer_alloc : Option (List Nat)
  freed_data : Option (List Nat)
  pfd_new : Bool
  socket_new : Option Int
  connect_async : Bool
  resolver_new : Bool
  query_async : Bool
  dup : Int
  malloc : Bool
  deriving DecidableEq, Repr

/-- The environment in which every collaborator call succeeds: fresh buffers hold
`data`, the pool leaves the bytes of a buffer it takes back in place, the new socket
has fd `5` and `dup` returns `6`. -/
def Env.ok (data : List Nat) : Env :=
  { client_read := true, client_write := true, remote_read := true, remote_write := true,
    buffer_alloc := some data, freed_data := none, pfd_new := true, socket_new := some 5,
    connect_async := true, resolver_new := true, query_async := true, dup := 6, malloc := true }

/-- The buffer a pointer refers to. -/
def World.buf (w : World) (p : Nat) : HevBuffer := w.heap.getD p default

/-- Assignment to the fields of the buffer a pointer refers to. -/
def World.set_buf (w : World) (p : Nat) (b : HevBuffer) : World :=
  { w with heap := w.heap.set p b }

/-- Append one call to the log. -/
def World.emit (w : World) (e : Event) : World :=
  { w with log := w.log ++ [e] }

/-- Modelled from the spec: `hev_buffer_list_alloc` of hev-buffer.h (not among the
sources): "returns a Buffer with offset = length = 0 or fails if exhausted"; the
data area is not cleared.  The new buffer gets the next unused pointer. -/
def hev_buffer_list_alloc (env : Env) (w : World) : Option Nat × World :=
  match env.buffer_alloc with
  | none => (none, w.emit (Event.buffer_alloc none))
  | some d =>
    (some w.heap.length,
      { w with heap := w.heap ++ [{ data := d, offset := 0, length := 0 }],
               log := w.log ++ [Event.buffer_alloc (some w.heap.length)] })

/-- Modelled from the spec: `hev_buffer_list_free` of hev-buffer.h (not among the
sources): "returns it for reuse".  The buffer now belongs to the pool ("exclusively
owned by whatever currently holds it"), and the spec says nothing of what its data
area holds from then on.  The heap entry of a freed buffer stays as the record of
what the session left in it; what the session finds if it reads the buffer after the
free is `read_after_free`. -/
def hev_buffer_list_free (buffer : Nat) (w : World) : World :=
  w.emit (Event.buffer_free buffer)

/-- Modelled from the spec: a read by the session of `n` bytes at `off` of a buffer it
has returned to the pool, `left` being the data area as the session left it.  The spec
gives the buffer to the pool and promises nothing about its contents, so the bytes
found are those the environment says the data area holds now, and those the session
left only if the pool has not touched them. -/
def read_after_free (env : Env) (left : List Nat) (off n : Nat) : List Nat :=
  match env.freed_data with
  | none => slice left off n
  | some d => slice d off n

/-- Modelled from the spec: `hev_pollable_fd_read_async` of hev-pollable-fd.h (not
among the sources): when the submission is accepted the read is in flight on the
pollable fd until its callback runs. -/
def hev_pollable_fd_read_async (ok : Bool) (pfd : HevPollableFD) (op : AsyncOp) :
    HevPollableFD :=
  if ok then { pfd with reading := some op } else pfd

/-- Modelled from the spec: `hev_pollable_fd_write_async` of hev-pollable-fd.h (not
among the sources), symmetric to the read. -/
def hev_pollable_fd_write_async (ok : Bool) (pfd : HevPollableFD) (op : AsyncOp) :
    HevPollableFD :=
  if ok then { pfd with writing := some op } else pfd

/-! ## hev-socks5-session.c -/

/-- `self->is_idle = false;` -/
def clear_idle (w : World) : World :=
  { w with self := { w.self with is_idle := false } }

/-- `self->buffer0 = p;` -/
def set_buffer0 (p : Option Nat) (w : World) : World :=
  { w with self := { w.self with buffer0 := p } }

/-- `self->buffer1 = p;` -/
def set_buffer1 (p : Option Nat) (w : World) : World :=
  { w with self := { w.self with buffer1 := p } }

/-- The calls `hev_socks5_session_destroy` makes on a session object, in the order of
the source; the object is released last. -/
def destroy_calls (self : HevSocks5Session) : List Event :=
  (if self.socket.isSome then [Event.socket_destroy] else [])
    ++ (if self.resolver.isSome then [Event.resolver_destroy] else [])
    ++ (match self.buffer0 with
        | some p => [Event.buffer_free p]
        | none => [])
    ++ (match self.buffer1 with
        | some p => [Event.buffer_free p]
        | none => [])
    ++ [Event.pfd_destroy PFD.client]
    ++ (if self.remote_pfd.isSome then [Event.pfd_destroy PFD.remote] else [])
    ++ (if -1 < self.remote_fd then [Event.close self.remote_fd] else [])
    ++ [Event.close self.client_fd]
    ++ (if self.notifer then [Event.close_notify] else [])
    ++ [Event.free_self]

/-- `hev_socks5_session_destroy`. -/
def hev_socks5_session_destroy (w : World) : World :=
  { w with log := w.log ++ destroy_calls w.self, freed := true }

/-- `hev_socks5_session_client_read`: submit a read of `buffer->length` bytes into
`buffer` on the client pollable fd. -/
def hev_socks5_session_client_read (env : Env) (buffer : Nat) (callback : Callback)
    (w : World) : Bool × World :=
  (env.client_read,
    { w with
      self := { w.self with
        client_pfd := hev_pollable_fd_read_async env.client_read w.self.client_pfd
          { buffer := buffer, count := (w.buf buffer).length, callback := callback } },
      log := w.log ++ [Event.read_async (some PFD.client) buffer
        (w.buf buffer).offset (w.buf buffer).length callback env.client_read] })

/-- `hev_socks5_session_remote_read`: the same on the remote pollable fd
(`self->remote_pfd`, which may be NULL). -/
def hev_socks5_session_remote_read (env : Env) (buffer : Nat) (callback : Callback)
    (w : World) : Bool × World :=
  (env.remote_read,
    { w with
      self := { w.self with
        remote_pfd := w.self.remote_pfd.map (fun pfd =>
          hev_pollable_fd_read_async env.remote_read pfd
            { buffer := buffer, count := (w.buf buffer).length, callback := callback }) },
      log := w.log ++ [Event.read_async (w.self.remote_pfd.map (fun _ => PFD.remote)) buffer
        (w.buf buffer).offset (w.buf buffer).length callback env.remote_read] })

/-- `hev_socks5_session_client_write`: submit a write of `buffer->length` bytes of
`buffer` on the client pollable fd. -/
def hev_socks5_session_client_write (env : Env) (buffer : Nat) (callback : Callback)
    (w : World) : Bool × World :=
  (env.client_write,
    { w with
      self := { w.self with
        client_pfd := hev_pollable_fd_write_async env.client_write w.self.client_pfd
          { buffer := buffer, count := (w.buf buffer).length, callback := callback } },
      log := w.log ++ [Event.write_async (some PFD.client) buffer
        (w.buf buffer).offset (w.buf buffer).length callback env.client_write] })

/-- `hev_socks5_session_remote_write`: the same on the remote pollable fd. -/
def hev_socks5_session_remote_write (env : Env) (buffer : Nat) (callback : Callback)
    (w : World) : Bool × World :=
  (env.remote_write,
    { w with
      self := { w.self with
        remote_pfd := w.self.remote_pfd.map (fun pfd =>
          hev_pollable_fd_write_async env.remote_write pfd
            { buffer := buffer, count := (w.buf buffer).length, callback := callback }) },
      log := w.log ++ [Event.write_async (w.self.remote_pfd.map (fun _ => PFD.remote)) buffer
        (w.buf buffer).offset (w.buf buffer).length callback env.remote_write] })

/-- `hev_socks5_session_socket_connect`: create the socket and start the connect to
`self->addr`. -/
def hev_socks5_session_socket_connect (env : Env) (w : World) : Bool × World :=
  match env.socket_new with
  | none =>
    (false, { w with self := { w.self with socket := none },
                     log := w.log ++ [Event.socket_new false] })
  | some fd =>
    (env.connect_async,
      { w with self := { w.self with socket := some { fd := fd } },
               log := w.log ++ [Event.socket_new true,
                 Event.socket_connect_async w.self.addr env.connect_async] })

/-- `sock_reader`: `recv (fd, buffer->data + buffer->offset, count, 0)`.  `avail` is
what the socket has to offer: `none` when `recv` fails (-1), otherwise the bytes
queued, of which `recv` takes at most `count`. -/
def sock_reader (buffer : HevBuffer) (count : Nat) (avail : Option (List Nat)) :
    Int × HevBuffer :=
  match avail with
  | none => (-1, buffer)
  | some bytes =>
    (((bytes.take count).length : Nat),
      { buffer with data := store buffer.data buffer.offset (bytes.take count) })

/-- `sock_writer`: `send (fd, buffer->data + buffer->offset, count, 0)`.  `room` is
what the socket accepts: `none` when `send` fails (-1), otherwise a number of bytes,
of which `send` uses at most `count`.  Returns the result of `send` and the bytes
that went out. -/
def sock_writer (buffer : HevBuffer) (count : Nat) (room : Option Nat) : Int × List Nat :=
  match room with
  | none => (-1, [])
  | some k => (((min k count : Nat) : Int), slice buffer.data buffer.offset (min k count))

/-- The scan of `read_auth_req_handler`,
`for (i=0; i<method_count; i++) if (NOAUTH == methods[i]) break;`, started at `i`
with `method_count - i` iterations left; the result is the final `i`.
(`i` is a `uint8_t` that never exceeds `method_count`, itself a `uint8_t`.) -/
def scan_methods (data : List Nat) (methods : Nat) : Nat → Nat → Nat
  | 0, i => i
  | left + 1, i =>
    if HEV_SOCKS5_PROTO_METHOD_NOAUTH = load data (methods + i) then i
    else scan_methods data methods left (i + 1)

/-- Label `error` of `read_auth_req_handler` (and of `write_auth_res_handler`,
`read_client_data_handler`, `write_remote_data_handler`, and `error0` of
`read_req_handler`): free `buffer`, clear `self->buffer0`, destroy. -/
def error_free0_destroy (buffer : Nat) (w : World) : World :=
  hev_socks5_session_destroy (set_buffer0 none (hev_buffer_list_free buffer w))

/-- `read_auth_req_handler`; `size` and `buffer` are what
`hev_pollable_fd_read_finish` returns. -/
def read_auth_req_handler (env : Env) (size : Int) (buffer : Nat) (w : World) : World :=
  let w := clear_idle w
  if 0 ≥ size then error_free0_destroy buffer w
  else
    let b := w.buf buffer
    let r := hev_socks5_proto_auth_req_unpack b.data (b.offset + size.toNat)
    if 0 > r.left_size then
      let w := w.set_buf buffer
        { b with offset := b.offset + size.toNat, length := (0 - r.left_size).toNat }
      let rw := hev_socks5_session_client_read env buffer Callback.read_auth_req_handler w
      if rw.1 then rw.2 else error_free0_destroy buffer rw.2
    else if scan_methods b.data r.methods r.method_count 0 = r.method_count then
      error_free0_destroy buffer w
    else
      let p := hev_socks5_proto_auth_res_pack b.data HEV_SOCKS5_PROTO_METHOD_NOAUTH
      let w := w.set_buf buffer { data := p.1, offset := 0, length := p.2 }
      let rw := hev_socks5_session_client_write env buffer Callback.write_auth_res_handler w
      if rw.1 then rw.2 else error_free0_destroy buffer rw.2

/-- `write_auth_res_handler`; `size` and `buffer` are what
`hev_pollable_fd_write_finish` returns. -/
def write_auth_res_handler (env : Env) (size : Int) (buffer : Nat) (w : World) : World :=
  let w := clear_idle w
  if 0 ≥ size then error_free0_destroy buffer w
  else
    let b := w.buf buffer
    if 0 < (b.length : Int) - size then
      let w := w.set_buf buffer
        { b with offset := b.offset + size.toNat, length := b.length - size.toNat }
      let rw := hev_socks5_session_client_write env buffer Callback.write_auth_res_handler w
      if rw.1 then rw.2 else error_free0_destroy buffer rw.2
    else
      let r := hev_socks5_proto_req_unpack b.data 0
      let w := w.set_buf buffer { b with offset := 0, length := (0 - r.left_size).toNat }
      let rw := hev_socks5_session_client_read env buffer Callback.read_req_handler w
      if rw.1 then rw.2 else error_free0_destroy buffer rw.2

/-- `read_req_handler`; `size` and `buffer` are what `hev_pollable_fd_read_finish`
returns.  `cmd` is unpacked and not used.  In the IPV4 and DOMAIN cases the buffer
is returned to the pool before the address is taken through `addr`, which points
into its data area: in the IPV4 case `*(uint32_t *) addr` is a read of the freed
buffer. -/
def read_req_handler (env : Env) (size : Int) (buffer : Nat) (w : World) : World :=
  let w := clear_idle w
  if 0 ≥ size then error_free0_destroy buffer w
  else
    let b := w.buf buffer
    let r := hev_socks5_proto_req_unpack b.data (b.offset + size.toNat)
    if 0 > r.left_size then
      let w := w.set_buf buffer
        { b with offset := b.offset + size.toNat, length := (0 - r.left_size).toNat }
      let rw := hev_socks5_session_client_read env buffer Callback.read_req_handler w
      if rw.1 then rw.2 else error_free0_destroy buffer rw.2
    else if r.atype = HEV_SOCKS5_PROTO_ATYPE_IPV4 then
      let w := set_buffer0 none (hev_buffer_list_free buffer w)
      let w := { w with self := { w.self with addr := { w.self.addr with sin_port := r.port } } }
      let w := w.emit (Event.mem_read buffer r.addr 4)
      let w := { w with self := { w.self with
        addr := { w.self.addr with
          s_addr := read_after_free env (w.buf buffer).data r.addr 4 } } }
      let rw := hev_socks5_session_socket_connect env w
      if rw.1 then rw.2 else hev_socks5_session_destroy rw.2
    else if r.atype = HEV_SOCKS5_PROTO_ATYPE_DOMAIN then
      let w := set_buffer0 none (hev_buffer_list_free buffer w)
      let w := { w with
        self := { w.self with
          resolver := if env.resolver_new then some { server := [8, 8, 8, 8] } else none },
        log := w.log ++ [Event.resolver_new env.resolver_new] }
      if w.self.resolver.isNone then hev_socks5_session_destroy w
      else
        let w := { w with self := { w.self with addr := { w.self.addr with sin_port := r.port } } }
        let w := w.emit (Event.resolver_query_async buffer r.addr env.query_async)
        if env.query_async then w else hev_socks5_session_destroy w
    else
      let p := hev_socks5_proto_res_pack b.data HEV_SOCKS5_PROTO_REP_ATYPE_NOT_SUPPORT
        r.atype (b.data.drop r.addr) r.port
      let w := w.set_buf buffer { data := p.1, offset := 0, length := p.2 }
      let rw := hev_socks5_session_client_write env buffer Callback.write_res_handler w
      if rw.1 then rw.2 else error_free0_destroy buffer rw.2

/-- `resolver_handler`; `ip` is what `hev_dns_resolver_query_finish` returns, a
`uint32_t` in network byte order given by its four bytes (`0 == ip` when all four
are 0). -/
def resolver_handler (env : Env) (ip : List Nat) (w : World) : World :=
  let w := clear_idle w
  if slice ip 0 4 = [0, 0, 0, 0] then hev_socks5_session_destroy w
  else
    let w := { w with self := { w.self with addr := { w.self.addr with s_addr := slice ip 0 4 } } }
    let rw := hev_socks5_session_socket_connect env w
    if rw.1 then rw.2 else hev_socks5_session_destroy rw.2

/-- `socket_connect_handler`; `status` is what `hev_socket_connect_finish` returns. -/
def socket_connect_handler (env : Env) (status : Int) (w : World) : World :=
  let w := clear_idle w
  if 0 > status then hev_socks5_session_destroy w
  else
    let w := { w with self := { w.self with remote_fd := env.dup } }
    let w := { w with self := { w.self with socket := none },
                      log := w.log ++ [Event.socket_destroy] }
    let w := { w with
      self := { w.self with
        remote_pfd := if env.pfd_new then
            some { fd := w.self.remote_fd, reading := none, writing := none }
          else none },
      log := w.log ++ [Event.pfd_new PFD.remote w.self.remote_fd env.pfd_new] }
    if w.self.remote_pfd.isNone then hev_socks5_session_destroy w
    else
      let aw := hev_buffer_list_alloc env w
      let w := set_buffer0 aw.1 aw.2
      match aw.1 with
      | none => hev_socks5_session_destroy w
      | some buffer0 =>
        let p := hev_socks5_proto_res_pack (w.buf buffer0).data HEV_SOCKS5_PROTO_REP_SUCC
          HEV_SOCKS5_PROTO_ATYPE_IPV4 w.self.addr.s_addr w.self.addr.sin_port
        let w := w.set_buf buffer0 { data := p.1, offset := 0, length := p.2 }
        let rw := hev_socks5_session_client_write env buffer0 Callback.write_res_handler w
        if rw.1 then rw.2 else hev_socks5_session_destroy rw.2

/-- Label `error1` of `write_res_handler`: free `buffer`, clear `self->buffer0`, fall
into `error2` (destroy). -/
def write_res_error1 (buffer : Nat) (w : World) : World :=
  hev_socks5_session_destroy (set_buffer0 none (hev_buffer_list_free buffer w))

/-- Label `error0` of `write_res_handler`: free `self->buffer1`, clear it, fall into
`error1`. -/
def write_res_error0 (buffer : Nat) (w : World) : World :=
  write_res_error1 buffer
    (set_buffer1 none
      (match w.self.buffer1 with
       | some p => hev_buffer_list_free p w
       | none => w))

/-- `write_res_handler`; `size` and `buffer` are what `hev_pollable_fd_write_finish`
returns; `B` is `HEV_BUFFER_DATA_SIZE` (hev-buffer.h is not among the sources). -/
def write_res_handler (B : Nat) (env : Env) (size : Int) (buffer : Nat) (w : World) : World :=
  let w := clear_idle w
  if 0 ≥ size then write_res_error1 buffer w
  else
    let b := w.buf buffer
    if 0 < (b.length : Int) - size then
      let w := w.set_buf buffer
        { b with offset := b.offset + size.toNat, length := b.length - size.toNat }
      let rw := hev_socks5_session_client_write env buffer Callback.write_res_handler w
      if rw.1 then rw.2 else write_res_error1 buffer rw.2
    else
      let w := w.set_buf buffer { b with offset := 0, length := B }
      let rw := hev_socks5_session_client_read env buffer Callback.read_client_data_handler w
      if rw.1 then
        let aw := hev_buffer_list_alloc env rw.2
        let w := set_buffer1 aw.1 aw.2
        match aw.1 with
        | none => hev_socks5_session_destroy w
        | some buffer1 =>
          let w := w.set_buf buffer1 { (w.buf buffer1) with offset := 0, length := B }
          let rr := hev_socks5_session_remote_read env buffer1 Callback.read_remote_data_handler w
          if rr.1 then rr.2 else write_res_error0 buffer rr.2
      else write_res_error1 buffer rw.2

/-- `read_client_data_handler`. -/
def read_client_data_handler (env : Env) (size : Int) (buffer : Nat) (w : World) : World :=
  let w := clear_idle w
  if 0 ≥ size then error_free0_destroy buffer w
  else
    let w := w.set_buf buffer { (w.buf buffer) with length := size.toNat }
    let rw := hev_socks5_session_remote_write env buffer Callback.write_remote_data_handler w
    if rw.1 then rw.2 else error_free0_destroy buffer rw.2

/-- Label `error` of `read_remote_data_handler` and of `write_client_data_handler`:
free `buffer`, clear `self->buffer1`, return. -/
def error_free1 (buffer : Nat) (w : World) : World :=
  set_buffer1 none (hev_buffer_list_free buffer w)

/-- `read_remote_data_handler`. -/
def read_remote_data_handler (env : Env) (size : Int) (buffer : Nat) (w : World) : World :=
  let w := clear_idle w
  if 0 ≥ size then error_free1 buffer w
  else
    let w := w.set_buf buffer { (w.buf buffer) with length := size.toNat }
    let rw := hev_socks5_session_client_write env buffer Callback.write_client_data_handler w
    if rw.1 then rw.2 else error_free1 buffer rw.2

/-- `write_client_data_handler`. -/
def write_client_data_handler (B : Nat) (env : Env) (size : Int) (buffer : Nat) (w : World) :
    World :=
  let w := clear_idle w
  if 0 ≥ size then error_free1 buffer w
  else
    let b := w.buf buffer
    if 0 < (b.length : Int) - size then
      let w := w.set_buf buffer
        { b with offset := b.offset + size.toNat, length := b.length - size.toNat }
      let rw := hev_socks5_session_client_write env buffer Callback.write_client_data_handler w
      if rw.1 then rw.2 else error_free1 buffer rw.2
    else
      let w := w.set_buf buffer { b with offset := 0, length := B }
      let rw := hev_socks5_session_remote_read env buffer Callback.read_remote_data_handler w
      if rw.1 then rw.2 else error_free1 buffer rw.2

/-- `write_remote_data_handler`. -/
def write_remote_data_handler (B : Nat) (env : Env) (size : Int) (buffer : Nat) (w : World) :
    World :=
  let w := clear_idle w
  if 0 ≥ size then error_free0_destroy buffer w
  else
    let b := w.buf buffer
    if 0 < (b.length : Int) - size then
      let w := w.set_buf buffer
        { b with offset := b.offset + size.toNat, length := b.length - size.toNat }
      let rw := hev_socks5_session_remote_write env buffer Callback.write_remote_data_handler w
      if rw.1 then rw.2 else error_free0_destroy buffer rw.2
    else
      let w := w.set_buf buffer { b with offset := 0, length := B }
      let rw := hev_socks5_session_client_read env buffer Callback.read_client_data_handler w
      if rw.1 then rw.2 else error_free0_destroy buffer rw.2

/-- What `hev_malloc0 (sizeof (HevSocks5Session))` returns, every field zero, once
`client_pfd` has been set. -/
def malloc0_session (client_pfd : HevPollableFD) : HevSocks5Session :=
  { client_fd := 0, remote_fd := 0, is_idle := false, buffer0 := none, buffer1 := none,
    socket := none, resolver := none, client_pfd := client_pfd, remote_pfd := none,
    notifer := false,
    addr := { sin_family := 0, sin_port := [0, 0], s_addr := [0, 0, 0, 0] } }

/-- `hev_socks5_session_new`: the result is `none` for NULL, otherwise the new session
with its first read submitted.  `notify` tells whether the notifier is non-NULL.
The second component is the log of the calls made on a path that returns NULL. -/
def hev_socks5_session_new (env : Env) (fd : Int) (notify : Bool) : Option World × List Event :=
  if !env.malloc then (none, [])
  else if !env.pfd_new then (none, [Event.pfd_new PFD.client fd false, Event.free_self])
  else
    let w : World :=
      { self := { malloc0_session { fd := fd, reading := none, writing := none } with
          client_fd := fd, is_idle := false, notifer := notify },
        heap := [], log := [Event.pfd_new PFD.client fd true], freed := false }
    let aw := hev_buffer_list_alloc env w
    let w := set_buffer0 aw.1 aw.2
    match aw.1 with
    | none => (none, w.log ++ [Event.pfd_destroy PFD.client, Event.free_self])
    | some buffer0 =>
      let r := hev_socks5_proto_auth_req_unpack (w.buf buffer0).data 0
      let w := w.set_buf buffer0
        { (w.buf buffer0) with offset := 0, length := (0 - r.left_size).toNat }
      let rw := hev_socks5_session_client_read env buffer0 Callback.read_auth_req_handler w
      if rw.1 then
        (some { rw.2 with self := { rw.2.self with
            addr := { rw.2.self.addr with sin_family := AF_INET } } }, [])
      else
        (none, rw.2.log ++ [Event.buffer_free buffer0, Event.pfd_destroy PFD.client,
          Event.free_self])

/-- The pollable fd of the session a `PFD` names. -/
def World.pfd (w : World) : PFD → Option HevPollableFD
  | PFD.client => some w.self.client_pfd
  | PFD.remote => w.self.remote_pfd

/-- Replace the pollable fd a `PFD` names. -/
def World.set_pfd (w : World) (which : PFD) (p : HevPollableFD) : World :=
  match which with
  | PFD.client => { w with self := { w.self with client_pfd := p } }
  | PFD.remote => { w with self := { w.self with remote_pfd := some p } }

/-- The read in flight on a pollable fd of the session, if any. -/
def World.reading (w : World) (which : PFD) : Option AsyncOp :=
  match w.pfd which with
  | some p => p.reading
  | none => none

/-- The write in flight on a pollable fd of the session, if any. -/
def World.writing (w : World) (which : PFD) : Option AsyncOp :=
  match w.pfd which with
  | some p => p.writing
  | none => none

/-- Invocation of a read or write callback of the session with the result of
`hev_pollable_fd_read_finish` / `hev_pollable_fd_write_finish`. -/
def dispatch (B : Nat) (env : Env) (callback : Callback) (size : Int) (buffer : Nat)
    (w : World) : World :=
  match callback with
  | Callback.read_auth_req_handler => read_auth_req_handler env size buffer w
  | Callback.write_auth_res_handler => write_auth_res_handler env size buffer w
  | Callback.read_req_handler => read_req_handler env size buffer w
  | Callback.write_res_handler => write_res_handler B env size buffer w
  | Callback.read_client_data_handler => read_client_data_handler env size buffer w
  | Callback.read_remote_data_handler => read_remote_data_handler env size buffer w
  | Callback.write_client_data_handler => write_client_data_handler B env size buffer w
  | Callback.write_remote_data_handler => write_remote_data_handler B env size buffer w
  | Callback.resolver_handler => w
  | Callback.socket_connect_handler => w

/-- Modelled from the spec: completion of the read in flight on a pollable fd
(hev-pollable-fd.c is not among the sources): the pollable fd runs the reader
(`sock_reader`) with the submitted buffer and count, the read is no longer in flight,
and the callback runs with the reader's result.  A destroyed session gets no
callback. -/
def read_ready (B : Nat) (env : Env) (which : PFD) (avail : Option (List Nat)) (w : World) :
    World :=
  if w.freed then w
  else
    match w.pfd which with
    | none => w
    | some p =>
      match p.reading with
      | none => w
      | some op =>
        let r := sock_reader (w.buf op.buffer) op.count avail
        dispatch B env op.callback r.1 op.buffer
          ((w.set_buf op.buffer r.2).set_pfd which { p with reading := none })

/-- Modelled from the spec: completion of the write in flight on a pollable fd
(hev-pollable-fd.c is not among the sources), symmetric to `read_ready`.  The second
component is the bytes that went out to the peer. -/
def write_ready (B : Nat) (env : Env) (which : PFD) (room : Option Nat) (w : World) :
    World × List Nat :=
  if w.freed then (w, [])
  else
    match w.pfd which with
    | none => (w, [])
    | some p =>
      match p.writing with
      | none => (w, [])
      | some op =>
        let r := sock_writer (w.buf op.buffer) op.count room
        (dispatch B env op.callback r.1 op.buffer (w.set_pfd which { p with writing := none }),
          r.2)

/-- The client sends `stream`.  The reads in flight on the client pollable fd complete
one after another; the i-th finds `ks[i]` bytes of the stream queued and takes at most
the count it asked for.  The result is the final world and the part of the stream
that has not been read. -/
def client_sends (B : Nat) (env : Env) : List Nat → World → List Nat → World × List Nat
  | [], w, stream => (w, stream)
  | k :: ks, w, stream =>
    match w.reading PFD.client with
    | none => (w, stream)
    | some op =>
      client_sends B env ks (read_ready B env PFD.client (some (stream.take k)) w)
        (stream.drop (min k op.count))

/-- The peer behind pollable fd `which` accepts data.  The writes in flight on
callback `cb` complete one after another; the i-th finds room for `ks[i]` bytes and
writes at most the count it submitted.  The result is the final world and all the
bytes that went out, in order. -/
def peer_accepts (B : Nat) (env : Env) (which : PFD) (cb : Callback) :
    List Nat → World → List Nat → World × List Nat
  | [], w, out => (w, out)
  | k :: ks, w, out =>
    match w.writing which with
    | none => (w, out)
    | some op =>
      if op.callback = cb then
        peer_accepts B env which cb ks (write_ready B env which (some k) w).1
          (out ++ (write_ready B env which (some k) w).2)
      else (w, out)

/-- The new part of a log: what `after` has beyond the first `before.length` entries. -/
def new_events (before after : World) : List Event :=
  after.log.drop before.log.length

/-- Whether a call submits a write. -/
def Event.is_write : Event → Bool
  | Event.write_async _ _ _ _ _ _ => true
  | _ => false

/-- Whether a call submits a read. -/
def Event.is_read : Event → Bool
  | Event.read_async _ _ _ _ _ _ => true
  | _ => false

/-- Whether a call submits a read or a write. -/
def Event.is_transfer (e : Event) : Bool :=
  e.is_read || e.is_write

/-! ## hev-socks5-server.c -/

/-- A session whose buf0 holds the complete auth request `05 02 02 00`, the last two
bytes just read. -/
def ex_auth_world : World :=
  { self := { malloc0_session { fd := 4, reading := none, writing := none } with
      client_fd := 4, notifer := true, buffer0 := some 0 },
    heap := [{ data := [5, 2, 2, 0], offset := 2, length := 2 }],
    log := [], freed := false }

/-- A world whose session object has been released (stands for NULL where a world is
needed). -/
def World.closed : World :=
  { self := malloc0_session { fd := 0, reading := none, writing := none },
    heap := [], log := [], freed := true }

/-- Scenario S1, step by step, with `HEV_BUFFER_DATA_SIZE` = 8192 and every
collaborator call succeeding: the session just created on client fd 4. -/
def ex_s1_new : World :=
  match (hev_socks5_session_new (Env.ok []) 4 true).1 with
  | some w => w
  | none => World.closed

/-- S1 after the client has sent the auth request `05 01 00`. -/
def ex_s1_auth_read : World :=
  (client_sends 8192 (Env.ok []) [3, 3] ex_s1_new [5, 1, 0]).1

/-- S1 after the auth response has been written out. -/
def ex_s1_auth_written : World :=
  (peer_accepts 8192 (Env.ok []) PFD.client Callback.write_auth_res_handler [2]
    ex_s1_auth_read []).1

/-- S1 after the client has sent the request `05 01 00 01 7F 00 00 01 00 50`. -/
def ex_s1_req_read : World :=
  (client_sends 8192 (Env.ok []) [10, 10] ex_s1_auth_written
    [5, 1, 0, 1, 127, 0, 0, 1, 0, 80]).1

/-- S1 after the connect has succeeded. -/
def ex_s1_connected : World :=
  socket_connect_handler (Env.ok []) 0 ex_s1_req_read

/-- S1 after the reply has been written out: the session is relaying. -/
def ex_s1_relaying : World :=
  (peer_accepts 8192 (Env.ok []) PFD.client Callback.write_res_handler [10]
    ex_s1_connected []).1

/-- The relaying session of S1 after the upstream has sent `48 49` ("HI"), which is
now being written to the client. -/
def ex_s1_remote_data : World :=
  read_ready 8192 (Env.ok []) PFD.remote (some [72, 73]) ex_s1_relaying

/-- A session whose buf0 holds the complete request `05 02 00 01 7F 00 00 01 00 50`
(CMD = BIND, ATYP = IPv4, 127.0.0.1:80), the last six bytes just read. -/
def ex_bind_world : World :=
  { self := { malloc0_session { fd := 4, reading := none, writing := none } with
      client_fd := 4, notifer := true, buffer0 := some 0,
      addr := { sin_family := AF_INET, sin_port := [0, 0], s_addr := [0, 0, 0, 0] } },
    heap := [{ data := [5, 2, 0, 1, 127, 0, 0, 1, 0, 80], offset := 4, length := 6 }],
    log := [], freed := false }

/-- Scenario S3: after the auth exchange of S1 the client has sent the IPv6 request
`05 01 00 04 <20 01 0d b8 00 .. 00 01> 00 50`; the reply is being written. -/
def ex_s3_req_read : World :=
  (client_sends 8192 (Env.ok []) [22, 22] ex_s1_auth_written
    [5, 1, 0, 4, 32, 1, 13, 184, 0, 0, 0, 0, 0, 0, 0, 0, 0, 0, 0, 1, 0, 80]).1

/-- An environment in which every collaborator call succeeds except the submission of
a read on the remote pollable fd. -/
def Env.no_remote_read : Env :=
  { Env.ok [] with remote_read := false }

/-- A session whose buf0 holds the complete IPv6 request of scenario S3, the last 18
bytes just read. -/
def ex_ipv6_world : World :=
  { self := { malloc0_session { fd := 4, reading := none, writing := none } with
      client_fd := 4, notifer := true, buffer0 := some 0,
      addr := { sin_family := AF_INET, sin_port := [0, 0], s_addr := [0, 0, 0, 0] } },
    heap := [{ data := [5, 1, 0, 4, 32, 1, 13, 184, 0, 0, 0, 0, 0, 0, 0, 0, 0, 0, 0, 1, 0, 80],
               offset := 4, length := 18 }],
    log := [], freed := false }

/-! ## Predicates used in the statements -/

/-- After `socket_connect_handler` took `before` to `after`: buf0 is a buffer holding
the reply packed by the codec from REP = 0x00, ATYP = IPv4, address `addr` and port
`port` into a data area that held `d`, that is `05 00 00 01`, the four address bytes
and the two port bytes; and the handler submitted exactly one write, of these 10 bytes
from offset 0, on the client. -/
def success_reply_submitted (before after : World) (ok : Bool) (d addr port : List Nat) : Prop :=
  ∃ buffer0, after.self.buffer0 = some buffer0 ∧
    (after.buf buffer0).data =
      (hev_socks5_proto_res_pack d HEV_SOCKS5_PROTO_REP_SUCC HEV_SOCKS5_PROTO_ATYPE_IPV4
        addr port).1 ∧
    slice (after.buf buffer0).data 0 10 = [5, 0, 0, 1] ++ addr ++ port ∧
    (new_events before after).filter Event.is_write =
      [Event.write_async (some PFD.client) buffer0 0 10 Callback.write_res_handler ok]

/-- A session whose buf0 holds the complete request of scenario S2,
`05 01 00 03 0B "example.com" 00 50`, the last 13 bytes just read. -/
def ex_domain_world : World :=
  { self := { malloc0_session { fd := 4, reading := none, writing := none } with
      client_fd := 4, notifer := true, buffer0 := some 0,
      addr := { sin_family := AF_INET, sin_port := [0, 0], s_addr := [0, 0, 0, 0] } },
    heap := [{ data := [5, 1, 0, 3, 11, 101, 120, 97, 109, 112, 108, 101, 46, 99, 111, 109, 0, 80],
               offset := 5, length := 13 }],
    log := [], freed := false }

/-- The byte count the session asks for when the codec returns `left_size`, negative:
`0 - left_size`. -/
def still_needed (left_size : Int) : Nat := (0 - left_size).toNat

/-- The session is in the middle of reading the handshake frame `frame` into buffer
`p`, `got` bytes of it received so far, since the world `start`: the session is alive;
the bytes received are stored contiguously from offset 0 of the buffer; the read in
flight on the client is on that buffer with callback `cb`, starts at offset `got` and
asks for exactly the count the codec (`left`, the int an unpack function returns)
reports as still needed from the buffer's contents; that count is positive and does not
reach past the end of the frame; and no write has been submitted since `start`. -/
def frame_pending (cb : Callback) (left : List Nat → Nat → Int) (frame : List Nat) (p : Nat)
    (start w : World) (got : Nat) : Prop :=
  w.freed = false ∧ p < w.heap.length ∧
  w.reading PFD.client =
    some { buffer := p, count := still_needed (left (w.buf p).data got), callback := cb } ∧
  (w.buf p).offset = got ∧
  (w.buf p).length = still_needed (left (w.buf p).data got) ∧
  slice (w.buf p).data 0 got = frame.take got ∧
  0 < still_needed (left (w.buf p).data got) ∧
  got + still_needed (left (w.buf p).data got) ≤ frame.length ∧
  (∃ evs, w.log = start.log ++ evs ∧ evs.filter Event.is_write = [])

/-- The read that delivered the last byte of the handshake frame `frame` has just
completed on `w`, before its callback runs: the session is alive, buffer `p` holds the
whole frame contiguously from offset 0, the completed read (of `size` bytes, positive)
ends exactly at the end of the frame, no read is in flight on the client, and no write
has been submitted since `start`. -/
def frame_complete (frame : List Nat) (p : Nat) (start w : World) (size : Int) : Prop :=
  w.freed = false ∧ p < w.heap.length ∧ 0 < size ∧
  w.reading PFD.client = none ∧
  (w.buf p).offset + size.toNat = frame.length ∧
  slice (w.buf p).data 0 frame.length = frame ∧
  (∃ evs, w.log = start.log ++ evs ∧ evs.filter Event.is_write = [])

/-- A well-framed auth request: `VER NMETHODS METHODS[NMETHODS]`. -/
def valid_auth_request (frame : List Nat) : Prop :=
  frame.length = 2 + load frame 1 % 256

/-- A well-framed request: `VER CMD RSV ATYP DST.ADDR DST.PORT` with ATYP one of IPv4,
DOMAIN, IPv6 and an address field of the length the address type prescribes. -/
def valid_request (frame : List Nat) : Prop :=
  (load frame 3 % 256 = HEV_SOCKS5_PROTO_ATYPE_IPV4 ∨
    load frame 3 % 256 = HEV_SOCKS5_PROTO_ATYPE_DOMAIN ∨
    load frame 3 % 256 = HEV_SOCKS5_PROTO_ATYPE_IPV6) ∧
  frame.length = 4 + addr_size (load frame 3 % 256) (load frame 4) + 2

instance (frame : List Nat) : Decidable (valid_auth_request frame) := by
  unfold valid_auth_request
  infer_instance

instance (frame : List Nat) : Decidable (valid_request frame) := by
  unfold valid_request
  infer_instance

/-- The int `hev_socks5_proto_auth_req_unpack` returns. -/
def auth_req_left (data : List Nat) (size : Nat) : Int :=
  (hev_socks5_proto_auth_req_unpack data size).left_size

/-- The int `hev_socks5_proto_req_unpack` returns. -/
def req_left (data : List Nat) (size : Nat) : Int :=
  (hev_socks5_proto_req_unpack data size).left_size

/-- Where the session stands after the client has sent the handshake frame `frame` and
the reads completed as `ks` allowed, `r` being the result of `client_sends`: some
number `got` of bytes of the frame has been read and the rest of the stream is exactly
the rest of the frame; either the frame is incomplete, every completed read delivered
at least one byte, and the session is in the middle of reading it (`frame_pending`);
or the whole frame has been read and the world is the one the callback `handler`
produced when it ran once, on the completion that delivered the last byte
(`frame_complete`). -/
def frame_read_outcome (cb : Callback) (left : List Nat → Nat → Int)
    (handler : Int → Nat → World → World) (frame : List Nat) (p : Nat) (start : World)
    (ks : List Nat) (r : World × List Nat) : Prop :=
  ∃ got, got ≤ frame.length ∧ r.2 = frame.drop got ∧
    ((got < frame.length ∧ ks.length ≤ got ∧ frame_pending cb left frame p start r.1 got) ∨
     (got = frame.length ∧
        ∃ v size, frame_complete frame p start v size ∧ r.1 = handler size p v))

/-- The world `hev_socks5_session_new` returns for client fd `fd` when every
collaborator call succeeds and the buffer handed out holds `d`
(see `session_new_pending`). -/
def session_new_world (fd : Int) (notify : Bool) (d : List Nat) : World :=
  { self :=
      { client_fd := fd,
        remote_fd := 0,
        is_idle := false,
        buffer0 := some 0,
        buffer1 := none,
        socket := none,
        resolver := none,
        client_pfd :=
          { fd := fd,
            reading := some { buffer := 0, count := 2,
                              callback := Callback.read_auth_req_handler },
            writing := none },
        remote_pfd := none,
        notifer := notify,
        addr := { sin_family := AF_INET, sin_port := [0, 0], s_addr := [0, 0, 0, 0] } },
    heap := [{ data := d, offset := 0, length := 2 }],
    log := [Event.pfd_new PFD.client fd true, Event.buffer_alloc (some 0),
            Event.read_async (some PFD.client) 0 0 2 Callback.read_auth_req_handler true],
    freed := false }

/-- The session's write submission on the pollable fd `which`:
`hev_socks5_session_client_write` or `hev_socks5_session_remote_write`. -/
def session_write (which : PFD) (env : Env) (buffer : Nat) (callback : Callback) (w : World) :
    Bool × World :=
  match which with
  | PFD.client => hev_socks5_session_client_write env buffer callback w
  | PFD.remote => hev_socks5_session_remote_write env buffer callback w

/-- Whether the environment accepts a write submission on the pollable fd `which`. -/
def Env.write_ok (env : Env) (which : PFD) : Bool :=
  match which with
  | PFD.client => env.client_write
  | PFD.remote => env.remote_write

/-- The session is in the middle of writing out the `n` bytes `data[0..n)` of buffer
`p` on the pollable fd `which`, `sent` of them written so far, since the world
`start`: the session is alive; the data area is unchanged; the write in flight is on
that buffer with callback `cb`, starts at offset `sent` and has length `n - sent`,
positive; and no read has been submitted since `start`. -/
def write_pending (which : PFD) (cb : Callback) (data : List Nat) (n p : Nat)
    (start w : World) (sent : Nat) : Prop :=
  w.freed = false ∧ p < w.heap.length ∧
  w.writing which = some { buffer := p, count := n - sent, callback := cb } ∧
  (w.buf p).offset = sent ∧
  (w.buf p).length = n - sent ∧
  (w.buf p).data = data ∧
  sent < n ∧
  (∃ evs, w.log = start.log ++ evs ∧ evs.filter Event.is_read = [])

/-- The write that took the last of the `n` bytes `data[0..n)` of buffer `p` has just
completed on `v`, before its callback runs: the session is alive, the data area is
unchanged, the completed write (of `size` bytes, positive) started at the buffer's
offset, covered all that was left and ended at `n`, no write is in flight on `which`,
and no read has been submitted since `start`. -/
def write_complete (which : PFD) (data : List Nat) (n p : Nat) (start v : World)
    (size : Int) : Prop :=
  v.freed = false ∧ p < v.heap.length ∧ 0 < size ∧
  v.writing which = none ∧
  (v.buf p).data = data ∧
  (v.buf p).offset + size.toNat = n ∧
  (v.buf p).length = size.toNat ∧
  (∃ evs, v.log = start.log ++ evs ∧ evs.filter Event.is_read = [])

/-- Where the session stands after the peer has accepted data as `ks` allowed, `r`
being the result of `peer_accepts` started with nothing sent: the bytes that went out
are exactly `data[0..sent)`, in order; either `sent < n`, every completed write took
at least one byte, and the session is in the middle of the write (`write_pending`);
or `sent = n` and the world is the one the callback `handler` produced when it ran
once, on the completion that took the last byte (`write_complete`). -/
def drain_outcome (which : PFD) (cb : Callback) (handler : Int → Nat → World → World)
    (data : List Nat) (n p : Nat) (start : World) (ks : List Nat) (r : World × List Nat) :
    Prop :=
  ∃ sent, sent ≤ n ∧ r.2 = slice data 0 sent ∧
    ((sent < n ∧ ks.length ≤ sent ∧ write_pending which cb data n p start r.1 sent) ∨
     (sent = n ∧ ∃ v size, write_complete which data n p start v size ∧ r.1 = handler size p v))

/-- Scenario S2: after the auth exchange of S1 the client has sent the DOMAIN request
`05 01 00 03 0B "example.com" 00 50`; the DNS query is outstanding. -/
def ex_s2_req_read : World :=
  (client_sends 8192 (Env.ok []) [18, 18, 18] ex_s1_auth_written
    [5, 1, 0, 3, 11, 101, 120, 97, 109, 112, 108, 101, 46, 99, 111, 109, 0, 80]).1

/-- S2 after the DNS query has returned 93.184.216.34: the connect is outstanding. -/
def ex_s2_resolved : World :=
  resolver_handler (Env.ok []) [93, 184, 216, 34] ex_s2_req_read

/-- S2 after the connect has succeeded: the reply is being written. -/
def ex_s2_connected : World :=
  socket_connect_handler (Env.ok []) 0 ex_s2_resolved

/-- S2 after the reply has been written out: the session is relaying. -/
def ex_s2_relaying : World :=
  (peer_accepts 8192 (Env.ok []) PFD.client Callback.write_res_handler [10]
    ex_s2_connected []).1

/-- Scenario S4: the session of S1 just created, after the client has sent the auth
request `05 01 02` (GSSAPI only). -/
def ex_s4_closed : World :=
  (client_sends 8192 (Env.ok []) [3, 3] ex_s1_new [5, 1, 2]).1

/-! ## Runs of a session -/

/-- What the environment can deliver to a session: the completion of the read or of
the write in flight on one of its pollable fds, the result of the DNS query, the
result of the connect. -/
inductive Input
  | read (which : PFD) (avail : Option (List Nat))
  | write (which : PFD) (room : Option Nat)
  | resolved (ip : List Nat)
  | connected (status : Int)
  deriving DecidableEq, Repr

/-- The DNS query is outstanding: the last call the session made is the accepted
`hev_dns_resolver_query_async` (nothing else can run for the session until the query
completes). -/
def query_outstanding (w : World) : Bool :=
  match w.log.getLast? with
  | some (Event.resolver_query_async _ _ true) => true
  | _ => false

/-- The connect is outstanding: the last call the session made is the accepted
`hev_socket_connect_async`. -/
def connect_outstanding (w : World) : Bool :=
  match w.log.getLast? with
  | some (Event.socket_connect_async _ true) => true
  | _ => false

/-- Modelled from the spec: one callback of the event loop into the session (the
collaborators are not among the sources).  A read or write completion runs the callback
of the operation in flight; the resolver and the socket call back only while the query
or the connect is outstanding; "destroying a Session destroys its PollableFDs, its
resolver, and its pending connect, guaranteeing no late callback into a dead
session". -/
def step (B : Nat) (env : Env) (i : Input) (w : World) : World :=
  match i with
  | Input.read which avail => read_ready B env which avail w
  | Input.write which room => (write_ready B env which room w).1
  | Input.resolved ip =>
    if !w.freed && query_outstanding w then resolver_handler env ip w else w
  | Input.connected status =>
    if !w.freed && connect_outstanding w then socket_connect_handler env status w else w

/-- A run: the callbacks `steps` delivered one after another, each with the results
its collaborator calls get. -/
def run (B : Nat) : List (Env × Input) → World → World
  | [], w => w
  | s :: rest, w => run B rest (step B s.1 s.2 w)

/-- The calls that take a session down: releasing a pollable fd, closing an fd, the
close notifier, releasing the session object. -/
def Event.is_teardown : Event → Bool
  | Event.pfd_destroy _ => true
  | Event.close _ => true
  | Event.close_notify => true
  | Event.free_self => true
  | _ => false

/-- A read or write submission stays inside the buffer: `offset + length ≤ B`
(`0 ≤ offset` holds by type). -/
def Event.in_bounds (B : Nat) : Event → Bool
  | Event.read_async _ _ offset count _ _ => decide (offset + count ≤ B)
  | Event.write_async _ _ offset count _ _ => decide (offset + count ≤ B)
  | _ => true

/-- A read submitted on the pollable fd `which`, whether accepted or refused. -/
def Event.submits_read (which : PFD) : Event → Bool
  | Event.read_async (some pfd) _ _ _ _ _ => decide (pfd = which)
  | _ => false

/-- A write submitted on the pollable fd `which`, whether accepted or refused. -/
def Event.submits_write (which : PFD) : Event → Bool
  | Event.write_async (some pfd) _ _ _ _ _ => decide (pfd = which)
  | _ => false

/-- In how many of the fields `buffer0`, `buffer1` the session holds buffer `p`. -/
def World.holds (w : World) (p : Nat) : Nat :=
  (if w.self.buffer0 = some p then 1 else 0) + (if w.self.buffer1 = some p then 1 else 0)

/-- The pool hands out buffer `p`. -/
def Event.allocs (p : Nat) : Event → Bool
  | Event.buffer_alloc (some q) => decide (q = p)
  | _ => false

/-- The session returns buffer `p` to the pool. -/
def Event.frees (p : Nat) : Event → Bool
  | Event.buffer_free q => decide (q = p)
  | _ => false

/-- How many times buffer `p` has been handed out by the pool. -/
def alloc_count (p : Nat) (log : List Event) : Nat :=
  log.countP (Event.allocs p)

/-- How many times buffer `p` has been returned to the pool. -/
def free_count (p : Nat) (log : List Event) : Nat :=
  log.countP (Event.frees p)


/-! ## The invariant of a session along a run -/

/-- Calls to the buffer pool that hand out or take back a buffer. -/
def Event.is_pool : Event → Bool
  | Event.buffer_alloc (some _) => true
  | Event.buffer_free _ => true
  | _ => false

/-- The buffer of an operation in flight is described by the operation: its `length`
is the count submitted and `offset + length` is inside the data area. -/
def op_ok (B : Nat) (w : World) (op : AsyncOp) : Prop :=
  (w.buf op.buffer).length = op.count ∧ (w.buf op.buffer).offset + op.count ≤ B

/-- Book-keeping of a live session: every submission so far is in bounds, the pool
has handed out exactly the pointers below `heap.length`, once each, nothing has been
torn down, and every buffer handed out has either been freed once or is held in
exactly one of `buffer0`, `buffer1`. -/
def accounted (B : Nat) (w : World) : Prop :=
  (∀ e ∈ w.log, e.in_bounds B = true) ∧
  (∀ p, alloc_count p w.log = if p < w.heap.length then 1 else 0) ∧
  (∀ e ∈ w.log, e.is_teardown = false) ∧
  (∀ p, free_count p w.log + w.holds p = if p < w.heap.length then 1 else 0)

/-- What the operations in flight of a live session look like.  A client read is on
`buffer0` and excludes a remote write; a handshake read excludes everything else.  A
client write is either the relay write of `buffer1` (excluding a remote read) or a
handshake write of `buffer0` (excluding everything else).  A remote read is on
`buffer1`, a remote write on `buffer0`.  While the DNS query or the connect is
outstanding the session holds no buffer and has nothing in flight. -/
def ops_inv (B : Nat) (w : World) : Prop :=
  (∀ op, w.self.client_pfd.reading = some op →
    op_ok B w op ∧ w.self.buffer0 = some op.buffer ∧ w.writing PFD.remote = none ∧
    ((op.callback = Callback.read_client_data_handler ∧
        ∀ op2, w.self.client_pfd.writing = some op2 →
          op2.callback = Callback.write_client_data_handler) ∨
      ((op.callback = Callback.read_auth_req_handler ∨
          op.callback = Callback.read_req_handler) ∧
        w.self.buffer1 = none ∧ w.self.client_pfd.writing = none ∧
        w.self.remote_pfd = none))) ∧
  (∀ op, w.self.client_pfd.writing = some op →
    op_ok B w op ∧
    ((op.callback = Callback.write_client_data_handler ∧
        w.self.buffer1 = some op.buffer ∧ w.reading PFD.remote = none) ∨
      (((op.callback = Callback.write_auth_res_handler ∧ w.self.remote_pfd = none) ∨
          op.callback = Callback.write_res_handler) ∧
        w.self.buffer0 = some op.buffer ∧ w.self.buffer1 = none ∧
        w.self.client_pfd.reading = none ∧ w.reading PFD.remote = none ∧
        w.writing PFD.remote = none))) ∧
  (∀ op, w.reading PFD.remote = some op →
    op_ok B w op ∧ op.callback = Callback.read_remote_data_handler ∧
    w.self.buffer1 = some op.buffer) ∧
  (∀ op, w.writing PFD.remote = some op →
    op_ok B w op ∧ op.callback = Callback.write_remote_data_handler ∧
    w.self.buffer0 = some op.buffer) ∧
  (connect_outstanding w = true ∨ query_outstanding w = true →
    w.self.buffer0 = none ∧ w.self.buffer1 = none ∧ w.self.client_pfd.reading = none ∧
    w.self.client_pfd.writing = none ∧ w.self.remote_pfd = none)

/-- Book-keeping of a destroyed session: every submission was in bounds, every
buffer handed out has been freed exactly once, and the log ends with the calls of
`hev_socks5_session_destroy`, before which nothing was torn down. -/
def freed_inv (B : Nat) (w : World) : Prop :=
  (∀ e ∈ w.log, e.in_bounds B = true) ∧
  (∀ p, alloc_count p w.log = if p < w.heap.length then 1 else 0) ∧
  (∀ p, free_count p w.log = if p < w.heap.length then 1 else 0) ∧
  (∃ pre, w.log = pre ++ destroy_calls w.self ∧ ∀ e ∈ pre, e.is_teardown = false)

/-- The invariant of a session along a run. -/
def session_inv (B : Nat) (w : World) : Prop :=
  (w.freed = true → freed_inv B w) ∧ (w.freed = false → accounted B w ∧ ops_inv B w)

/-- Whether an input is the completion of the read in flight on `which`. -/
def Input.completes_read (i : Input) (which : PFD) : Bool :=
  match i with
  | Input.read pfd _ => decide (pfd = which)
  | _ => false

/-- Whether an input is the completion of the write in flight on `which`. -/
def Input.completes_write (i : Input) (which : PFD) : Bool :=
  match i with
  | Input.write pfd _ => decide (pfd = which)
  | _ => false

/-- The number of reads submitted on `which` among `events`. -/
def reads_submitted (which : PFD) (events : List Event) : Nat :=
  (events.filter (Event.submits_read which)).length

/-- The number of writes submitted on `which` among `events`. -/
def writes_submitted (which : PFD) (events : List Event) : Nat :=
  (events.filter (Event.submits_write which)).length

/-- No submission made between `v` and `v2` lands on a pollable fd that has an
operation of the same kind in flight in `v`, and no two land on the same one. -/
def fresh_submits (v v2 : World) : Prop :=
  ∀ which,
    reads_submitted which (new_events v v2) + (if (v.reading which).isSome then 1 else 0) ≤ 1 ∧
    writes_submitted which (new_events v v2) + (if (v.writing which).isSome then 1 else 0) ≤ 1

/-! ## Properties of runs -/

/-- Teardown of a session created with notifier `notify` (whether it is non-NULL):
while the object is live nothing has been torn down; once it has been released, the
log ends with the releases of `hev_socks5_session_destroy` (among them the buffers
still held, the client pollable fd and the client fd), then the one call of the close
notifier if there is one, then the one release of the session object. -/
def torn_down_once (notify : Bool) (w : World) : Prop :=
  (w.freed = false → ∀ e ∈ w.log, e.is_teardown = false) ∧
  (w.freed = true →
    ∃ pre rel,
      w.log = pre ++ rel ++ (if notify = true then [Event.close_notify] else [])
        ++ [Event.free_self] ∧
      (∀ e ∈ pre, e.is_teardown = false) ∧
      Event.close_notify ∉ rel ∧ Event.free_self ∉ rel ∧
      Event.pfd_destroy PFD.client ∈ rel ∧ Event.close w.self.client_fd ∈ rel ∧
      (∀ p, w.self.buffer0 = some p ∨ w.self.buffer1 = some p → Event.buffer_free p ∈ rel))

/-- Every buffer pointer is handed out at most once, and is returned exactly as often
as it was handed out. -/
def log_balanced (log : List Event) : Prop :=
  ∀ p, alloc_count p log ≤ 1 ∧ free_count p log = alloc_count p log

/-- Every buffer pointer is handed out at most once; in a destroyed session it has
been returned exactly as often as it was handed out; in a live session it has been
returned or is held in one of `buffer0`, `buffer1`, never both and never twice. -/
def buffers_balanced (w : World) : Prop :=
  ∀ p, alloc_count p w.log ≤ 1 ∧
    (w.freed = true → free_count p w.log = alloc_count p w.log) ∧
    (w.freed = false → free_count p w.log + w.holds p = alloc_count p w.log)

/-- Every read and write submitted in `log` has `offset + length ≤ B`. -/
def submissions_in_bounds (B : Nat) (log : List Event) : Prop :=
  ∀ pfd buffer offset count callback ok,
    (Event.read_async pfd buffer offset count callback ok ∈ log → offset + count ≤ B) ∧
    (Event.write_async pfd buffer offset count callback ok ∈ log → offset + count ≤ B)

/-- On every pollable fd, the reads the callback `i` submits between `w` and `w2`,
plus the read that was in flight in `w` and is not the one `i` completes, are at most
one; the same for writes. -/
def one_in_flight (i : Input) (w w2 : World) : Prop :=
  ∀ which,
    reads_submitted which (new_events w w2)
      + (if (w.reading which).isSome = true ∧ i.completes_read which = false then 1 else 0)
      ≤ 1 ∧
    writes_submitted which (new_events w w2)
      + (if (w.writing which).isSome = true ∧ i.completes_write which = false then 1 else 0)
      ≤ 1

/-- An environment in which every collaborator call succeeds except the submission of
a read on the client pollable fd. -/
def Env.no_client_read : Env :=
  { Env.ok [] with client_read := false }

/-- The callbacks of scenario S1 up to the relay of `48 49` from the upstream to the
client, every collaborator call succeeding. -/
def ex_steps_s1 : List (Env × Input) :=
  [(Env.ok [], Input.read PFD.client (some [5, 1])),
   (Env.ok [], Input.read PFD.client (some [0])),
   (Env.ok [], Input.write PFD.client (some 2)),
   (Env.ok [], Input.read PFD.client (some [5, 1, 0, 1])),
   (Env.ok [], Input.read PFD.client (some [127, 0, 0, 1, 0, 80])),
   (Env.ok [], Input.connected 0),
   (Env.ok [], Input.write PFD.client (some 10)),
   (Env.ok [], Input.read PFD.remote (some [72, 73])),
   (Env.ok [], Input.write PFD.client (some 2))]

/-- Scenario S1 followed by the client closing its connection. -/
def ex_steps_s1_closed : List (Env × Input) :=
  ex_steps_s1 ++ [(Env.ok [], Input.read PFD.client (some []))]

/-- The relaying session of scenario S2 after a read on the client pollable fd has
failed. -/
def ex_s2_closed : World :=
  run 8192 [(Env.ok [], Input.read PFD.client none)] ex_s2_relaying
/-! # Theorems -/

/-! ## Memory lemmas -/

theorem slice_length (data : List Nat) (off n : Nat) : (slice data off n).length = n := by
  simp [slice]

theorem load_slice (data : List Nat) (off n i : Nat) :
    load (slice data off n) i = if i < n then load data (off + i) else 0 := by
  unfold slice load
  by_cases h : i < n
  · simp [List.getD_eq_getElem?_getD, List.getElem?_map, List.getElem?_range h, h]
  · have : n ≤ i := Nat.le_of_not_lt h
    simp [List.getD_eq_getElem?_getD, h, List.getElem?_eq_none, this]

theorem slice_succ (data : List Nat) (off n : Nat) :
    slice data off (n + 1) = load data off :: slice data (off + 1) n := by
  unfold slice
  rw [List.range_succ_eq_map]
  simp [List.map_map, Function.comp_def, Nat.add_assoc, Nat.add_comm 1]

theorem mem_slice (data : List Nat) (off n x : Nat) :
    x ∈ slice data off n ↔ ∃ i, i < n ∧ load data (off + i) = x := by
  simp [slice]

theorem store_length (data : List Nat) (off : Nat) (bytes : List Nat) :
    (store data off bytes).length = max data.length (off + bytes.length) := by
  simp [store]

theorem load_store (data : List Nat) (off : Nat) (bytes : List Nat) (i : Nat) :
    load (store data off bytes) i =
      if off ≤ i ∧ i < off + bytes.length then load bytes (i - off) else load data i := by
  by_cases h : i < max data.length (off + bytes.length)
  · simp [store, load, List.getD_eq_getElem?_getD, List.getElem?_map, List.getElem?_range h]
  · have h1 : data.length ≤ i := by omega
    have h2 : ¬ (off ≤ i ∧ i < off + bytes.length) := by omega
    have h3 : max data.length (off + bytes.length) ≤ i := by omega
    rw [if_neg h2]
    simp [store, load, List.getD_eq_getElem?_getD, List.getElem?_eq_none, h1, h3]

theorem load_drop (data : List Nat) (n i : Nat) : load (data.drop n) i = load data (n + i) := by
  simp [load, List.getD_eq_getElem?_getD, List.getElem?_drop]

theorem load_take (data : List Nat) (n i : Nat) :
    load (data.take n) i = if i < n then load data i else 0 := by
  by_cases h : i < n
  · simp [load, List.getD_eq_getElem?_getD, List.getElem?_take, h]
  · simp [load, List.getD_eq_getElem?_getD, List.getElem?_take, h]

/-- A list is determined by its length and its bytes. -/
theorem eq_of_load_eq (l₁ l₂ : List Nat) (hlen : l₁.length = l₂.length)
    (h : ∀ i, i < l₁.length → load l₁ i = load l₂ i) : l₁ = l₂ := by
  apply List.ext_getElem hlen
  intro i h1 h2
  have := h i h1
  simpa [load, List.getD_eq_getElem?_getD, List.getElem?_eq_getElem h1,
    List.getElem?_eq_getElem h2] using this

/-! ## The scan of the offered methods -/

theorem scan_methods_le (data : List Nat) (methods : Nat) (left i : Nat) :
    scan_methods data methods left i ≤ i + left := by
  induction left generalizing i with
  | zero => simp [scan_methods]
  | succ n ih =>
    unfold scan_methods
    split
    · omega
    · have := ih (i + 1)
      omega

theorem scan_methods_eq_iff (data : List Nat) (methods : Nat) (left i : Nat) :
    scan_methods data methods left i = i + left ↔
      HEV_SOCKS5_PROTO_METHOD_NOAUTH ∉ slice data (methods + i) left := by
  induction left generalizing i with
  | zero => simp [scan_methods, slice]
  | succ n ih =>
    unfold scan_methods
    rw [slice_succ]
    by_cases h : HEV_SOCKS5_PROTO_METHOD_NOAUTH = load data (methods + i)
    · simp [h]
    · have := ih (i + 1)
      simp only [h, if_false, List.mem_cons, not_or, not_false_eq_true, true_and]
      rw [← Nat.add_assoc] at this
      rw [← this]
      omega

theorem getD_set_heap (heap : List HevBuffer) (p : Nat) (b d : HevBuffer) (h : p < heap.length) :
    (heap.set p b).getD p d = b := by
  simp [List.getD_eq_getElem?_getD, List.getElem?_set, h]

theorem buf_clear_idle (w : World) (p : Nat) : (clear_idle w).buf p = w.buf p := rfl

theorem destroy_calls_filter_write (self : HevSocks5Session) :
    (destroy_calls self).filter Event.is_write = [] := by
  rw [List.filter_eq_nil_iff]
  intro a ha
  unfold destroy_calls at ha
  simp only [List.mem_append, List.mem_singleton] at ha
  rcases ha with ((((((((h | h) | h) | h) | h) | h) | h) | h) | h) | h
  all_goals first
    | (subst h; simp [Event.is_write])
    | (split at h <;> simp at h; subst h; simp [Event.is_write])

theorem destroy_calls_filter_read (self : HevSocks5Session) :
    (destroy_calls self).filter Event.is_read = [] := by
  rw [List.filter_eq_nil_iff]
  intro a ha
  unfold destroy_calls at ha
  simp only [List.mem_append, List.mem_singleton] at ha
  rcases ha with ((((((((h | h) | h) | h) | h) | h) | h) | h) | h) | h
  all_goals first
    | (subst h; simp [Event.is_read])
    | (split at h <;> simp at h; subst h; simp [Event.is_read])

theorem free_self_mem_destroy_calls (self : HevSocks5Session) :
    Event.free_self ∈ destroy_calls self := by
  simp [destroy_calls]

theorem slice_store_same (data : List Nat) (off : Nat) (bytes : List Nat) :
    slice (store data off bytes) off bytes.length = bytes := by
  apply eq_of_load_eq
  · simp [slice_length]
  · intro i hi
    rw [slice_length] at hi
    rw [load_slice, if_pos hi, load_store]
    have : off ≤ off + i ∧ off + i < off + bytes.length := by omega
    rw [if_pos this, Nat.add_sub_cancel_left]

theorem auth_req_unpack_complete (data : List Nat) (size : Nat)
    (h : 0 ≤ (hev_socks5_proto_auth_req_unpack data size).left_size) :
    hev_socks5_proto_auth_req_unpack data size =
      { left_size := ((2 + load data 1 % 256 : Nat) : Int),
        method_count := load data 1 % 256, methods := 2 } := by
  unfold hev_socks5_proto_auth_req_unpack at h ⊢
  split_ifs at h ⊢ with h1 h2
  · simp only at h; omega
  · simp only at h; omega
  · rfl

/-- A complete auth request in the buffer: what the handler does, in terms of the
unpacked result. -/
theorem read_auth_req_handler_unpacked (env : Env) (size : Int) (buffer : Nat) (w : World)
    (hbuf : buffer < w.heap.length) (hsize : 0 < size)
    (hcomplete : 0 ≤ (hev_socks5_proto_auth_req_unpack (w.buf buffer).data
      ((w.buf buffer).offset + size.toNat)).left_size) :
    (HEV_SOCKS5_PROTO_METHOD_NOAUTH ∈ slice (w.buf buffer).data 2 (load (w.buf buffer).data 1 % 256) →
        (new_events w (read_auth_req_handler env size buffer w)).filter Event.is_write =
          [Event.write_async (some PFD.client) buffer 0 2 Callback.write_auth_res_handler
            env.client_write] ∧
        slice ((read_auth_req_handler env size buffer w).buf buffer).data 0 2 =
          [5, HEV_SOCKS5_PROTO_METHOD_NOAUTH]) ∧
    (HEV_SOCKS5_PROTO_METHOD_NOAUTH ∉ slice (w.buf buffer).data 2 (load (w.buf buffer).data 1 % 256) →
        (new_events w (read_auth_req_handler env size buffer w)).filter Event.is_write = [] ∧
        Event.buffer_free buffer ∈ new_events w (read_auth_req_handler env size buffer w) ∧
        Event.free_self ∈ new_events w (read_auth_req_handler env size buffer w) ∧
        (read_auth_req_handler env size buffer w).self.buffer0 = none ∧
        (read_auth_req_handler env size buffer w).freed = true) := by
  have hs : ¬ (0 ≥ size) := by omega
  have hscan := scan_methods_eq_iff (w.buf buffer).data 2 (load (w.buf buffer).data 1 % 256) 0
  simp only [Nat.add_zero, Nat.zero_add] at hscan
  have hu := auth_req_unpack_complete _ _ hcomplete
  have hl : ¬ ((0 : Int) > ((2 + load (w.buf buffer).data 1 % 256 : Nat) : Int)) := by omega
  have h50 : ∀ d, slice (store d 0 [5, HEV_SOCKS5_PROTO_METHOD_NOAUTH]) 0 2
      = [5, HEV_SOCKS5_PROTO_METHOD_NOAUTH] :=
    fun d => slice_store_same d 0 [5, HEV_SOCKS5_PROTO_METHOD_NOAUTH]
  constructor
  · intro hin
    have hne : scan_methods (w.buf buffer).data 2 (load (w.buf buffer).data 1 % 256) 0 ≠
        load (w.buf buffer).data 1 % 256 := fun h => (hscan.1 h) hin
    simp only [read_auth_req_handler, buf_clear_idle, hs, if_false, hu, hl, hne]
    cases hcw : env.client_write <;>
    simp [hev_socks5_session_client_write, hcw, new_events, error_free0_destroy,
        hev_socks5_session_destroy, hev_buffer_list_free, set_buffer0, World.emit,
        World.set_buf, clear_idle, Event.is_write, hev_socks5_proto_auth_res_pack,
        World.buf, getD_set_heap, hbuf, h50, List.filter_append, destroy_calls_filter_write]
  · intro hnin
    have he := hscan.2 hnin
    simp only [read_auth_req_handler, buf_clear_idle, hs, if_false, hu, hl, he, if_true]
    simp [new_events, error_free0_destroy,
        hev_socks5_session_destroy, hev_buffer_list_free, set_buffer0, World.emit,
        World.set_buf, clear_idle, Event.is_write, List.filter_append,
        destroy_calls_filter_write, free_self_mem_destroy_calls]

/-! ## C1 -/

theorem load_cons_succ (x : Nat) (l : List Nat) (i : Nat) : load (x :: l) (i + 1) = load l i := by
  simp [load]

theorem load_of_slice_eq {data : List Nat} {off n : Nat} {l : List Nat}
    (h : slice data off n = l) (i : Nat) (hi : i < n) : load data (off + i) = load l i := by
  rw [← h, load_slice, if_pos hi]

/-- C1: for a complete auth request `ver, n, methods` in buf0 (read up to its last
byte), `read_auth_req_handler` submits exactly one write, on the client, of buf0 at
offset 0 with length 2 holding `05 00`, if and only if NOAUTH is among the offered
methods; otherwise it submits no write, frees buf0, clears the field and destroys the
session. -/
theorem read_auth_req_handler_replies_iff_noauth (env : Env) (size : Int) (buffer : Nat)
    (w : World) (ver n : Nat) (methods : List Nat)
    (hbuf : buffer < w.heap.length) (hsize : 0 < size)
    (hn : n ≤ 255) (hlen : methods.length = n)
    (hend : (w.buf buffer).offset + size.toNat = 2 + n)
    (hframe : slice (w.buf buffer).data 0 (2 + n) = ver :: n :: methods) :
    (((new_events w (read_auth_req_handler env size buffer w)).filter Event.is_write =
          [Event.write_async (some PFD.client) buffer 0 2 Callback.write_auth_res_handler
            env.client_write] ∧
        slice ((read_auth_req_handler env size buffer w).buf buffer).data 0 2 =
          [5, HEV_SOCKS5_PROTO_METHOD_NOAUTH]) ↔
      HEV_SOCKS5_PROTO_METHOD_NOAUTH ∈ methods) ∧
    (HEV_SOCKS5_PROTO_METHOD_NOAUTH ∉ methods →
        (new_events w (read_auth_req_handler env size buffer w)).filter Event.is_write = [] ∧
        Event.buffer_free buffer ∈ new_events w (read_auth_req_handler env size buffer w) ∧
        Event.free_self ∈ new_events w (read_auth_req_handler env size buffer w) ∧
        (read_auth_req_handler env size buffer w).self.buffer0 = none ∧
        (read_auth_req_handler env size buffer w).freed = true) := by
  have h1 : load (w.buf buffer).data 1 = n := by
    have := load_of_slice_eq hframe 1 (by omega)
    simpa [load] using this
  have hm : slice (w.buf buffer).data 2 n = methods := by
    apply eq_of_load_eq
    · rw [slice_length, hlen]
    · intro i hi
      rw [slice_length] at hi
      rw [load_slice, if_pos hi]
      have := load_of_slice_eq hframe (2 + i) (by omega)
      rw [Nat.zero_add] at this
      rw [this, Nat.add_comm 2 i, load_cons_succ, load_cons_succ]
  have hmod : n % 256 = n := Nat.mod_eq_of_lt (by omega)
  have hcomplete : 0 ≤ (hev_socks5_proto_auth_req_unpack (w.buf buffer).data
      ((w.buf buffer).offset + size.toNat)).left_size := by
    unfold hev_socks5_proto_auth_req_unpack
    rw [hend, h1, hmod]
    have : ¬ (2 + n < 2) := by omega
    simp [this]
    omega
  have key := read_auth_req_handler_unpacked env size buffer w hbuf hsize hcomplete
  rw [h1, hmod, hm] at key
  refine ⟨⟨fun h => ?_, key.1⟩, key.2⟩
  by_contra hnot
  have := (key.2 hnot).1
  rw [this] at h
  exact absurd h.1 (by simp)

theorem read_auth_req_handler_replies_iff_noauth_witness :
    ((new_events ex_auth_world
          (read_auth_req_handler (Env.ok []) 2 0 ex_auth_world)).filter Event.is_write =
        [Event.write_async (some PFD.client) 0 0 2 Callback.write_auth_res_handler true] ∧
      slice ((read_auth_req_handler (Env.ok []) 2 0 ex_auth_world).buf 0).data 0 2 =
        [5, HEV_SOCKS5_PROTO_METHOD_NOAUTH]) ∧
    HEV_SOCKS5_PROTO_METHOD_NOAUTH ∈ [2, 0] :=
  ⟨(read_auth_req_handler_replies_iff_noauth (Env.ok []) 2 0 ex_auth_world 5 2 [2, 0]
      (by decide) (by decide) (by decide) (by decide) (by decide)
      (by decide)).1.2 (by decide), by decide⟩

/-! ## C2, C3 -/

/-- The handlers of the handshake and of the client-to-remote half destroy the
session when the completed read or write reports a result `≤ 0`. -/
theorem error_result_destroys (B : Nat) (env : Env) (size : Int) (buffer : Nat) (w : World)
    (h : size ≤ 0) :
    (read_auth_req_handler env size buffer w).freed = true ∧
    (write_auth_res_handler env size buffer w).freed = true ∧
    (read_req_handler env size buffer w).freed = true ∧
    (write_res_handler B env size buffer w).freed = true ∧
    (read_client_data_handler env size buffer w).freed = true ∧
    (write_remote_data_handler B env size buffer w).freed = true := by
  have hs : 0 ≥ size := h
  simp [read_auth_req_handler, write_auth_res_handler, read_req_handler, write_res_handler,
    read_client_data_handler, write_remote_data_handler, hs, error_free0_destroy,
    write_res_error1, hev_socks5_session_destroy]

theorem error_result_destroys_witness :
    (read_auth_req_handler (Env.ok []) 0 1 ex_s1_relaying).freed = true ∧
    (write_auth_res_handler (Env.ok []) 0 1 ex_s1_relaying).freed = true ∧
    (read_req_handler (Env.ok []) 0 1 ex_s1_relaying).freed = true ∧
    (write_res_handler 8192 (Env.ok []) 0 1 ex_s1_relaying).freed = true ∧
    (read_client_data_handler (Env.ok []) 0 1 ex_s1_relaying).freed = true ∧
    (write_remote_data_handler 8192 (Env.ok []) 0 1 ex_s1_relaying).freed = true :=
  error_result_destroys 8192 (Env.ok []) 0 1 ex_s1_relaying (by decide)

/-- The two handlers of the remote-to-client half return without destroying the
session when the completed read or write reports a result `≤ 0`: the buffer is freed,
`buffer1` is cleared, and nothing else is done. -/
theorem error_result_remote_half (B : Nat) (env : Env) (size : Int) (buffer : Nat) (w : World)
    (h : size ≤ 0) :
    read_remote_data_handler env size buffer w =
      set_buffer1 none (hev_buffer_list_free buffer (clear_idle w)) ∧
    write_client_data_handler B env size buffer w =
      set_buffer1 none (hev_buffer_list_free buffer (clear_idle w)) := by
  have hs : 0 ≥ size := h
  simp [read_remote_data_handler, write_client_data_handler, hs, error_free1]

theorem error_result_remote_half_witness :
    read_remote_data_handler (Env.ok []) (-1) 2 ex_s1_relaying =
      set_buffer1 none (hev_buffer_list_free 2 (clear_idle ex_s1_relaying)) ∧
    write_client_data_handler 8192 (Env.ok []) (-1) 2 ex_s1_relaying =
      set_buffer1 none (hev_buffer_list_free 2 (clear_idle ex_s1_relaying)) :=
  error_result_remote_half 8192 (Env.ok []) (-1) 2 ex_s1_relaying (by decide)

/-- A failed DNS query, a failed connect and a failed buffer allocation destroy the
session. -/
theorem failure_destroys (B : Nat) (env : Env) (w : World) :
    (resolver_handler env [0, 0, 0, 0] w).freed = true ∧
    (∀ status : Int, status < 0 → (socket_connect_handler env status w).freed = true) ∧
    (env.buffer_alloc = none →
      (∀ status : Int, (socket_connect_handler env status w).freed = true) ∧
      (∀ (size : Int) (buffer : Nat), (write_res_handler B env size buffer w).freed = true ∨
        0 < ((w.buf buffer).length : Int) - size)) := by
  refine ⟨?_, ?_, ?_⟩
  · have h0 : slice [0, 0, 0, 0] 0 4 = [0, 0, 0, 0] := by decide
    simp [resolver_handler, h0, hev_socks5_session_destroy]
  · intro status hst
    have : 0 > status := hst
    simp [socket_connect_handler, this, hev_socks5_session_destroy]
  · intro ha
    constructor
    · intro status
      unfold socket_connect_handler
      by_cases h0 : 0 > status
      · simp [h0, hev_socks5_session_destroy]
      · cases hp : env.pfd_new <;>
          simp [h0, hp, hev_socks5_session_destroy, hev_buffer_list_alloc, ha, set_buffer0,
            clear_idle]
    · intro size buffer
      by_cases hlen : 0 < ((w.buf buffer).length : Int) - size
      · exact Or.inr hlen
      · left
        unfold write_res_handler
        by_cases h0 : 0 ≥ size
        · simp [h0, write_res_error1, hev_socks5_session_destroy]
        · cases hr : env.client_read <;>
            simp [h0, hlen, buf_clear_idle, hev_socks5_session_client_read, hr, write_res_error1,
              hev_socks5_session_destroy, hev_buffer_list_alloc, ha, set_buffer1]

/-- C2 (the code at the failing input): in the relaying session of scenario S1 the read
on the remote pollable fd completes with result 0 (the upstream closed).
`read_remote_data_handler` frees buf1 and returns: the session object is not released,
no fd is closed and the close notifier is not called.  The same result on the client
pollable fd does destroy the session. -/
theorem read_remote_data_eof_leaves_session_open :
    ex_s1_relaying.reading PFD.remote =
      some { buffer := 2, count := 8192, callback := Callback.read_remote_data_handler } ∧
    (read_ready 8192 (Env.ok []) PFD.remote (some []) ex_s1_relaying).freed = false ∧
    new_events ex_s1_relaying (read_ready 8192 (Env.ok []) PFD.remote (some []) ex_s1_relaying) =
      [Event.buffer_free 2] ∧
    (read_ready 8192 (Env.ok []) PFD.client (some []) ex_s1_relaying).freed = true ∧
    new_events ex_s1_relaying (read_ready 8192 (Env.ok []) PFD.client (some []) ex_s1_relaying) =
      [Event.buffer_free 1, Event.buffer_free 2, Event.pfd_destroy PFD.client,
        Event.pfd_destroy PFD.remote, Event.close 6, Event.close 4, Event.close_notify,
        Event.free_self] := by
  decide

/-- C3 (the code at the failing input): in the relaying session of scenario S1, data
from the upstream is being written to the client and the write fails (result -1).
`write_client_data_handler` frees buf1 and returns: the session is not destroyed. -/
theorem write_client_data_failure_leaves_session_open :
    ex_s1_remote_data.writing PFD.client =
      some { buffer := 2, count := 2, callback := Callback.write_client_data_handler } ∧
    (write_ready 8192 (Env.ok []) PFD.client none ex_s1_remote_data).1.freed = false ∧
    new_events ex_s1_remote_data (write_ready 8192 (Env.ok []) PFD.client none ex_s1_remote_data).1 =
      [Event.buffer_free 2] := by
  decide

/-! ## C4 -/

theorem slice_congr (d₁ d₂ : List Nat) (off n : Nat)
    (h : ∀ i, i < n → load d₁ (off + i) = load d₂ (off + i)) : slice d₁ off n = slice d₂ off n := by
  apply eq_of_load_eq
  · simp [slice_length]
  · intro i hi
    rw [slice_length] at hi
    rw [load_slice, load_slice, if_pos hi, if_pos hi, h i hi]

theorem load_store_cmd (data : List Nat) (c i : Nat) (hi : i ≠ 1) :
    load (store data 1 [c]) i = load data i := by
  rw [load_store]
  have : ¬ (1 ≤ i ∧ i < 1 + [c].length) := by simp; omega
  rw [if_neg this]

/-- The unpacked request does not depend on the CMD byte, except for `cmd` itself. -/
theorem req_unpack_store_cmd (data : List Nat) (c size : Nat) :
    (hev_socks5_proto_req_unpack (store data 1 [c]) size).left_size =
        (hev_socks5_proto_req_unpack data size).left_size ∧
    (hev_socks5_proto_req_unpack (store data 1 [c]) size).atype =
        (hev_socks5_proto_req_unpack data size).atype ∧
    (hev_socks5_proto_req_unpack (store data 1 [c]) size).addr =
        (hev_socks5_proto_req_unpack data size).addr ∧
    (hev_socks5_proto_req_unpack (store data 1 [c]) size).port =
        (hev_socks5_proto_req_unpack data size).port := by
  have h3 := load_store_cmd data c 3 (by decide)
  have h4 := load_store_cmd data c 4 (by decide)
  have hp : ∀ k, slice (store data 1 [c]) (4 + k) 2 = slice data (4 + k) 2 := by
    intro k
    apply slice_congr
    intro i _
    exact load_store_cmd data c _ (by omega)
  unfold hev_socks5_proto_req_unpack
  rw [h3, h4, hp]
  split_ifs <;> simp

theorem req_unpack_complete (data : List Nat) (size : Nat)
    (h : 0 ≤ (hev_socks5_proto_req_unpack data size).left_size) :
    hev_socks5_proto_req_unpack data size =
      { left_size := ((4 + addr_size (load data 3 % 256) (load data 4) + 2 : Nat) : Int),
        cmd := load data 1 % 256,
        atype := load data 3 % 256,
        addr := 4,
        port := slice data (4 + addr_size (load data 3 % 256) (load data 4)) 2 } := by
  unfold hev_socks5_proto_req_unpack at h ⊢
  split_ifs at h ⊢ with h1 h2 h3
  · simp only at h; omega
  · simp only at h; omega
  · simp only at h; omega
  · rfl

theorem slice_drop (data : List Nat) (k off n : Nat) :
    slice (data.drop k) off n = slice data (k + off) n := by
  apply eq_of_load_eq
  · simp [slice_length]
  · intro i hi
    rw [slice_length] at hi
    rw [load_slice, load_slice, if_pos hi, if_pos hi, load_drop, Nat.add_assoc]

/-- For a complete request frame in the buffer, replacing the CMD byte (byte 1) by any
value `c` changes neither the calls `read_req_handler` makes nor the session object nor
whether it is destroyed. -/
theorem read_req_handler_cmd_independent (env : Env) (size : Int) (buffer : Nat) (w : World) (c : Nat)
    (hbuf : buffer < w.heap.length) (hsize : 0 < size)
    (hcomplete : 0 ≤ (hev_socks5_proto_req_unpack (w.buf buffer).data
      ((w.buf buffer).offset + size.toNat)).left_size) :
    (read_req_handler env size buffer
        (w.set_buf buffer { (w.buf buffer) with data := store (w.buf buffer).data 1 [c] })).log =
      (read_req_handler env size buffer w).log ∧
    (read_req_handler env size buffer
        (w.set_buf buffer { (w.buf buffer) with data := store (w.buf buffer).data 1 [c] })).self =
      (read_req_handler env size buffer w).self ∧
    (read_req_handler env size buffer
        (w.set_buf buffer { (w.buf buffer) with data := store (w.buf buffer).data 1 [c] })).freed =
      (read_req_handler env size buffer w).freed := by
  have hs : ¬ (0 ≥ size) := by omega
  obtain ⟨e1, e2, e3, e4⟩ := req_unpack_store_cmd (w.buf buffer).data c
    ((w.buf buffer).offset + size.toNat)
  have hu := req_unpack_complete _ _ hcomplete
  have hc' := hcomplete
  rw [← e1] at hc'
  have hu' := req_unpack_complete _ _ hc'
  have h3 := load_store_cmd (w.buf buffer).data c 3 (by decide)
  have h4 := load_store_cmd (w.buf buffer).data c 4 (by decide)
  rw [h3, h4] at hu'
  have hl : ¬ ((0 : Int) > ((4 + addr_size (load (w.buf buffer).data 3 % 256)
      (load (w.buf buffer).data 4) + 2 : Nat) : Int)) := by omega
  have hb : (w.set_buf buffer { (w.buf buffer) with
      data := store (w.buf buffer).data 1 [c] }).buf buffer =
      { (w.buf buffer) with data := store (w.buf buffer).data 1 [c] } := by
    simp [World.buf, World.set_buf, getD_set_heap, hbuf]
  have hsl : ∀ d, slice (store d 1 [c]) 4 4 = slice d 4 4 :=
    fun d => slice_congr _ _ _ _ (fun i _ => load_store_cmd _ c _ (by omega))
  have hraf : ∀ d, read_after_free env (store d 1 [c]) 4 4 = read_after_free env d 4 4 := by
    intro d
    unfold read_after_free
    cases env.freed_data <;> simp [hsl]
  have hp : ∀ d k, slice (store d 1 [c]) (4 + k) 2 = slice d (4 + k) 2 :=
    fun d k => slice_congr _ _ _ _ (fun i _ => load_store_cmd _ c _ (by omega))
  have hd : ∀ d, load (List.drop 4 (store d 1 [c])) 0 = load (List.drop 4 d) 0 := by
    intro d
    rw [load_drop, load_drop, load_store_cmd _ c _ (by omega)]
  have hsd : ∀ d n, slice (List.drop 4 (store d 1 [c])) 0 n = slice (List.drop 4 d) 0 n := by
    intro d n
    rw [slice_drop, slice_drop]
    exact slice_congr _ _ _ _ (fun i _ => load_store_cmd _ c _ (by omega))
  simp only [read_req_handler, buf_clear_idle, hs, if_false, hb, hu, hu', hl, hp]
  by_cases ha1 : load (w.buf buffer).data 3 % 256 = HEV_SOCKS5_PROTO_ATYPE_IPV4
  · simp only [ha1, if_true]
    cases hsn : env.socket_new <;> cases hca : env.connect_async <;>
    simp [World.buf, World.set_buf, World.emit, set_buffer0, hev_buffer_list_free, clear_idle,
      getD_set_heap, hbuf, hev_socks5_session_socket_connect, hev_socks5_session_destroy, hsl,
      hraf, hsn, hca, destroy_calls]
  · by_cases ha3 : load (w.buf buffer).data 3 % 256 = HEV_SOCKS5_PROTO_ATYPE_DOMAIN
    · have hd31 : ¬ HEV_SOCKS5_PROTO_ATYPE_DOMAIN = HEV_SOCKS5_PROTO_ATYPE_IPV4 := by decide
      simp only [ha3, hd31, if_true, if_false]
      cases hrn : env.resolver_new <;> cases hqa : env.query_async <;>
      simp [World.buf, World.set_buf, World.emit, set_buffer0, hev_buffer_list_free, clear_idle,
        getD_set_heap, hbuf, hev_socks5_session_destroy, hrn, hqa, destroy_calls]
    · simp only [ha1, ha3, if_false]
      cases hcw : env.client_write <;>
      simp [World.buf, World.set_buf, World.emit, set_buffer0, hev_buffer_list_free, clear_idle,
        getD_set_heap, hbuf, hev_socks5_session_destroy, hcw, destroy_calls,
        hev_socks5_session_client_write, hev_socks5_proto_res_pack, error_free0_destroy, hd, hsd]

theorem slice_store_head4 (d rest : List Nat) (a b c e : Nat) :
    slice (store d 0 ([a, b, c, e] ++ rest)) 0 4 = [a, b, c, e] := by
  apply eq_of_load_eq
  · simp [slice_length]
  · intro i hi
    rw [slice_length] at hi
    rw [load_slice, if_pos hi, Nat.zero_add, load_store]
    have : 0 ≤ i ∧ i < 0 + ([a, b, c, e] ++ rest).length := by
      simp only [List.length_append, List.length_cons, List.length_nil]; omega
    rw [if_pos this]
    have h4 : i = 0 ∨ i = 1 ∨ i = 2 ∨ i = 3 := by omega
    rcases h4 with rfl | rfl | rfl | rfl <;> simp [load]

/-- What `read_req_handler` does with a complete request frame whose ATYP is IPv4:
whatever the other bytes of the frame, it returns the buffer, reads the address through
`addr`, creates the socket and, when that succeeds, starts the connect to that address
and the port of the frame; when a step fails it destroys the session. -/
theorem read_req_handler_ipv4_calls (env : Env) (size : Int) (buffer : Nat) (w : World)
    (hsize : 0 < size)
    (hcomplete : 0 ≤ (hev_socks5_proto_req_unpack (w.buf buffer).data
      ((w.buf buffer).offset + size.toNat)).left_size)
    (hat : load (w.buf buffer).data 3 % 256 = HEV_SOCKS5_PROTO_ATYPE_IPV4) :
    new_events w (read_req_handler env size buffer w) =
      [Event.buffer_free buffer, Event.mem_read buffer 4 4,
        Event.socket_new env.socket_new.isSome]
      ++ (if env.socket_new.isSome = true then
          [Event.socket_connect_async
            { sin_family := w.self.addr.sin_family,
              sin_port := slice (w.buf buffer).data 8 2,
              s_addr := read_after_free env (w.buf buffer).data 4 4 } env.connect_async]
        else [])
      ++ (if env.socket_new.isSome = true ∧ env.connect_async = true then []
        else destroy_calls (read_req_handler env size buffer w).self) := by
  have hs : ¬ (0 ≥ size) := by omega
  have hu := req_unpack_complete _ _ hcomplete
  have hl : ¬ ((0 : Int) > ((4 + addr_size (load (w.buf buffer).data 3 % 256)
      (load (w.buf buffer).data 4) + 2 : Nat) : Int)) := by omega
  have e4 : ∀ x, addr_size HEV_SOCKS5_PROTO_ATYPE_IPV4 x = 4 := fun _ => rfl
  rw [hat] at hu hl
  simp only [read_req_handler, buf_clear_idle, hs, if_false, hu, hl, if_true]
  cases hsn : env.socket_new <;> cases hca : env.connect_async <;>
  simp [World.buf, World.set_buf, World.emit, set_buffer0, hev_buffer_list_free, clear_idle,
    hev_socks5_session_socket_connect, hev_socks5_session_destroy, hsn, hca, e4, new_events]

/-- What `read_req_handler` does with a complete request frame whose ATYP is DOMAIN:
whatever the other bytes of the frame, it returns the buffer, creates the resolver and,
when that succeeds, starts the DNS query for the name `addr` points to; when a step
fails it destroys the session. -/
theorem read_req_handler_domain_calls (env : Env) (size : Int) (buffer : Nat) (w : World)
    (hsize : 0 < size)
    (hcomplete : 0 ≤ (hev_socks5_proto_req_unpack (w.buf buffer).data
      ((w.buf buffer).offset + size.toNat)).left_size)
    (hat : load (w.buf buffer).data 3 % 256 = HEV_SOCKS5_PROTO_ATYPE_DOMAIN) :
    new_events w (read_req_handler env size buffer w) =
      [Event.buffer_free buffer, Event.resolver_new env.resolver_new]
      ++ (if env.resolver_new = true then
          [Event.resolver_query_async buffer 4 env.query_async]
        else [])
      ++ (if env.resolver_new = true ∧ env.query_async = true then []
        else destroy_calls (read_req_handler env size buffer w).self) := by
  have hs : ¬ (0 ≥ size) := by omega
  have hu := req_unpack_complete _ _ hcomplete
  have hl : ¬ ((0 : Int) > ((4 + addr_size (load (w.buf buffer).data 3 % 256)
      (load (w.buf buffer).data 4) + 2 : Nat) : Int)) := by omega
  have hd31 : ¬ HEV_SOCKS5_PROTO_ATYPE_DOMAIN = HEV_SOCKS5_PROTO_ATYPE_IPV4 := by decide
  rw [hat] at hu hl
  simp only [read_req_handler, buf_clear_idle, hs, if_false, hu, hl, if_true, hd31]
  cases hrn : env.resolver_new <;> cases hqa : env.query_async <;>
  simp [World.buf, World.set_buf, World.emit, set_buffer0, hev_buffer_list_free, clear_idle,
    hev_socks5_session_destroy, hrn, hqa, new_events]

/-- What `read_req_handler` does with a complete request frame whose ATYP is neither
IPv4 nor DOMAIN: whatever the other bytes of the frame, it submits the write of the reply
packed with REP = 0x08 and, when the submission is refused, returns the buffer and
destroys the session. -/
theorem read_req_handler_other_calls (env : Env) (size : Int) (buffer : Nat) (w : World)
    (hbuf : buffer < w.heap.length) (hsize : 0 < size)
    (hcomplete : 0 ≤ (hev_socks5_proto_req_unpack (w.buf buffer).data
      ((w.buf buffer).offset + size.toNat)).left_size)
    (h1 : load (w.buf buffer).data 3 % 256 ≠ HEV_SOCKS5_PROTO_ATYPE_IPV4)
    (h3 : load (w.buf buffer).data 3 % 256 ≠ HEV_SOCKS5_PROTO_ATYPE_DOMAIN) :
    new_events w (read_req_handler env size buffer w) =
      [Event.write_async (some PFD.client) buffer 0
        (4 + addr_size (load (w.buf buffer).data 3 % 256) (load (w.buf buffer).data 4) + 2)
        Callback.write_res_handler env.client_write]
      ++ (if env.client_write = true then []
        else Event.buffer_free buffer ::
          destroy_calls (read_req_handler env size buffer w).self) ∧
    slice ((read_req_handler env size buffer w).buf buffer).data 0 4 =
      [5, HEV_SOCKS5_PROTO_REP_ATYPE_NOT_SUPPORT, 0, load (w.buf buffer).data 3 % 256] := by
  have hs : ¬ (0 ≥ size) := by omega
  have hu := req_unpack_complete _ _ hcomplete
  have hl : ¬ ((0 : Int) > ((4 + addr_size (load (w.buf buffer).data 3 % 256)
      (load (w.buf buffer).data 4) + 2 : Nat) : Int)) := by omega
  constructor
  · simp only [read_req_handler, buf_clear_idle, hs, if_false, hu, hl, h1, h3]
    cases hcw : env.client_write <;>
    simp [World.buf, World.set_buf, World.emit, set_buffer0, hev_buffer_list_free, clear_idle,
      getD_set_heap, hbuf, hev_socks5_session_destroy, hcw, new_events,
      hev_socks5_session_client_write, error_free0_destroy, hev_socks5_proto_res_pack,
      load_drop]
  · have hdata : ((read_req_handler env size buffer w).buf buffer).data =
        (hev_socks5_proto_res_pack (w.buf buffer).data HEV_SOCKS5_PROTO_REP_ATYPE_NOT_SUPPORT
          (load (w.buf buffer).data 3 % 256) ((w.buf buffer).data.drop 4)
          (slice (w.buf buffer).data
            (4 + addr_size (load (w.buf buffer).data 3 % 256) (load (w.buf buffer).data 4))
            2)).1 := by
      simp only [read_req_handler, buf_clear_idle, hs, if_false, hu, hl, h1, h3]
      cases hcw : env.client_write <;>
      simp [World.buf, World.set_buf, World.emit, set_buffer0, hev_buffer_list_free, clear_idle,
        getD_set_heap, hbuf, hev_socks5_session_destroy, hcw,
        hev_socks5_session_client_write, error_free0_destroy]
    rw [hdata]
    unfold hev_socks5_proto_res_pack
    simp only [List.append_assoc]
    exact slice_store_head4 _ _ _ _ _ _

/-- C4 (as amended): `read_req_handler` does not examine CMD.  For every complete
request frame in the buffer, whatever its CMD byte: with ATYP IPv4 the handler returns
the buffer, creates the socket and starts the upstream connect to the frame's port and
the address it reads through `addr`, and submits no write; with ATYP DOMAIN it returns
the buffer, creates the resolver and starts the DNS query, and submits no write; with
any other ATYP its one write is the reply `05 08 00 ATYP ..` (REP = 0x08, address type
not supported).  It destroys the session only when one of these calls fails.  Replacing
the CMD byte by any value `c` changes neither the calls made nor the session object nor
whether it is destroyed, so a frame whose CMD is not CONNECT is handled exactly like the
same frame with CONNECT and nothing is reported about the command. -/
theorem read_req_handler_ignores_cmd (env : Env) (size : Int) (buffer : Nat) (w : World) (c : Nat)
    (hbuf : buffer < w.heap.length) (hsize : 0 < size)
    (hcomplete : 0 ≤ (hev_socks5_proto_req_unpack (w.buf buffer).data
      ((w.buf buffer).offset + size.toNat)).left_size) :
    (load (w.buf buffer).data 3 % 256 = HEV_SOCKS5_PROTO_ATYPE_IPV4 →
      new_events w (read_req_handler env size buffer w) =
        [Event.buffer_free buffer, Event.mem_read buffer 4 4,
          Event.socket_new env.socket_new.isSome]
        ++ (if env.socket_new.isSome = true then
            [Event.socket_connect_async
              { sin_family := w.self.addr.sin_family,
                sin_port := slice (w.buf buffer).data 8 2,
                s_addr := read_after_free env (w.buf buffer).data 4 4 } env.connect_async]
          else [])
        ++ (if env.socket_new.isSome = true ∧ env.connect_async = true then []
          else destroy_calls (read_req_handler env size buffer w).self) ∧
      (new_events w (read_req_handler env size buffer w)).filter Event.is_write = []) ∧
    (load (w.buf buffer).data 3 % 256 = HEV_SOCKS5_PROTO_ATYPE_DOMAIN →
      new_events w (read_req_handler env size buffer w) =
        [Event.buffer_free buffer, Event.resolver_new env.resolver_new]
        ++ (if env.resolver_new = true then
            [Event.resolver_query_async buffer 4 env.query_async]
          else [])
        ++ (if env.resolver_new = true ∧ env.query_async = true then []
          else destroy_calls (read_req_handler env size buffer w).self) ∧
      (new_events w (read_req_handler env size buffer w)).filter Event.is_write = []) ∧
    (load (w.buf buffer).data 3 % 256 ≠ HEV_SOCKS5_PROTO_ATYPE_IPV4 →
      load (w.buf buffer).data 3 % 256 ≠ HEV_SOCKS5_PROTO_ATYPE_DOMAIN →
      new_events w (read_req_handler env size buffer w) =
        [Event.write_async (some PFD.client) buffer 0
          (4 + addr_size (load (w.buf buffer).data 3 % 256) (load (w.buf buffer).data 4) + 2)
          Callback.write_res_handler env.client_write]
        ++ (if env.client_write = true then []
          else Event.buffer_free buffer ::
            destroy_calls (read_req_handler env size buffer w).self) ∧
      slice ((read_req_handler env size buffer w).buf buffer).data 0 4 =
        [5, HEV_SOCKS5_PROTO_REP_ATYPE_NOT_SUPPORT, 0, load (w.buf buffer).data 3 % 256]) ∧
    (read_req_handler env size buffer
        (w.set_buf buffer { (w.buf buffer) with data := store (w.buf buffer).data 1 [c] })).log =
      (read_req_handler env size buffer w).log ∧
    (read_req_handler env size buffer
        (w.set_buf buffer { (w.buf buffer) with data := store (w.buf buffer).data 1 [c] })).self =
      (read_req_handler env size buffer w).self ∧
    (read_req_handler env size buffer
        (w.set_buf buffer { (w.buf buffer) with data := store (w.buf buffer).data 1 [c] })).freed =
      (read_req_handler env size buffer w).freed := by
  refine ⟨?_, ?_, ?_, read_req_handler_cmd_independent env size buffer w c hbuf hsize hcomplete⟩
  · intro hat
    have h := read_req_handler_ipv4_calls env size buffer w hsize hcomplete hat
    refine ⟨h, ?_⟩
    rw [h]
    simp only [List.filter_append]
    split_ifs <;> simp [Event.is_write, destroy_calls_filter_write]
  · intro hat
    have h := read_req_handler_domain_calls env size buffer w hsize hcomplete hat
    refine ⟨h, ?_⟩
    rw [h]
    simp only [List.filter_append]
    split_ifs <;> simp [Event.is_write, destroy_calls_filter_write]
  · intro h1 h3
    exact read_req_handler_other_calls env size buffer w hbuf hsize hcomplete h1 h3

theorem read_req_handler_ignores_cmd_witness :
    (new_events ex_bind_world (read_req_handler (Env.ok []) 6 0 ex_bind_world) =
        [Event.buffer_free 0, Event.mem_read 0 4 4, Event.socket_new true,
          Event.socket_connect_async
            { sin_family := AF_INET, sin_port := [0, 80], s_addr := [127, 0, 0, 1] } true] ∧
      (new_events ex_bind_world
        (read_req_handler (Env.ok []) 6 0 ex_bind_world)).filter Event.is_write = []) ∧
    (read_req_handler (Env.ok []) 6 0
        (ex_bind_world.set_buf 0 { (ex_bind_world.buf 0) with
          data := store (ex_bind_world.buf 0).data 1 [HEV_SOCKS5_PROTO_CMD_CONNECT] })).log =
      (read_req_handler (Env.ok []) 6 0 ex_bind_world).log ∧
    (read_req_handler (Env.ok []) 6 0
        (ex_bind_world.set_buf 0 { (ex_bind_world.buf 0) with
          data := store (ex_bind_world.buf 0).data 1 [HEV_SOCKS5_PROTO_CMD_CONNECT] })).self =
      (read_req_handler (Env.ok []) 6 0 ex_bind_world).self ∧
    (read_req_handler (Env.ok []) 6 0
        (ex_bind_world.set_buf 0 { (ex_bind_world.buf 0) with
          data := store (ex_bind_world.buf 0).data 1 [HEV_SOCKS5_PROTO_CMD_CONNECT] })).freed =
      (read_req_handler (Env.ok []) 6 0 ex_bind_world).freed :=
  ⟨(read_req_handler_ignores_cmd (Env.ok []) 6 0 ex_bind_world HEV_SOCKS5_PROTO_CMD_CONNECT
      (by decide) (by decide) (by decide)).1 (by decide),
    (read_req_handler_ignores_cmd (Env.ok []) 6 0 ex_bind_world HEV_SOCKS5_PROTO_CMD_CONNECT
      (by decide) (by decide) (by decide)).2.2.2⟩

/-- C4 (counterexample): the complete request `05 02 00 01 7F 00 00 01 00 50` has
CMD = BIND, not CONNECT, yet `read_req_handler` starts the upstream connect to
127.0.0.1:80 and submits no write to the client (nothing is reported). -/
theorem bind_request_starts_connect :
    load (ex_bind_world.buf 0).data 1 ≠ HEV_SOCKS5_PROTO_CMD_CONNECT ∧
    0 ≤ (hev_socks5_proto_req_unpack (ex_bind_world.buf 0).data
      ((ex_bind_world.buf 0).offset + 6)).left_size ∧
    new_events ex_bind_world (read_req_handler (Env.ok []) 6 0 ex_bind_world) =
      [Event.buffer_free 0, Event.mem_read 0 4 4, Event.socket_new true,
        Event.socket_connect_async
          { sin_family := AF_INET, sin_port := [0, 80], s_addr := [127, 0, 0, 1] } true] ∧
    (new_events ex_bind_world
      (read_req_handler (Env.ok []) 6 0 ex_bind_world)).filter Event.is_write = [] := by
  decide

/-! ## C5, C6 -/

theorem slice_slice_self (data : List Nat) (off n : Nat) :
    slice (slice data off n) 0 n = slice data off n := by
  apply eq_of_load_eq
  · simp [slice_length]
  · intro i hi
    rw [slice_length] at hi
    rw [load_slice, if_pos hi, Nat.zero_add]

/-- C5: for a complete request frame in the buffer whose ATYP is neither IPv4 nor
DOMAIN, `read_req_handler` submits exactly one write, on the client, of the buffer at
offset 0 with the packed length; the buffer then holds the reply packed from
REP = 0x08, the request's ATYP, its address and its port, that is
`05 08 00 ATYP`, the request's address bytes and its two port bytes; for an IPv6
request these are 22 bytes, `05 08 00 04`, the same 16 address bytes and the same 2
port bytes. -/
theorem read_req_handler_atype_not_supported (env : Env) (size : Int) (buffer : Nat) (w : World)
    (hbuf : buffer < w.heap.length) (hsize : 0 < size)
    (hcomplete : 0 ≤ (hev_socks5_proto_req_unpack (w.buf buffer).data
      ((w.buf buffer).offset + size.toNat)).left_size)
    (h1 : load (w.buf buffer).data 3 % 256 ≠ HEV_SOCKS5_PROTO_ATYPE_IPV4)
    (h3 : load (w.buf buffer).data 3 % 256 ≠ HEV_SOCKS5_PROTO_ATYPE_DOMAIN) :
    (new_events w (read_req_handler env size buffer w)).filter Event.is_write =
      [Event.write_async (some PFD.client) buffer 0
        (4 + addr_size (load (w.buf buffer).data 3 % 256) (load (w.buf buffer).data 4) + 2)
        Callback.write_res_handler env.client_write] ∧
    ((read_req_handler env size buffer w).buf buffer).data =
      (hev_socks5_proto_res_pack (w.buf buffer).data HEV_SOCKS5_PROTO_REP_ATYPE_NOT_SUPPORT
        (load (w.buf buffer).data 3 % 256) ((w.buf buffer).data.drop 4)
        (slice (w.buf buffer).data
          (4 + addr_size (load (w.buf buffer).data 3 % 256) (load (w.buf buffer).data 4)) 2)).1 ∧
    slice ((read_req_handler env size buffer w).buf buffer).data 0
        (4 + addr_size (load (w.buf buffer).data 3 % 256) (load (w.buf buffer).data 4) + 2) =
      [5, 8, 0, load (w.buf buffer).data 3 % 256] ++
        slice (w.buf buffer).data 4
          (addr_size (load (w.buf buffer).data 3 % 256) (load (w.buf buffer).data 4)) ++
        slice (w.buf buffer).data
          (4 + addr_size (load (w.buf buffer).data 3 % 256) (load (w.buf buffer).data 4)) 2 ∧
    (load (w.buf buffer).data 3 % 256 = HEV_SOCKS5_PROTO_ATYPE_IPV6 →
      slice ((read_req_handler env size buffer w).buf buffer).data 0 22 =
        [5, 8, 0, 4] ++ slice (w.buf buffer).data 4 16 ++ slice (w.buf buffer).data 20 2) := by
  have hs : ¬ (0 ≥ size) := by omega
  have hu := req_unpack_complete _ _ hcomplete
  have hl : ¬ ((0 : Int) > ((4 + addr_size (load (w.buf buffer).data 3 % 256)
      (load (w.buf buffer).data 4) + 2 : Nat) : Int)) := by omega
  have hd : load (List.drop 4 (w.buf buffer).data) 0 = load (w.buf buffer).data 4 := by
    rw [load_drop]
  have hdata : ((read_req_handler env size buffer w).buf buffer).data =
      (hev_socks5_proto_res_pack (w.buf buffer).data HEV_SOCKS5_PROTO_REP_ATYPE_NOT_SUPPORT
        (load (w.buf buffer).data 3 % 256) ((w.buf buffer).data.drop 4)
        (slice (w.buf buffer).data
          (4 + addr_size (load (w.buf buffer).data 3 % 256) (load (w.buf buffer).data 4)) 2)).1 := by
    simp only [read_req_handler, buf_clear_idle, hs, if_false, hu, hl, h1, h3]
    cases hcw : env.client_write <;>
    simp [World.buf, World.set_buf, World.emit, set_buffer0, hev_buffer_list_free, clear_idle,
      getD_set_heap, hbuf, hev_socks5_session_destroy, hcw,
      hev_socks5_session_client_write, error_free0_destroy]
  have hecho : slice ((read_req_handler env size buffer w).buf buffer).data 0
        (4 + addr_size (load (w.buf buffer).data 3 % 256) (load (w.buf buffer).data 4) + 2) =
      [5, 8, 0, load (w.buf buffer).data 3 % 256] ++
        slice (w.buf buffer).data 4
          (addr_size (load (w.buf buffer).data 3 % 256) (load (w.buf buffer).data 4)) ++
        slice (w.buf buffer).data
          (4 + addr_size (load (w.buf buffer).data 3 % 256) (load (w.buf buffer).data 4)) 2 := by
    rw [hdata]
    unfold hev_socks5_proto_res_pack
    simp only [hd, slice_drop, slice_slice_self, Nat.add_zero]
    have := slice_store_same (w.buf buffer).data 0
      ([5, HEV_SOCKS5_PROTO_REP_ATYPE_NOT_SUPPORT, 0, load (w.buf buffer).data 3 % 256] ++
        slice (w.buf buffer).data 4
          (addr_size (load (w.buf buffer).data 3 % 256) (load (w.buf buffer).data 4)) ++
        slice (w.buf buffer).data
          (4 + addr_size (load (w.buf buffer).data 3 % 256) (load (w.buf buffer).data 4)) 2)
    simp only [List.length_append, slice_length, List.length_cons, List.length_nil] at this
    exact this
  refine ⟨?_, hdata, hecho, ?_⟩
  · simp only [read_req_handler, buf_clear_idle, hs, if_false, hu, hl, h1, h3]
    cases hcw : env.client_write <;>
    simp [World.buf, World.set_buf, World.emit, set_buffer0, hev_buffer_list_free, clear_idle,
      getD_set_heap, hbuf, hev_socks5_session_destroy, hcw, new_events,
      hev_socks5_session_client_write, error_free0_destroy, hev_socks5_proto_res_pack,
      Event.is_write, List.filter_append, destroy_calls_filter_write, load_drop]
  · intro h6
    have h16 : addr_size (load (w.buf buffer).data 3 % 256) (load (w.buf buffer).data 4) = 16 := by
      rw [h6]; rfl
    rw [h16, h6] at hecho
    exact hecho

theorem read_req_handler_atype_not_supported_witness :
    (new_events ex_ipv6_world
        (read_req_handler (Env.ok []) 18 0 ex_ipv6_world)).filter Event.is_write =
      [Event.write_async (some PFD.client) 0 0 22 Callback.write_res_handler true] ∧
    slice ((read_req_handler (Env.ok []) 18 0 ex_ipv6_world).buf 0).data 0 22 =
      [5, 8, 0, 4, 32, 1, 13, 184, 0, 0, 0, 0, 0, 0, 0, 0, 0, 0, 0, 1, 0, 80] :=
  ⟨(read_req_handler_atype_not_supported (Env.ok []) 18 0 ex_ipv6_world
      (by decide) (by decide) (by decide) (by decide) (by decide)).1,
    (read_req_handler_atype_not_supported (Env.ok []) 18 0 ex_ipv6_world
      (by decide) (by decide) (by decide) (by decide) (by decide)).2.2.2 (by decide)⟩

/-- C6 (the code at the failing input): in scenario S3 the reply `05 08 00 04 ..`
(REP = 0x08) has been submitted and its write completes in full.  `write_res_handler`
does what it does after a success reply: it arms the relay read on the client
(`read_client_data_handler`, buf0, `B` bytes), allocates buf1 and submits a read with
`read_remote_data_handler` on `remote_pfd`, which is NULL.  When that submission is
accepted the session is left open; when it is refused the session is destroyed, after
the client read was armed and buf1 allocated. -/
theorem unsupported_atype_reply_enters_relay :
    ex_s3_req_read.writing PFD.client =
      some { buffer := 0, count := 22, callback := Callback.write_res_handler } ∧
    slice (ex_s3_req_read.buf 0).data 0 4 = [5, 8, 0, 4] ∧
    ex_s3_req_read.self.remote_pfd = none ∧
    new_events ex_s3_req_read (write_ready 8192 (Env.ok []) PFD.client (some 22) ex_s3_req_read).1 =
      [Event.read_async (some PFD.client) 0 0 8192 Callback.read_client_data_handler true,
        Event.buffer_alloc (some 1),
        Event.read_async none 1 0 8192 Callback.read_remote_data_handler true] ∧
    (write_ready 8192 (Env.ok []) PFD.client (some 22) ex_s3_req_read).1.freed = false ∧
    (write_ready 8192 (Env.ok []) PFD.client (some 22) ex_s3_req_read).1.self.buffer1 = some 1 ∧
    new_events ex_s3_req_read
        (write_ready 8192 Env.no_remote_read PFD.client (some 22) ex_s3_req_read).1 =
      [Event.read_async (some PFD.client) 0 0 8192 Callback.read_client_data_handler true,
        Event.buffer_alloc (some 1),
        Event.read_async none 1 0 8192 Callback.read_remote_data_handler false,
        Event.buffer_free 1, Event.buffer_free 0, Event.pfd_destroy PFD.client,
        Event.close 0, Event.close 4, Event.close_notify, Event.free_self] := by
  decide

/-! ## C7 -/

theorem getD_set_append (heap : List HevBuffer) (b b' d : HevBuffer) :
    ((heap ++ [b]).set heap.length b').getD heap.length d = b' :=
  getD_set_heap _ _ _ _ (by simp)

theorem slice_of_length (l : List Nat) : slice l 0 l.length = l := by
  apply eq_of_load_eq
  · simp [slice_length]
  · intro i hi
    rw [slice_length] at hi
    rw [load_slice, if_pos hi, Nat.zero_add]

/-- The reply `socket_connect_handler` packs and submits after a successful connect:
REP = 0x00, ATYP = IPv4, the address and port held in `self->addr`. -/
theorem socket_connect_handler_reply (env : Env) (status : Int) (w : World) (d : List Nat)
    (hstatus : 0 ≤ status) (hpfd : env.pfd_new = true) (halloc : env.buffer_alloc = some d) :
    (socket_connect_handler env status w).self.buffer0 = some w.heap.length ∧
    ((socket_connect_handler env status w).buf w.heap.length).data =
      (hev_socks5_proto_res_pack d HEV_SOCKS5_PROTO_REP_SUCC HEV_SOCKS5_PROTO_ATYPE_IPV4
        w.self.addr.s_addr w.self.addr.sin_port).1 ∧
    (new_events w (socket_connect_handler env status w)).filter Event.is_write =
      [Event.write_async (some PFD.client) w.heap.length 0 10 Callback.write_res_handler
        env.client_write] := by
  have hs : ¬ (0 > status) := by omega
  unfold socket_connect_handler
  cases hcw : env.client_write <;>
  simp [hs, hpfd, halloc, hev_buffer_list_alloc, set_buffer0, clear_idle, World.buf, World.set_buf,
    World.emit, hev_socks5_session_client_write, hcw, hev_socks5_session_destroy,
    getD_set_append, new_events, List.filter_append, destroy_calls_filter_write, Event.is_write,
    hev_socks5_proto_res_pack, addr_size, HEV_SOCKS5_PROTO_ATYPE_IPV4]

theorem success_reply_of_addr (env : Env) (status : Int) (w : World) (d a p : List Nat)
    (hstatus : 0 ≤ status) (hpfd : env.pfd_new = true) (halloc : env.buffer_alloc = some d)
    (ha : w.self.addr.s_addr = a) (hp : w.self.addr.sin_port = p)
    (hal : a.length = 4) (hpl : p.length = 2) :
    success_reply_submitted w (socket_connect_handler env status w) env.client_write d a p := by
  obtain ⟨h1, h2, h3⟩ := socket_connect_handler_reply env status w d hstatus hpfd halloc
  rw [ha, hp] at h2
  refine ⟨w.heap.length, h1, h2, ?_, h3⟩
  rw [h2]
  unfold hev_socks5_proto_res_pack
  have e4 : addr_size HEV_SOCKS5_PROTO_ATYPE_IPV4 (load a 0) = 4 := rfl
  have ea : slice a 0 4 = a := by rw [← hal]; exact slice_of_length a
  have ep : slice p 0 2 = p := by rw [← hpl]; exact slice_of_length p
  simp only [e4, ea, ep]
  have := slice_store_same d 0
    ([5, HEV_SOCKS5_PROTO_REP_SUCC, 0, HEV_SOCKS5_PROTO_ATYPE_IPV4] ++ a ++ p)
  simp only [List.length_append, List.length_cons, List.length_nil, hal, hpl] at this
  exact this

/-- Reading through `addr` after the free finds the request's bytes when the pool has
left the buffer alone. -/
theorem read_after_free_untouched (env : Env) (left : List Nat) (off n : Nat)
    (h : env.freed_data = none) : read_after_free env left off n = slice left off n := by
  simp [read_after_free, h]

theorem read_after_free_length (env : Env) (left : List Nat) (off n : Nat) :
    (read_after_free env left off n).length = n := by
  unfold read_after_free
  cases env.freed_data <;> simp [slice_length]

/-- What `read_req_handler` leaves in `self->addr` and in the heap for a complete IPv4
request when the connect is started: the port bytes of the request, copied before the
free, and as address what the read through `addr` finds in the freed buffer. -/
theorem read_req_handler_ipv4_addr (env : Env) (size : Int) (buffer : Nat) (w : World)
    (hsize : 0 < size)
    (hcomplete : 0 ≤ (hev_socks5_proto_req_unpack (w.buf buffer).data
      ((w.buf buffer).offset + size.toNat)).left_size)
    (hat : load (w.buf buffer).data 3 % 256 = HEV_SOCKS5_PROTO_ATYPE_IPV4) :
    (read_req_handler env size buffer w).self.addr.s_addr =
      read_after_free env (w.buf buffer).data 4 4 ∧
    (read_req_handler env size buffer w).self.addr.sin_port = slice (w.buf buffer).data 8 2 ∧
    (read_req_handler env size buffer w).heap = w.heap := by
  have hs : ¬ (0 ≥ size) := by omega
  have hu := req_unpack_complete _ _ hcomplete
  have hl : ¬ ((0 : Int) > ((4 + addr_size (load (w.buf buffer).data 3 % 256)
      (load (w.buf buffer).data 4) + 2 : Nat) : Int)) := by omega
  have e4 : ∀ x, addr_size HEV_SOCKS5_PROTO_ATYPE_IPV4 x = 4 := fun _ => rfl
  rw [hat] at hu hl
  simp only [read_req_handler, buf_clear_idle, hs, if_false, hu, hl, if_true]
  cases hsn : env.socket_new <;> cases hca : env.connect_async <;>
  simp [World.buf, World.set_buf, World.emit, set_buffer0, hev_buffer_list_free, clear_idle,
    hev_socks5_session_socket_connect, hev_socks5_session_destroy, hsn, hca, e4]

/-- What `read_req_handler` and then `resolver_handler` leave in `self->addr` and in
the heap for a complete DOMAIN request whose DNS result is `ip`, not 0. -/
theorem resolver_handler_domain_addr (env₁ env₂ : Env) (size : Int) (buffer : Nat) (w : World)
    (ip : List Nat) (hsize : 0 < size)
    (hcomplete : 0 ≤ (hev_socks5_proto_req_unpack (w.buf buffer).data
      ((w.buf buffer).offset + size.toNat)).left_size)
    (hat : load (w.buf buffer).data 3 % 256 = HEV_SOCKS5_PROTO_ATYPE_DOMAIN)
    (hres : env₁.resolver_new = true) (hq : env₁.query_async = true)
    (hip : slice ip 0 4 ≠ [0, 0, 0, 0]) :
    (resolver_handler env₂ ip (read_req_handler env₁ size buffer w)).self.addr.s_addr =
      slice ip 0 4 ∧
    (resolver_handler env₂ ip (read_req_handler env₁ size buffer w)).self.addr.sin_port =
      slice (w.buf buffer).data (5 + load (w.buf buffer).data 4 % 256) 2 ∧
    (resolver_handler env₂ ip (read_req_handler env₁ size buffer w)).heap = w.heap := by
  have hs : ¬ (0 ≥ size) := by omega
  have hu := req_unpack_complete _ _ hcomplete
  have hl : ¬ ((0 : Int) > ((4 + addr_size (load (w.buf buffer).data 3 % 256)
      (load (w.buf buffer).data 4) + 2 : Nat) : Int)) := by omega
  have e3 : ∀ x, addr_size HEV_SOCKS5_PROTO_ATYPE_DOMAIN x = 1 + x % 256 := fun _ => rfl
  have hd31 : ¬ HEV_SOCKS5_PROTO_ATYPE_DOMAIN = HEV_SOCKS5_PROTO_ATYPE_IPV4 := by decide
  rw [hat] at hu hl
  simp only [read_req_handler, buf_clear_idle, hs, if_false, hu, hl, if_true, hd31,
    resolver_handler, hip]
  cases hsn : env₂.socket_new <;> cases hca : env₂.connect_async <;>
  simp [World.buf, World.set_buf, World.emit, set_buffer0, hev_buffer_list_free, clear_idle,
    hev_socks5_session_socket_connect, hev_socks5_session_destroy, hsn, hca, e3, hres, hq,
    ← Nat.add_assoc]

/-- After a complete request, when the connect succeeds (`socket_connect_handler` runs
with a status that is not negative, the remote pollable fd is created and the pool
hands out a buffer), the reply the handler packs and submits has REP = 0x00,
ATYP = IPv4, and carries what `self->addr` holds.  For a DOMAIN request whose DNS
result `ip` is not 0 that is `ip` and the request's port bytes.  For an IPv4 request it
is the request's port bytes and, as address, the four bytes found in the buffer after
it has been returned to the pool; they are the request's address bytes if the pool has
left the buffer alone. -/
theorem success_reply_after_request (env₁ env₂ env₃ : Env) (size : Int)
    (buffer : Nat) (w : World) (ip d : List Nat) (status : Int)
    (hsize : 0 < size)
    (hcomplete : 0 ≤ (hev_socks5_proto_req_unpack (w.buf buffer).data
      ((w.buf buffer).offset + size.toNat)).left_size)
    (hstatus : 0 ≤ status) (hpfd : env₃.pfd_new = true) (halloc : env₃.buffer_alloc = some d) :
    (load (w.buf buffer).data 3 % 256 = HEV_SOCKS5_PROTO_ATYPE_IPV4 →
      success_reply_submitted (read_req_handler env₁ size buffer w)
        (socket_connect_handler env₃ status (read_req_handler env₁ size buffer w))
        env₃.client_write d (read_after_free env₁ (w.buf buffer).data 4 4)
        (slice (w.buf buffer).data 8 2) ∧
      (env₁.freed_data = none →
        read_after_free env₁ (w.buf buffer).data 4 4 = slice (w.buf buffer).data 4 4)) ∧
    (load (w.buf buffer).data 3 % 256 = HEV_SOCKS5_PROTO_ATYPE_DOMAIN →
      env₁.resolver_new = true → env₁.query_async = true → slice ip 0 4 ≠ [0, 0, 0, 0] →
      success_reply_submitted (resolver_handler env₂ ip (read_req_handler env₁ size buffer w))
        (socket_connect_handler env₃ status
          (resolver_handler env₂ ip (read_req_handler env₁ size buffer w)))
        env₃.client_write d (slice ip 0 4)
        (slice (w.buf buffer).data (5 + load (w.buf buffer).data 4 % 256) 2)) := by
  constructor
  · intro hat
    obtain ⟨ha, hp, _⟩ := read_req_handler_ipv4_addr env₁ size buffer w hsize hcomplete hat
    exact ⟨success_reply_of_addr env₃ status _ d _ _ hstatus hpfd halloc ha hp
      (read_after_free_length _ _ _ _) (slice_length _ _ _),
      read_after_free_untouched _ _ _ _⟩
  · intro hat hres hq hip
    obtain ⟨ha, hp, _⟩ :=
      resolver_handler_domain_addr env₁ env₂ size buffer w ip hsize hcomplete hat hres hq hip
    exact success_reply_of_addr env₃ status _ d _ _ hstatus hpfd halloc ha hp
      (slice_length _ _ _) (slice_length _ _ _)

theorem reading_client (w : World) : w.reading PFD.client = w.self.client_pfd.reading := rfl

theorem read_ready_client (B : Nat) (env : Env) (avail : Option (List Nat)) (w : World)
    (op : AsyncOp) (hf : w.freed = false) (hr : w.self.client_pfd.reading = some op) :
    read_ready B env PFD.client avail w =
      dispatch B env op.callback (sock_reader (w.buf op.buffer) op.count avail).1 op.buffer
        ((w.set_buf op.buffer (sock_reader (w.buf op.buffer) op.count avail).2).set_pfd
          PFD.client { w.self.client_pfd with reading := none }) := by
  simp [read_ready, hf, World.pfd, hr]

theorem load_of_head {data frame : List Nat} {got : Nat}
    (h : slice data 0 got = frame.take got) (i : Nat) (hi : i < got) :
    load data i = load frame i := by
  have := load_of_slice_eq h i hi
  rw [Nat.zero_add, load_take, if_pos hi] at this
  exact this

theorem head_of_load {data frame : List Nat} {got : Nat} (hgot : got ≤ frame.length)
    (h : ∀ i, i < got → load data i = load frame i) : slice data 0 got = frame.take got := by
  apply eq_of_load_eq
  · simp [slice_length, hgot]
  · intro i hi
    rw [slice_length] at hi
    rw [load_slice, if_pos hi, Nat.zero_add, load_take, if_pos hi, h i hi]

/-- Receiving the next `n` bytes of the frame at offset `got` extends the stored
prefix. -/
theorem stored_head_extends {data frame : List Nat} {got n : Nat} (hn : got + n ≤ frame.length)
    (h : slice data 0 got = frame.take got) :
    slice (store data got ((frame.drop got).take n)) 0 (got + n) = frame.take (got + n) := by
  apply head_of_load hn
  intro i hi
  have hlen : ((frame.drop got).take n).length = n := by
    simp [List.length_take, List.length_drop]; omega
  rw [load_store, hlen]
  by_cases hc : got ≤ i ∧ i < got + n
  · rw [if_pos hc, load_take, if_pos (by omega), load_drop]
    congr 1; omega
  · rw [if_neg hc]
    exact load_of_head h i (by omega)

theorem sock_reader_some (b : HevBuffer) (count : Nat) (bytes : List Nat) :
    sock_reader b count (some bytes) =
      ((((bytes.take count).length : Nat) : Int),
        { b with data := store b.data b.offset (bytes.take count) }) :=
  rfl

/-- One completed read while a handshake frame is being read: either the frame is
still incomplete and the read is re-issued at the new offset for what the codec still
needs, or the read delivered the last byte and the callback runs on the whole frame. -/
theorem frame_step (B : Nat) (env : Env) (cb : Callback) (left : List Nat → Nat → Int)
    (h : Env → Int → Nat → World → World) (frame : List Nat) (p : Nat) (start w : World)
    (got k : Nat)
    (hread : env.client_read = true)
    (hdisp : ∀ size q v, dispatch B env cb size q v = h env size q v)
    (hinc : ∀ (size : Int) q v, 0 < size →
      left (v.buf q).data ((v.buf q).offset + size.toNat) < 0 →
      h env size q v = (hev_socks5_session_client_read env q cb ((clear_idle v).set_buf q
        { (v.buf q) with
          offset := (v.buf q).offset + size.toNat,
          length := (0 - left (v.buf q).data ((v.buf q).offset + size.toNat)).toNat })).2)
    (hlocal : ∀ data m, m ≤ frame.length → slice data 0 m = frame.take m →
      left data m = left frame m)
    (hneed : ∀ m, m < frame.length →
      left frame m < 0 ∧ m + still_needed (left frame m) ≤ frame.length)
    (hk : 0 < k) (hpend : frame_pending cb left frame p start w got) :
    (got + min k (still_needed (left frame got)) < frame.length →
      frame_pending cb left frame p start
        (read_ready B env PFD.client (some ((frame.drop got).take k)) w)
        (got + min k (still_needed (left frame got)))) ∧
    (got + min k (still_needed (left frame got)) = frame.length →
      ∃ v, frame_complete frame p start v ((min k (still_needed (left frame got)) : Nat) : Int) ∧
        read_ready B env PFD.client (some ((frame.drop got).take k)) w =
          h env ((min k (still_needed (left frame got)) : Nat) : Int) p v) := by
  obtain ⟨hf, hp, hr, hoff, hlen, hpre, hpos, hle, evs, hlog, hw⟩ := hpend
  have hgot : got ≤ frame.length := by omega
  have hl := hlocal _ _ hgot hpre
  rw [hl] at hr hlen hpos hle
  set c := still_needed (left frame got) with hc
  set n := min k c with hn
  have hn1 : 0 < n := by omega
  have hnle : got + n ≤ frame.length := by omega
  have htake : ((frame.drop got).take k).take c = (frame.drop got).take n := by
    rw [List.take_take, Nat.min_comm]
  have hlenb : ((frame.drop got).take n).length = n := by
    simp [List.length_take, List.length_drop]; omega
  rw [reading_client] at hr
  rw [read_ready_client B env _ w _ hf hr]
  simp only [sock_reader_some, htake, hlenb, hdisp]
  -- the world the callback runs on
  set v := (w.set_buf p { (w.buf p) with
      data := store (w.buf p).data (w.buf p).offset ((frame.drop got).take n) }).set_pfd
      PFD.client { w.self.client_pfd with reading := none } with hv
  have hvbuf : v.buf p = { (w.buf p) with data := store (w.buf p).data got ((frame.drop got).take n) } := by
    simp [hv, World.set_pfd, World.buf, World.set_buf, getD_set_heap, hp, ← hoff]
  have hvpre : slice (v.buf p).data 0 (got + n) = frame.take (got + n) := by
    rw [hvbuf]; exact stored_head_extends hnle hpre
  have hvoff : (v.buf p).offset = got := by rw [hvbuf]; exact hoff
  have hvf : v.freed = false := by simp [hv, World.set_pfd, World.set_buf, hf]
  have hvp : p < v.heap.length := by simp [hv, World.set_pfd, World.set_buf, hp]
  have hvlog : v.log = w.log := by simp [hv, World.set_pfd, World.set_buf]
  have hvr : v.reading PFD.client = none := by simp [hv, World.set_pfd, World.reading, World.pfd]
  constructor
  · intro hlt
    have hl' := hlocal _ _ hnle hvpre
    obtain ⟨hneg, hle'⟩ := hneed _ hlt
    have hneg' : left (v.buf p).data ((v.buf p).offset + ((n : Nat) : Int).toNat) < 0 := by
      rw [hvoff, Int.toNat_ofNat, hl']; exact hneg
    rw [hinc _ p v (by omega) hneg']
    rw [hvoff, Int.toNat_ofNat, hl']
    have hpos' : 0 < still_needed (left frame (got + n)) := by
      unfold still_needed; omega
    set w' := (hev_socks5_session_client_read env p cb ((clear_idle v).set_buf p
      { (v.buf p) with
        offset := got + n,
        length := (0 - left frame (got + n)).toNat })).2 with hw'
    have hbuf' : w'.buf p =
        { data := (v.buf p).data,
          offset := got + n,
          length := still_needed (left frame (got + n)) } := by
      simp [hw', hev_socks5_session_client_read, World.set_buf, clear_idle, World.buf,
        getD_set_heap, hvp, still_needed]
    have hread' : w'.reading PFD.client =
        some { buffer := p,
               count := still_needed (left frame (got + n)),
               callback := cb } := by
      simp [hw', hev_socks5_session_client_read, World.set_buf, clear_idle, World.buf,
        getD_set_heap, hvp, still_needed, World.reading, World.pfd, hev_pollable_fd_read_async,
        hread]
    have hlog' : w'.log = start.log ++ (evs ++ [Event.read_async (some PFD.client) p (got + n)
        (still_needed (left frame (got + n))) cb true]) := by
      simp [hw', hev_socks5_session_client_read, World.set_buf, clear_idle, World.buf,
        getD_set_heap, hvp, still_needed, hread, hvlog, hlog]
    have hdata' : (w'.buf p).data = (v.buf p).data := by rw [hbuf']
    have hl'' : left (w'.buf p).data (got + n) = left frame (got + n) := by
      rw [hdata']; exact hl'
    refine ⟨?_, ?_, ?_, ?_, ?_, ?_, ?_, ?_, ?_⟩
    · simp [hw', hev_socks5_session_client_read, World.set_buf, clear_idle, hvf]
    · simp [hw', hev_socks5_session_client_read, World.set_buf, clear_idle, hvp]
    · rw [hl'']; exact hread'
    · rw [hbuf']
    · rw [hl'', hbuf']
    · rw [hdata']; exact hvpre
    · rw [hl'']; exact hpos'
    · rw [hl'']; exact hle'
    · exact ⟨_, hlog', by simp [List.filter_append, hw, Event.is_write]⟩
  · intro heq
    refine ⟨v, ⟨hvf, hvp, by omega, hvr, ?_, ?_, ⟨evs, by rw [hvlog, hlog], hw⟩⟩, rfl⟩
    · rw [hvoff, Int.toNat_ofNat]; exact heq
    · have := hvpre
      rw [heq, List.take_length] at this
      exact this
theorem client_sends_no_read (B : Nat) (env : Env) (ks : List Nat) (w : World)
    (stream : List Nat) (h : w.reading PFD.client = none) :
    client_sends B env ks w stream = (w, stream) := by
  cases ks with
  | nil => rfl
  | cons k ks => simp [client_sends, h]

/-- The run of `client_sends` from a state in the middle of a handshake frame. -/
theorem frame_run (B : Nat) (env : Env) (cb : Callback) (left : List Nat → Nat → Int)
    (h : Env → Int → Nat → World → World) (frame : List Nat) (p : Nat) (start : World)
    (hread : env.client_read = true)
    (hdisp : ∀ size q v, dispatch B env cb size q v = h env size q v)
    (hinc : ∀ (size : Int) q v, 0 < size →
      left (v.buf q).data ((v.buf q).offset + size.toNat) < 0 →
      h env size q v = (hev_socks5_session_client_read env q cb ((clear_idle v).set_buf q
        { (v.buf q) with
          offset := (v.buf q).offset + size.toNat,
          length := (0 - left (v.buf q).data ((v.buf q).offset + size.toNat)).toNat })).2)
    (hdone : ∀ (size : Int) q v,
      0 ≤ left (v.buf q).data ((v.buf q).offset + size.toNat) →
      (h env size q v).reading PFD.client = v.reading PFD.client)
    (hlocal : ∀ data m, m ≤ frame.length → slice data 0 m = frame.take m →
      left data m = left frame m)
    (hneed : ∀ m, m < frame.length →
      left frame m < 0 ∧ m + still_needed (left frame m) ≤ frame.length)
    (hfull : 0 ≤ left frame frame.length)
    (ks : List Nat) (hks : ∀ k ∈ ks, 0 < k) (w : World) (got : Nat)
    (hpend : frame_pending cb left frame p start w got) :
    ∃ got', got' ≤ frame.length ∧ (client_sends B env ks w (frame.drop got)).2 = frame.drop got' ∧
      ((got' < frame.length ∧ got + ks.length ≤ got' ∧
          frame_pending cb left frame p start (client_sends B env ks w (frame.drop got)).1 got') ∨
       (got' = frame.length ∧
          ∃ v size, frame_complete frame p start v size ∧
            (client_sends B env ks w (frame.drop got)).1 = h env size p v)) := by
  induction ks generalizing w got with
  | nil =>
    have hlt : got < frame.length := by
      obtain ⟨_, _, _, _, _, _, hpos, hle, _⟩ := hpend
      omega
    exact ⟨got, by omega, rfl, Or.inl ⟨hlt, by simp, hpend⟩⟩
  | cons k ks ih =>
    have hk : 0 < k := hks k (by simp)
    have hks' : ∀ k' ∈ ks, 0 < k' := fun k' hk' => hks k' (by simp [hk'])
    have hstep := frame_step B env cb left h frame p start w got k hread hdisp hinc hlocal hneed
      hk hpend
    obtain ⟨hf, hp, hr, hoff, hlen, hpre, hpos, hle, evs, hlog, hw⟩ := hpend
    have hl := hlocal _ _ (by omega) hpre
    rw [hl] at hr hpos hle
    have hunf : client_sends B env (k :: ks) w (frame.drop got) =
        client_sends B env ks (read_ready B env PFD.client (some ((frame.drop got).take k)) w)
          (frame.drop (got + min k (still_needed (left frame got)))) := by
      simp [client_sends, hr, List.drop_drop, Nat.add_comm]
    rw [hunf]
    by_cases hlt : got + min k (still_needed (left frame got)) < frame.length
    · obtain ⟨got', h1, h2, h3⟩ := ih hks' _ _ (hstep.1 hlt)
      refine ⟨got', h1, h2, ?_⟩
      rcases h3 with ⟨a, b, c⟩ | h3
      · left
        refine ⟨a, ?_, c⟩
        simp only [List.length_cons]
        omega
      · exact Or.inr h3
    · have heq : got + min k (still_needed (left frame got)) = frame.length := by omega
      obtain ⟨v, hv, hrr⟩ := hstep.2 heq
      have hnone : (h env ((min k (still_needed (left frame got)) : Nat) : Int) p v).reading
          PFD.client = none := by
        obtain ⟨_, _, _, hvr, hvo, hvs, _⟩ := hv
        rw [hdone _ p v, hvr]
        rw [hvo, hlocal _ _ (le_refl _) (by rw [hvs, List.take_length])]
        exact hfull
      rw [hrr, client_sends_no_read B env ks _ _ hnone, heq]
      exact ⟨frame.length, le_refl _, rfl, Or.inr ⟨rfl, v, _, hv, rfl⟩⟩

theorem auth_hinc (env : Env) (hread : env.client_read = true) (size : Int) (q : Nat) (v : World)
    (hsize : 0 < size)
    (hneg : auth_req_left (v.buf q).data ((v.buf q).offset + size.toNat) < 0) :
    read_auth_req_handler env size q v =
      (hev_socks5_session_client_read env q Callback.read_auth_req_handler
        ((clear_idle v).set_buf q
          { (v.buf q) with
            offset := (v.buf q).offset + size.toNat,
            length := (0 - auth_req_left (v.buf q).data
              ((v.buf q).offset + size.toNat)).toNat })).2 := by
  have hs : ¬ (0 ≥ size) := by omega
  unfold auth_req_left at hneg ⊢
  have hneg' : (0 : Int) > (hev_socks5_proto_auth_req_unpack (v.buf q).data
      ((v.buf q).offset + size.toNat)).left_size := hneg
  simp only [read_auth_req_handler, buf_clear_idle, hs, if_false, hneg', if_true]
  simp [hev_socks5_session_client_read, hread]

theorem auth_hdone (env : Env) (size : Int) (q : Nat) (v : World)
    (hfull : 0 ≤ auth_req_left (v.buf q).data ((v.buf q).offset + size.toNat)) :
    (read_auth_req_handler env size q v).reading PFD.client = v.reading PFD.client := by
  unfold auth_req_left at hfull
  have hneg : ¬ ((0 : Int) > (hev_socks5_proto_auth_req_unpack (v.buf q).data
      ((v.buf q).offset + size.toNat)).left_size) := by omega
  simp only [read_auth_req_handler, buf_clear_idle, hneg, if_false, reading_client]
  split_ifs <;>
  simp [error_free0_destroy, hev_socks5_session_destroy, set_buffer0, hev_buffer_list_free,
    World.emit, clear_idle, hev_socks5_session_client_write, World.set_buf,
    hev_pollable_fd_write_async, apply_ite]

theorem auth_hlocal (frame data : List Nat) (m : Nat)
    (hpre : slice data 0 m = frame.take m) : auth_req_left data m = auth_req_left frame m := by
  unfold auth_req_left hev_socks5_proto_auth_req_unpack
  by_cases h2 : m < 2
  · simp [h2]
  · have h1 : load data 1 = load frame 1 := load_of_head hpre 1 (by omega)
    rw [h1]

theorem auth_hneed (frame : List Nat) (hv : valid_auth_request frame) (m : Nat)
    (hm : m < frame.length) :
    auth_req_left frame m < 0 ∧ m + still_needed (auth_req_left frame m) ≤ frame.length := by
  unfold valid_auth_request at hv
  unfold auth_req_left hev_socks5_proto_auth_req_unpack still_needed
  by_cases h2 : m < 2
  · simp only [h2, if_true]
    omega
  · have h3 : m < 2 + load frame 1 % 256 := by omega
    simp only [h2, h3, if_true, if_false]
    omega

theorem auth_hfull (frame : List Nat) (hv : valid_auth_request frame) :
    0 ≤ auth_req_left frame frame.length := by
  unfold valid_auth_request at hv
  unfold auth_req_left hev_socks5_proto_auth_req_unpack
  have h2 : ¬ frame.length < 2 := by omega
  have h3 : ¬ frame.length < 2 + load frame 1 % 256 := by omega
  simp only [h2, h3, if_false]
  omega

/-- The session `hev_socks5_session_new` returns is at the start of reading the auth
request: its first read, on buf0 (pointer 0), asks for 2 bytes at offset 0. -/
theorem session_new_pending (env : Env) (fd : Int) (notify : Bool) (d frame : List Nat)
    (hmalloc : env.malloc = true) (hpfd : env.pfd_new = true)
    (halloc : env.buffer_alloc = some d) (hread : env.client_read = true)
    (hv : valid_auth_request frame) :
    (hev_socks5_session_new env fd notify).1 = some (session_new_world fd notify d) ∧
    frame_pending Callback.read_auth_req_handler auth_req_left frame 0
      (session_new_world fd notify d) (session_new_world fd notify d) 0 := by
  unfold valid_auth_request at hv
  have h0 : (hev_socks5_proto_auth_req_unpack d 0).left_size = -2 := by
    simp [hev_socks5_proto_auth_req_unpack]
  have hn : still_needed (auth_req_left d 0) = 2 := by
    unfold still_needed auth_req_left; rw [h0]; rfl
  have hb : (session_new_world fd notify d).buf 0 = { data := d, offset := 0, length := 2 } := rfl
  constructor
  · simp [hev_socks5_session_new, hmalloc, hpfd, hev_buffer_list_alloc, halloc, set_buffer0,
      hev_socks5_session_client_read, hread, World.buf, World.set_buf, h0, malloc0_session,
      hev_pollable_fd_read_async, session_new_world]
  · refine ⟨rfl, by simp [session_new_world], ?_, ?_, ?_, ?_, ?_, ?_, ⟨[], by simp⟩⟩
    · rw [hb, hn]; rfl
    · rw [hb]
    · rw [hb, hn]
    · simp [slice]
    · rw [hb, hn]; decide
    · rw [hb, hn]; omega
theorem req_hinc (env : Env) (hread : env.client_read = true) (size : Int) (q : Nat) (v : World)
    (hsize : 0 < size)
    (hneg : req_left (v.buf q).data ((v.buf q).offset + size.toNat) < 0) :
    read_req_handler env size q v =
      (hev_socks5_session_client_read env q Callback.read_req_handler
        ((clear_idle v).set_buf q
          { (v.buf q) with
            offset := (v.buf q).offset + size.toNat,
            length := (0 - req_left (v.buf q).data
              ((v.buf q).offset + size.toNat)).toNat })).2 := by
  have hs : ¬ (0 ≥ size) := by omega
  unfold req_left at hneg ⊢
  have hneg' : (0 : Int) > (hev_socks5_proto_req_unpack (v.buf q).data
      ((v.buf q).offset + size.toNat)).left_size := hneg
  simp only [read_req_handler, buf_clear_idle, hs, if_false, hneg', if_true]
  simp [hev_socks5_session_client_read, hread]

theorem req_hdone (env : Env) (size : Int) (q : Nat) (v : World)
    (hfull : 0 ≤ req_left (v.buf q).data ((v.buf q).offset + size.toNat)) :
    (read_req_handler env size q v).reading PFD.client = v.reading PFD.client := by
  unfold req_left at hfull
  have hneg : ¬ ((0 : Int) > (hev_socks5_proto_req_unpack (v.buf q).data
      ((v.buf q).offset + size.toNat)).left_size) := by omega
  simp only [read_req_handler, buf_clear_idle, hneg, if_false, reading_client]
  cases hsn : env.socket_new <;> cases hrn : env.resolver_new <;>
  split_ifs <;>
  simp [error_free0_destroy, hev_socks5_session_destroy, set_buffer0, hev_buffer_list_free,
    World.emit, clear_idle, hev_socks5_session_client_write, World.set_buf,
    hev_pollable_fd_write_async, apply_ite, hev_socks5_session_socket_connect, hsn]

theorem addr_size_not_domain (atype x y : Nat) (h : atype ≠ HEV_SOCKS5_PROTO_ATYPE_DOMAIN) :
    addr_size atype x = addr_size atype y := by
  unfold addr_size
  simp [h]

theorem req_hlocal (frame data : List Nat) (m : Nat)
    (hpre : slice data 0 m = frame.take m) : req_left data m = req_left frame m := by
  unfold req_left hev_socks5_proto_req_unpack
  by_cases h4 : m < 4
  · simp [h4]
  · have h3 : load data 3 = load frame 3 := load_of_head hpre 3 (by omega)
    rw [h3]
    by_cases hd : load frame 3 % 256 = HEV_SOCKS5_PROTO_ATYPE_DOMAIN
    · by_cases h5 : m < 5
      · simp [h4, hd, h5]
      · have h4' : load data 4 = load frame 4 := load_of_head hpre 4 (by omega)
        rw [h4']
        split_ifs <;> simp
    · rw [addr_size_not_domain _ (load data 4) (load frame 4) hd]
      split_ifs <;> simp

theorem addr_size_domain_pos (x : Nat) : 1 ≤ addr_size HEV_SOCKS5_PROTO_ATYPE_DOMAIN x := by
  unfold addr_size
  simp [HEV_SOCKS5_PROTO_ATYPE_DOMAIN, HEV_SOCKS5_PROTO_ATYPE_IPV4]

theorem req_hneed (frame : List Nat) (hv : valid_request frame) (m : Nat)
    (hm : m < frame.length) :
    req_left frame m < 0 ∧ m + still_needed (req_left frame m) ≤ frame.length := by
  obtain ⟨_, hlen⟩ := hv
  unfold req_left hev_socks5_proto_req_unpack still_needed
  by_cases h4 : m < 4
  · simp only [h4, if_true]
    omega
  · by_cases hd : load frame 3 % 256 = HEV_SOCKS5_PROTO_ATYPE_DOMAIN ∧ m < 5
    · simp only [h4, hd, if_true, if_false, and_self]
      have := addr_size_domain_pos (load frame 4)
      rw [hd.1] at hlen
      omega
    · have h6 : m < 4 + addr_size (load frame 3 % 256) (load frame 4) + 2 := by omega
      simp only [h4, hd, h6, if_true, if_false]
      omega

theorem req_hfull (frame : List Nat) (hv : valid_request frame) :
    0 ≤ req_left frame frame.length := by
  obtain ⟨_, hlen⟩ := hv
  unfold req_left hev_socks5_proto_req_unpack
  have h4 : ¬ frame.length < 4 := by omega
  have h6 : ¬ frame.length < 4 + addr_size (load frame 3 % 256) (load frame 4) + 2 := by omega
  by_cases hd : load frame 3 % 256 = HEV_SOCKS5_PROTO_ATYPE_DOMAIN ∧ frame.length < 5
  · have := addr_size_domain_pos (load frame 4)
    rw [hd.1] at hlen
    omega
  · simp only [h4, hd, h6, if_false]
    omega

/-- When the write of the auth response completes in full, `write_auth_res_handler`
leaves the session at the start of reading the request: the read it submits, on the
same buffer, asks at offset 0 for what the codec needs of an empty request. -/
theorem write_auth_res_done_pending (env : Env) (size : Int) (p : Nat) (w : World)
    (frame : List Nat) (hread : env.client_read = true) (hv : valid_request frame)
    (hf : w.freed = false) (hp : p < w.heap.length) (hsize : 0 < size)
    (hall : ¬ 0 < ((w.buf p).length : Int) - size) :
    frame_pending Callback.read_req_handler req_left frame p
      (write_auth_res_handler env size p w) (write_auth_res_handler env size p w) 0 := by
  have hs : ¬ (0 ≥ size) := by omega
  have hlen : 4 ≤ frame.length := by
    obtain ⟨_, hlen⟩ := hv
    omega
  have h0 : ∀ d, (hev_socks5_proto_req_unpack d 0).left_size = -4 := by
    intro d; simp [hev_socks5_proto_req_unpack]
  have hn : ∀ d, still_needed (req_left d 0) = 4 := by
    intro d; unfold still_needed req_left; rw [h0]; rfl
  have hw : write_auth_res_handler env size p w =
      (hev_socks5_session_client_read env p Callback.read_req_handler
        ((clear_idle w).set_buf p { (w.buf p) with offset := 0, length := 4 })).2 := by
    simp only [write_auth_res_handler, buf_clear_idle, hs, hall, if_false, h0]
    simp [hev_socks5_session_client_read, hread]
  have hb : (write_auth_res_handler env size p w).buf p =
      { (w.buf p) with offset := 0, length := 4 } := by
    rw [hw]
    simp [hev_socks5_session_client_read, World.buf, World.set_buf, clear_idle, getD_set_heap, hp]
  refine ⟨?_, ?_, ?_, ?_, ?_, ?_, ?_, ?_, ⟨[], by simp⟩⟩
  · rw [hw]; simp [hev_socks5_session_client_read, World.set_buf, clear_idle, hf]
  · rw [hw]; simp [hev_socks5_session_client_read, World.set_buf, clear_idle, hp]
  · rw [hn, hw]
    simp [hev_socks5_session_client_read, World.buf, World.set_buf, clear_idle, getD_set_heap, hp,
      World.reading, World.pfd, hev_pollable_fd_read_async, hread]
  · rw [hb]
  · rw [hn, hb]
  · simp [slice]
  · rw [hn]; decide
  · rw [hn]; omega

/-- C8: the two handshake frames are read exactly, however the reads are cut up.
With every re-issued read accepted and every completed read delivering at least one
byte (`ks`), (1) the session `hev_socks5_session_new` returns first asks for 2 bytes,
and after the client has sent a well-framed auth request, (2) from the completion of
the auth response write, after the client has sent a well-framed request, the
session is where `frame_read_outcome` says: the bytes read are exactly a prefix of the
frame, stored contiguously from offset 0; while the frame is incomplete the read in
flight starts at the number of bytes received and asks for exactly what the codec
reports as still needed, never past the end of the frame, and no write has been
submitted; once the last byte is delivered the callback has run on the whole frame,
and only then. -/
theorem handshake_frames_read_exactly (B : Nat) (env : Env) (fd : Int) (notify : Bool)
    (d : List Nat) (ks : List Nat)
    (hmalloc : env.malloc = true) (hpfd : env.pfd_new = true)
    (halloc : env.buffer_alloc = some d) (hread : env.client_read = true)
    (hks : ∀ k ∈ ks, 0 < k) :
    (∀ frame, valid_auth_request frame →
      (hev_socks5_session_new env fd notify).1 = some (session_new_world fd notify d) ∧
      (session_new_world fd notify d).reading PFD.client =
        some { buffer := 0, count := 2, callback := Callback.read_auth_req_handler } ∧
      frame_read_outcome Callback.read_auth_req_handler auth_req_left
        (read_auth_req_handler env) frame 0 (session_new_world fd notify d) ks
        (client_sends B env ks (session_new_world fd notify d) frame)) ∧
    (∀ frame (w : World) (p : Nat) (size : Int), valid_request frame →
      w.freed = false → p < w.heap.length → 0 < size →
      ¬ 0 < ((w.buf p).length : Int) - size →
      frame_read_outcome Callback.read_req_handler req_left
        (read_req_handler env) frame p (write_auth_res_handler env size p w) ks
        (client_sends B env ks (write_auth_res_handler env size p w) frame)) := by
  constructor
  · intro frame hv
    obtain ⟨hnew, hpend⟩ :=
      session_new_pending env fd notify d frame hmalloc hpfd halloc hread hv
    refine ⟨hnew, rfl, ?_⟩
    have := frame_run B env Callback.read_auth_req_handler auth_req_left
      (fun e s q v => read_auth_req_handler e s q v) frame 0 (session_new_world fd notify d)
      hread (fun _ _ _ => rfl) (fun s q v => auth_hinc env hread s q v)
      (fun s q v => auth_hdone env s q v) (fun data m _ hpre => auth_hlocal frame data m hpre)
      (auth_hneed frame hv) (auth_hfull frame hv) ks hks _ 0 hpend
    simpa [frame_read_outcome] using this
  · intro frame w p size hv hf hp hsize hall
    have hpend := write_auth_res_done_pending env size p w frame hread hv hf hp hsize hall
    have := frame_run B env Callback.read_req_handler req_left
      (fun e s q v => read_req_handler e s q v) frame p (write_auth_res_handler env size p w)
      hread (fun _ _ _ => rfl) (fun s q v => req_hinc env hread s q v)
      (fun s q v => req_hdone env s q v) (fun data m _ hpre => req_hlocal frame data m hpre)
      (req_hneed frame hv) (req_hfull frame hv) ks hks _ 0 hpend
    simpa [frame_read_outcome] using this

theorem handshake_frames_read_exactly_witness :
    frame_read_outcome Callback.read_auth_req_handler auth_req_left
        (read_auth_req_handler (Env.ok [])) [5, 1, 0] 0 (session_new_world 4 true []) [1, 1, 1]
        (client_sends 8192 (Env.ok []) [1, 1, 1] (session_new_world 4 true []) [5, 1, 0]) ∧
    frame_read_outcome Callback.read_req_handler req_left
        (read_req_handler (Env.ok [])) [5, 1, 0, 1, 127, 0, 0, 1, 0, 80] 0
        (write_auth_res_handler (Env.ok []) 2 0 ex_s1_auth_read) [3, 1, 7]
        (client_sends 8192 (Env.ok []) [3, 1, 7]
          (write_auth_res_handler (Env.ok []) 2 0 ex_s1_auth_read)
          [5, 1, 0, 1, 127, 0, 0, 1, 0, 80]) :=
  ⟨((handshake_frames_read_exactly 8192 (Env.ok []) 4 true [] [1, 1, 1] rfl rfl rfl rfl
      (by decide)).1 [5, 1, 0] (by decide)).2.2,
    (handshake_frames_read_exactly 8192 (Env.ok []) 4 true [] [3, 1, 7] rfl rfl rfl rfl
      (by decide)).2 [5, 1, 0, 1, 127, 0, 0, 1, 0, 80] ex_s1_auth_read 0 2 (by decide)
      (by decide) (by decide) (by decide) (by decide)⟩

/-! ## C9 -/

theorem slice_append (data : List Nat) (off a b : Nat) :
    slice data off a ++ slice data (off + a) b = slice data off (a + b) := by
  apply eq_of_load_eq
  · simp [slice_length]
  · intro i hi
    simp only [List.length_append, slice_length] at hi
    rw [load_slice, if_pos hi]
    by_cases h : i < a
    · have : load (slice data off a ++ slice data (off + a) b) i = load (slice data off a) i := by
        unfold load
        rw [List.getD_append _ _ _ _ (by rw [slice_length]; exact h)]
      rw [this, load_slice, if_pos h]
    · have : load (slice data off a ++ slice data (off + a) b) i =
          load (slice data (off + a) b) (i - a) := by
        unfold load
        rw [List.getD_append_right _ _ _ _ (by rw [slice_length]; omega), slice_length]
      rw [this, load_slice, if_pos (by omega)]
      congr 1; omega

theorem writing_some_pfd (w : World) (which : PFD) (op : AsyncOp)
    (h : w.writing which = some op) : ∃ pf, w.pfd which = some pf ∧ pf.writing = some op := by
  unfold World.writing at h
  cases hp : w.pfd which with
  | none => simp [hp] at h
  | some pf => exact ⟨pf, rfl, by simpa [hp] using h⟩

theorem write_ready_eq (B : Nat) (env : Env) (which : PFD) (room : Option Nat) (w : World)
    (pf : HevPollableFD) (op : AsyncOp) (hf : w.freed = false) (hp : w.pfd which = some pf)
    (hw : pf.writing = some op) :
    write_ready B env which room w =
      (dispatch B env op.callback (sock_writer (w.buf op.buffer) op.count room).1 op.buffer
          (w.set_pfd which { pf with writing := none }),
        (sock_writer (w.buf op.buffer) op.count room).2) := by
  simp [write_ready, hf, hp, hw]

theorem session_write_facts (which : PFD) (env : Env) (q : Nat) (cb : Callback) (v : World)
    (pf : HevPollableFD) (hok : env.write_ok which = true) (hp : v.pfd which = some pf) :
    (session_write which env q cb v).2.writing which =
        some { buffer := q, count := (v.buf q).length, callback := cb } ∧
    (session_write which env q cb v).2.heap = v.heap ∧
    (session_write which env q cb v).2.freed = v.freed ∧
    (session_write which env q cb v).2.log =
      v.log ++ [Event.write_async (some which) q (v.buf q).offset (v.buf q).length cb true] := by
  cases which with
  | client =>
    have hok' : env.client_write = true := hok
    simp [session_write, hev_socks5_session_client_write, World.writing, World.pfd,
      hev_pollable_fd_write_async, hok']
  | remote =>
    have hok' : env.remote_write = true := hok
    have hp' : v.self.remote_pfd = some pf := hp
    simp [session_write, hev_socks5_session_remote_write, World.writing, World.pfd,
      hev_pollable_fd_write_async, hok', hp']

theorem set_pfd_facts (w : World) (which : PFD) (pf : HevPollableFD) :
    (w.set_pfd which pf).pfd which = some pf ∧ (w.set_pfd which pf).heap = w.heap ∧
    (w.set_pfd which pf).freed = w.freed ∧ (w.set_pfd which pf).log = w.log := by
  cases which <;> simp [World.set_pfd, World.pfd]

/-- One completed write while `data[0..n)` is being written out: either some of it is
left and the write is re-issued at the advanced offset with the remaining length, or
the write took the last byte and the callback runs on the drained buffer. -/
theorem drain_step (B : Nat) (env : Env) (which : PFD) (cb : Callback)
    (h : Env → Int → Nat → World → World) (data : List Nat) (n p : Nat) (start w : World)
    (sent k : Nat)
    (hok : env.write_ok which = true)
    (hdisp : ∀ size q v, dispatch B env cb size q v = h env size q v)
    (hshort : ∀ (size : Int) q v, 0 < size → 0 < ((v.buf q).length : Int) - size →
      h env size q v = (session_write which env q cb ((clear_idle v).set_buf q
        { (v.buf q) with
          offset := (v.buf q).offset + size.toNat,
          length := (v.buf q).length - size.toNat })).2)
    (hk : 0 < k) (hpend : write_pending which cb data n p start w sent) :
    (write_ready B env which (some k) w).2 = slice data sent (min k (n - sent)) ∧
    (sent + min k (n - sent) < n →
      write_pending which cb data n p start (write_ready B env which (some k) w).1
        (sent + min k (n - sent))) ∧
    (sent + min k (n - sent) = n →
      ∃ v, write_complete which data n p start v ((min k (n - sent) : Nat) : Int) ∧
        (write_ready B env which (some k) w).1 = h env ((min k (n - sent) : Nat) : Int) p v) := by
  obtain ⟨hf, hp, hwr, hoff, hlen, hdata, hlt, evs, hlog, hev⟩ := hpend
  obtain ⟨pf, hpf, hpw⟩ := writing_some_pfd w which _ hwr
  rw [write_ready_eq B env which _ w pf _ hf hpf hpw]
  simp only [sock_writer, hdisp, hoff, hdata]
  set m := min k (n - sent) with hm
  have hm1 : 0 < m := by omega
  set v := w.set_pfd which { pf with writing := none } with hv
  obtain ⟨hvpfd, hvheap, hvfreed, hvlog⟩ := set_pfd_facts w which { pf with writing := none }
  rw [← hv] at hvpfd hvheap hvfreed hvlog
  have hvbuf : v.buf p = w.buf p := by simp [World.buf, hvheap]
  have hvw : v.writing which = none := by simp [World.writing, hvpfd]
  refine ⟨trivial, ?_, ?_⟩
  · intro hlt'
    have hpos : 0 < ((v.buf p).length : Int) - ((m : Nat) : Int) := by
      rw [hvbuf, hlen]; omega
    rw [hshort _ p v (by omega) hpos, Int.toNat_ofNat, hvbuf, hoff, hlen]
    set v' := (clear_idle v).set_buf p
      { (w.buf p) with
        offset := sent + m,
        length := n - sent - m } with hv'
    have hv'p : v'.pfd which = some { pf with writing := none } := by
      cases which <;> simpa [hv', World.set_buf, clear_idle, World.pfd] using hvpfd
    have hv'buf : v'.buf p = { (w.buf p) with offset := sent + m, length := n - sent - m } := by
      simp [hv', World.set_buf, clear_idle, World.buf, getD_set_heap, hvheap, hp]
    obtain ⟨f1, f2, f3, f4⟩ := session_write_facts which env p cb v' _ hok hv'p
    have hbuf'' : (session_write which env p cb v').2.buf p =
        { (w.buf p) with offset := sent + m, length := n - sent - m } := by
      rw [← hv'buf]; simp [World.buf, f2]
    refine ⟨?_, ?_, ?_, ?_, ?_, ?_, hlt', ?_⟩
    · rw [f3]; simp [hv', World.set_buf, clear_idle, hvfreed, hf]
    · rw [f2]; simp [hv', World.set_buf, clear_idle, hvheap, hp]
    · rw [f1, hv'buf]
      simp only [Nat.sub_add_eq]
    · rw [hbuf'']
    · rw [hbuf'']
      simp only [Nat.sub_add_eq]
    · rw [hbuf'']; exact hdata
    · refine ⟨evs ++ [Event.write_async (some which) p (v'.buf p).offset (v'.buf p).length cb
        true], ?_, ?_⟩
      · rw [f4]
        simp [hv', World.set_buf, clear_idle, hvlog, hlog]
      · simp [List.filter_append, hev, Event.is_read]
  · intro heq
    refine ⟨v, ⟨?_, ?_, by omega, hvw, ?_, ?_, ?_, ⟨evs, by rw [hvlog, hlog], hev⟩⟩, rfl⟩
    · rw [hvfreed]; exact hf
    · rw [hvheap]; exact hp
    · rw [hvbuf]; exact hdata
    · rw [hvbuf, hoff, Int.toNat_ofNat]; exact heq
    · rw [hvbuf, hlen, Int.toNat_ofNat]; omega

theorem peer_accepts_no_write (B : Nat) (env : Env) (which : PFD) (cb : Callback)
    (ks : List Nat) (w : World) (out : List Nat) (h : w.writing which = none) :
    peer_accepts B env which cb ks w out = (w, out) := by
  cases ks with
  | nil => rfl
  | cons k ks => simp [peer_accepts, h]

/-- The run of `peer_accepts` from a state in the middle of a write. -/
theorem drain_run (B : Nat) (env : Env) (which : PFD) (cb : Callback)
    (h : Env → Int → Nat → World → World) (data : List Nat) (n p : Nat) (start : World)
    (hok : env.write_ok which = true)
    (hdisp : ∀ size q v, dispatch B env cb size q v = h env size q v)
    (hshort : ∀ (size : Int) q v, 0 < size → 0 < ((v.buf q).length : Int) - size →
      h env size q v = (session_write which env q cb ((clear_idle v).set_buf q
        { (v.buf q) with
          offset := (v.buf q).offset + size.toNat,
          length := (v.buf q).length - size.toNat })).2)
    (hdone : ∀ (size : Int) q v, ¬ 0 < ((v.buf q).length : Int) - size →
      (h env size q v).writing which = v.writing which)
    (ks : List Nat) (hks : ∀ k ∈ ks, 0 < k) (w : World) (sent : Nat)
    (hpend : write_pending which cb data n p start w sent) :
    ∃ sent', sent' ≤ n ∧
      (peer_accepts B env which cb ks w (slice data 0 sent)).2 = slice data 0 sent' ∧
      ((sent' < n ∧ sent + ks.length ≤ sent' ∧
          write_pending which cb data n p start
            (peer_accepts B env which cb ks w (slice data 0 sent)).1 sent') ∨
       (sent' = n ∧
          ∃ v size, write_complete which data n p start v size ∧
            (peer_accepts B env which cb ks w (slice data 0 sent)).1 = h env size p v)) := by
  induction ks generalizing w sent with
  | nil =>
    have hlt : sent < n := hpend.2.2.2.2.2.2.1
    exact ⟨sent, by omega, rfl, Or.inl ⟨hlt, by simp, hpend⟩⟩
  | cons k ks ih =>
    have hk : 0 < k := hks k (by simp)
    have hks' : ∀ k' ∈ ks, 0 < k' := fun k' hk' => hks k' (by simp [hk'])
    obtain ⟨hout, hstep1, hstep2⟩ :=
      drain_step B env which cb h data n p start w sent k hok hdisp hshort hk hpend
    obtain ⟨hf, hp, hwr, hoff, hlen, hdata, hlt, evs, hlog, hev⟩ := hpend
    have hunf : peer_accepts B env which cb (k :: ks) w (slice data 0 sent) =
        peer_accepts B env which cb ks (write_ready B env which (some k) w).1
          (slice data 0 (sent + min k (n - sent))) := by
      simp only [peer_accepts, hwr, if_true, hout]
      rw [← slice_append data 0 sent (min k (n - sent)), Nat.zero_add]
    rw [hunf]
    by_cases hlt' : sent + min k (n - sent) < n
    · obtain ⟨sent', h1, h2, h3⟩ := ih hks' _ _ (hstep1 hlt')
      refine ⟨sent', h1, h2, ?_⟩
      rcases h3 with ⟨a, b, c⟩ | h3
      · left
        refine ⟨a, ?_, c⟩
        simp only [List.length_cons]
        omega
      · exact Or.inr h3
    · have heq : sent + min k (n - sent) = n := by omega
      obtain ⟨v, hv, hrr⟩ := hstep2 heq
      have hnone : (h env ((min k (n - sent) : Nat) : Int) p v).writing which = none := by
        obtain ⟨_, _, _, hvw, _, _, hvl, _⟩ := hv
        rw [hdone _ p v (by rw [hvl, Int.toNat_ofNat]; omega), hvw]
      rw [hrr, peer_accepts_no_write B env which cb ks _ _ hnone, heq]
      exact ⟨n, le_refl _, rfl, Or.inr ⟨rfl, v, _, hv, rfl⟩⟩

theorem write_remote_data_hshort (B : Nat) (env : Env) (hok : env.remote_write = true)
    (size : Int) (q : Nat) (v : World) (hsize : 0 < size)
    (hpos : 0 < ((v.buf q).length : Int) - size) :
    write_remote_data_handler B env size q v =
      (session_write PFD.remote env q Callback.write_remote_data_handler
        ((clear_idle v).set_buf q
          { (v.buf q) with
            offset := (v.buf q).offset + size.toNat,
            length := (v.buf q).length - size.toNat })).2 := by
  have hs : ¬ (0 ≥ size) := by omega
  simp only [write_remote_data_handler, buf_clear_idle, hs, if_false, hpos, if_true, session_write]
  simp [hev_socks5_session_remote_write, hok]

theorem write_client_data_hshort (B : Nat) (env : Env) (hok : env.client_write = true)
    (size : Int) (q : Nat) (v : World) (hsize : 0 < size)
    (hpos : 0 < ((v.buf q).length : Int) - size) :
    write_client_data_handler B env size q v =
      (session_write PFD.client env q Callback.write_client_data_handler
        ((clear_idle v).set_buf q
          { (v.buf q) with
            offset := (v.buf q).offset + size.toNat,
            length := (v.buf q).length - size.toNat })).2 := by
  have hs : ¬ (0 ≥ size) := by omega
  simp only [write_client_data_handler, buf_clear_idle, hs, if_false, hpos, if_true, session_write]
  simp [hev_socks5_session_client_write, hok]

theorem write_auth_res_hshort (env : Env) (hok : env.client_write = true)
    (size : Int) (q : Nat) (v : World) (hsize : 0 < size)
    (hpos : 0 < ((v.buf q).length : Int) - size) :
    write_auth_res_handler env size q v =
      (session_write PFD.client env q Callback.write_auth_res_handler
        ((clear_idle v).set_buf q
          { (v.buf q) with
            offset := (v.buf q).offset + size.toNat,
            length := (v.buf q).length - size.toNat })).2 := by
  have hs : ¬ (0 ≥ size) := by omega
  simp only [write_auth_res_handler, buf_clear_idle, hs, if_false, hpos, if_true, session_write]
  simp [hev_socks5_session_client_write, hok]

theorem write_res_hshort (B : Nat) (env : Env) (hok : env.client_write = true)
    (size : Int) (q : Nat) (v : World) (hsize : 0 < size)
    (hpos : 0 < ((v.buf q).length : Int) - size) :
    write_res_handler B env size q v =
      (session_write PFD.client env q Callback.write_res_handler
        ((clear_idle v).set_buf q
          { (v.buf q) with
            offset := (v.buf q).offset + size.toNat,
            length := (v.buf q).length - size.toNat })).2 := by
  have hs : ¬ (0 ≥ size) := by omega
  simp only [write_res_handler, buf_clear_idle, hs, if_false, hpos, if_true, session_write]
  simp [hev_socks5_session_client_write, hok]

theorem writing_client (w : World) : w.writing PFD.client = w.self.client_pfd.writing := rfl

theorem writing_remote (w : World) :
    w.writing PFD.remote = (match w.self.remote_pfd with
      | some p => p.writing
      | none => none) := rfl

theorem write_remote_data_hdone (B : Nat) (env : Env) (size : Int) (q : Nat) (v : World)
    (hall : ¬ 0 < ((v.buf q).length : Int) - size) :
    (write_remote_data_handler B env size q v).writing PFD.remote = v.writing PFD.remote := by
  simp only [write_remote_data_handler, buf_clear_idle, hall, if_false, writing_remote]
  split_ifs <;>
  simp [error_free0_destroy, hev_socks5_session_destroy, set_buffer0, hev_buffer_list_free,
    World.emit, clear_idle, hev_socks5_session_client_read, World.set_buf]

theorem write_client_data_hdone (B : Nat) (env : Env) (size : Int) (q : Nat) (v : World)
    (hall : ¬ 0 < ((v.buf q).length : Int) - size) :
    (write_client_data_handler B env size q v).writing PFD.client = v.writing PFD.client := by
  simp only [write_client_data_handler, buf_clear_idle, hall, if_false, writing_client]
  split_ifs <;>
  simp [error_free1, set_buffer1, hev_buffer_list_free,
    World.emit, clear_idle, hev_socks5_session_remote_read, World.set_buf]

theorem write_auth_res_hdone (env : Env) (size : Int) (q : Nat) (v : World)
    (hall : ¬ 0 < ((v.buf q).length : Int) - size) :
    (write_auth_res_handler env size q v).writing PFD.client = v.writing PFD.client := by
  simp only [write_auth_res_handler, buf_clear_idle, hall, if_false, writing_client]
  split_ifs <;>
  simp [error_free0_destroy, hev_socks5_session_destroy, set_buffer0, hev_buffer_list_free,
    World.emit, clear_idle, hev_socks5_session_client_read, World.set_buf,
    hev_pollable_fd_read_async, apply_ite]

theorem write_res_hdone (B : Nat) (env : Env) (size : Int) (q : Nat) (v : World)
    (hall : ¬ 0 < ((v.buf q).length : Int) - size) :
    (write_res_handler B env size q v).writing PFD.client = v.writing PFD.client := by
  simp only [write_res_handler, buf_clear_idle, hall, if_false, writing_client]
  cases ha : env.buffer_alloc <;> cases hr : env.client_read <;> cases hrr : env.remote_read <;>
  split_ifs <;>
  simp [write_res_error1, write_res_error0, hev_socks5_session_destroy, set_buffer0, set_buffer1,
    hev_buffer_list_free, hev_buffer_list_alloc, ha, hr, hrr,
    World.emit, clear_idle, hev_socks5_session_client_read, hev_socks5_session_remote_read,
    World.set_buf, hev_pollable_fd_read_async, apply_ite]

/-- A relay read on the client that returned `n > 0` bytes into buffer `p` (armed at
offset 0): `read_client_data_handler` submits the write of these `n` bytes, from
offset 0, on the remote pollable fd. -/
theorem read_client_data_pending (env : Env) (n p : Nat) (w : World) (pf : HevPollableFD)
    (hok : env.remote_write = true) (hf : w.freed = false) (hp : p < w.heap.length)
    (hoff : (w.buf p).offset = 0) (hpfd : w.self.remote_pfd = some pf) (hn : 0 < n) :
    write_pending PFD.remote Callback.write_remote_data_handler (w.buf p).data n p
      (read_client_data_handler env (n : Int) p w) (read_client_data_handler env (n : Int) p w)
      0 := by
  have hs : ¬ (0 ≥ (n : Int)) := by omega
  have hw : read_client_data_handler env (n : Int) p w =
      (hev_socks5_session_remote_write env p Callback.write_remote_data_handler
        ((clear_idle w).set_buf p { (w.buf p) with length := n })).2 := by
    simp only [read_client_data_handler, buf_clear_idle, hs, if_false, Int.toNat_ofNat]
    simp [hev_socks5_session_remote_write, hok]
  have hb : (read_client_data_handler env (n : Int) p w).buf p =
      { (w.buf p) with length := n } := by
    rw [hw]
    simp [hev_socks5_session_remote_write, World.buf, World.set_buf, clear_idle, getD_set_heap, hp]
  refine ⟨?_, ?_, ?_, ?_, ?_, ?_, hn, ⟨[], by simp⟩⟩
  · rw [hw]; simp [hev_socks5_session_remote_write, World.set_buf, clear_idle, hf]
  · rw [hw]; simp [hev_socks5_session_remote_write, World.set_buf, clear_idle, hp]
  · rw [hw]
    simp [hev_socks5_session_remote_write, World.buf, World.set_buf, clear_idle, getD_set_heap, hp,
      World.writing, World.pfd, hev_pollable_fd_write_async, hok, hpfd]
  · rw [hb]; exact hoff
  · rw [hb]; rfl
  · rw [hb]

/-- A relay read on the remote that returned `n > 0` bytes into buffer `p` (armed at
offset 0): `read_remote_data_handler` submits the write of these `n` bytes, from
offset 0, on the client pollable fd. -/
theorem read_remote_data_pending (env : Env) (n p : Nat) (w : World)
    (hok : env.client_write = true) (hf : w.freed = false) (hp : p < w.heap.length)
    (hoff : (w.buf p).offset = 0) (hn : 0 < n) :
    write_pending PFD.client Callback.write_client_data_handler (w.buf p).data n p
      (read_remote_data_handler env (n : Int) p w) (read_remote_data_handler env (n : Int) p w)
      0 := by
  have hs : ¬ (0 ≥ (n : Int)) := by omega
  have hw : read_remote_data_handler env (n : Int) p w =
      (hev_socks5_session_client_write env p Callback.write_client_data_handler
        ((clear_idle w).set_buf p { (w.buf p) with length := n })).2 := by
    simp only [read_remote_data_handler, buf_clear_idle, hs, if_false, Int.toNat_ofNat]
    simp [hev_socks5_session_client_write, hok]
  have hb : (read_remote_data_handler env (n : Int) p w).buf p =
      { (w.buf p) with length := n } := by
    rw [hw]
    simp [hev_socks5_session_client_write, World.buf, World.set_buf, clear_idle, getD_set_heap, hp]
  refine ⟨?_, ?_, ?_, ?_, ?_, ?_, hn, ⟨[], by simp⟩⟩
  · rw [hw]; simp [hev_socks5_session_client_write, World.set_buf, clear_idle, hf]
  · rw [hw]; simp [hev_socks5_session_client_write, World.set_buf, clear_idle, hp]
  · rw [hw]
    simp [hev_socks5_session_client_write, World.buf, World.set_buf, clear_idle, getD_set_heap, hp,
      World.writing, World.pfd, hev_pollable_fd_write_async, hok]
  · rw [hb]; exact hoff
  · rw [hb]; rfl
  · rw [hb]

/-- What the four write callbacks do on the completion that took the last byte of
buffer `p`: the first read they submit is the next read into that buffer, at offset 0,
of length `B` (of the 4 header bytes of the request after the auth response); the two
relay callbacks submit nothing else. -/
theorem write_done_arms_read (B : Nat) (env : Env) (size : Int) (p : Nat) (v : World)
    (hp : p < v.heap.length) (hsize : 0 < size)
    (hall : ¬ 0 < ((v.buf p).length : Int) - size) :
    (new_events v (write_remote_data_handler B env size p v)).filter Event.is_transfer =
      [Event.read_async (some PFD.client) p 0 B Callback.read_client_data_handler
        env.client_read] ∧
    (new_events v (write_client_data_handler B env size p v)).filter Event.is_transfer =
      [Event.read_async (v.self.remote_pfd.map (fun _ => PFD.remote)) p 0 B
        Callback.read_remote_data_handler env.remote_read] ∧
    (new_events v (write_auth_res_handler env size p v)).filter Event.is_transfer =
      [Event.read_async (some PFD.client) p 0 4 Callback.read_req_handler env.client_read] ∧
    ((new_events v (write_res_handler B env size p v)).filter Event.is_transfer).head? =
      some (Event.read_async (some PFD.client) p 0 B Callback.read_client_data_handler
        env.client_read) := by
  have hs : ¬ (0 ≥ size) := by omega
  have h0 : ∀ d, (hev_socks5_proto_req_unpack d 0).left_size = -4 := by
    intro d; simp [hev_socks5_proto_req_unpack]
  have hd : ∀ s, (destroy_calls s).filter Event.is_transfer = [] := by
    intro s
    rw [List.filter_eq_nil_iff]
    intro a ha
    have h1 := List.filter_eq_nil_iff.1 (destroy_calls_filter_read s) a ha
    have h2 := List.filter_eq_nil_iff.1 (destroy_calls_filter_write s) a ha
    simp [Event.is_transfer, h1, h2]
  refine ⟨?_, ?_, ?_, ?_⟩
  · simp only [write_remote_data_handler, buf_clear_idle, hs, hall, if_false]
    cases hr : env.client_read <;>
    simp [hev_socks5_session_client_read, hr, new_events, World.set_buf, clear_idle, World.buf,
      getD_set_heap, hp, error_free0_destroy, hev_socks5_session_destroy, set_buffer0,
      hev_buffer_list_free, World.emit, List.filter_append, hd, Event.is_transfer, Event.is_read, Event.is_write]
  · simp only [write_client_data_handler, buf_clear_idle, hs, hall, if_false]
    cases hr : env.remote_read <;>
    simp [hev_socks5_session_remote_read, hr, new_events, World.set_buf, clear_idle, World.buf,
      getD_set_heap, hp, error_free1, set_buffer1,
      hev_buffer_list_free, World.emit, List.filter_append, Event.is_transfer, Event.is_read, Event.is_write]
  · simp only [write_auth_res_handler, buf_clear_idle, hs, hall, if_false, h0]
    cases hr : env.client_read <;>
    simp [hev_socks5_session_client_read, hr, new_events, World.set_buf, clear_idle, World.buf,
      getD_set_heap, hp, error_free0_destroy, hev_socks5_session_destroy, set_buffer0,
      hev_buffer_list_free, World.emit, List.filter_append, hd, Event.is_transfer, Event.is_read, Event.is_write]
  · simp only [write_res_handler, buf_clear_idle, hs, hall, if_false]
    cases hr : env.client_read <;> cases ha : env.buffer_alloc <;> cases hrr : env.remote_read <;>
    simp [hev_socks5_session_client_read, hev_socks5_session_remote_read, hr, ha, hrr, new_events,
      World.set_buf, clear_idle, World.buf,
      getD_set_heap, hp, write_res_error1, write_res_error0, hev_socks5_session_destroy,
      set_buffer0, set_buffer1, hev_buffer_list_alloc,
      hev_buffer_list_free, World.emit, List.filter_append, hd, Event.is_transfer, Event.is_read, Event.is_write]

/-- C9: short writes are re-issued until the buffer is drained, in order.  With every
re-issued write accepted and every completed write taking at least one byte (`ks`):
after a relay read returned `n > 0` bytes into a buffer armed at offset 0 (client to
remote, and remote to client), and from any state in which a handshake write
(`write_auth_res_handler`, `write_res_handler`) of `n` bytes from offset 0 has just
been submitted, the session is where `drain_outcome` says: the bytes that went out are
exactly `data[0..sent)`; while `sent < n` the write in flight starts at offset `sent`
with length `n - sent` and no read has been submitted; once `sent = n` the callback
has run on the drained buffer, and only then; and on that completion each callback
submits, first, the next read into the buffer at offset 0 (length `B`; after the auth
response, the 4 bytes the codec needs of the request). -/
theorem short_writes_drain_in_order (B : Nat) (env : Env) (ks : List Nat)
    (hks : ∀ k ∈ ks, 0 < k) :
    (∀ (w : World) (p n : Nat) (pf : HevPollableFD), env.remote_write = true →
      w.freed = false → p < w.heap.length → (w.buf p).offset = 0 →
      w.self.remote_pfd = some pf → 0 < n →
      drain_outcome PFD.remote Callback.write_remote_data_handler
        (write_remote_data_handler B env) (w.buf p).data n p
        (read_client_data_handler env (n : Int) p w) ks
        (peer_accepts B env PFD.remote Callback.write_remote_data_handler ks
          (read_client_data_handler env (n : Int) p w) [])) ∧
    (∀ (w : World) (p n : Nat), env.client_write = true →
      w.freed = false → p < w.heap.length → (w.buf p).offset = 0 → 0 < n →
      drain_outcome PFD.client Callback.write_client_data_handler
        (write_client_data_handler B env) (w.buf p).data n p
        (read_remote_data_handler env (n : Int) p w) ks
        (peer_accepts B env PFD.client Callback.write_client_data_handler ks
          (read_remote_data_handler env (n : Int) p w) [])) ∧
    (∀ (start : World) (data : List Nat) (n p : Nat), env.client_write = true →
      write_pending PFD.client Callback.write_auth_res_handler data n p start start 0 →
      drain_outcome PFD.client Callback.write_auth_res_handler
        (write_auth_res_handler env) data n p start ks
        (peer_accepts B env PFD.client Callback.write_auth_res_handler ks start [])) ∧
    (∀ (start : World) (data : List Nat) (n p : Nat), env.client_write = true →
      write_pending PFD.client Callback.write_res_handler data n p start start 0 →
      drain_outcome PFD.client Callback.write_res_handler
        (write_res_handler B env) data n p start ks
        (peer_accepts B env PFD.client Callback.write_res_handler ks start [])) ∧
    (∀ (size : Int) (p : Nat) (v : World), p < v.heap.length → 0 < size →
      ¬ 0 < ((v.buf p).length : Int) - size →
      (new_events v (write_remote_data_handler B env size p v)).filter Event.is_transfer =
        [Event.read_async (some PFD.client) p 0 B Callback.read_client_data_handler
          env.client_read] ∧
      (new_events v (write_client_data_handler B env size p v)).filter Event.is_transfer =
        [Event.read_async (v.self.remote_pfd.map (fun _ => PFD.remote)) p 0 B
          Callback.read_remote_data_handler env.remote_read] ∧
      (new_events v (write_auth_res_handler env size p v)).filter Event.is_transfer =
        [Event.read_async (some PFD.client) p 0 4 Callback.read_req_handler env.client_read] ∧
      ((new_events v (write_res_handler B env size p v)).filter Event.is_transfer).head? =
        some (Event.read_async (some PFD.client) p 0 B Callback.read_client_data_handler
          env.client_read)) := by
  refine ⟨?_, ?_, ?_, ?_, ?_⟩
  · intro w p n pf hok hf hp hoff hpfd hn
    have hpend := read_client_data_pending env n p w pf hok hf hp hoff hpfd hn
    have := drain_run B env PFD.remote Callback.write_remote_data_handler
      (fun e s q v => write_remote_data_handler B e s q v) (w.buf p).data n p _ hok
      (fun _ _ _ => rfl) (fun s q v => write_remote_data_hshort B env hok s q v)
      (fun s q v => write_remote_data_hdone B env s q v) ks hks _ 0 hpend
    simpa [drain_outcome, slice] using this
  · intro w p n hok hf hp hoff hn
    have hpend := read_remote_data_pending env n p w hok hf hp hoff hn
    have := drain_run B env PFD.client Callback.write_client_data_handler
      (fun e s q v => write_client_data_handler B e s q v) (w.buf p).data n p _ hok
      (fun _ _ _ => rfl) (fun s q v => write_client_data_hshort B env hok s q v)
      (fun s q v => write_client_data_hdone B env s q v) ks hks _ 0 hpend
    simpa [drain_outcome, slice] using this
  · intro start data n p hok hpend
    have := drain_run B env PFD.client Callback.write_auth_res_handler
      (fun e s q v => write_auth_res_handler e s q v) data n p _ hok
      (fun _ _ _ => rfl) (fun s q v => write_auth_res_hshort env hok s q v)
      (fun s q v => write_auth_res_hdone env s q v) ks hks _ 0 hpend
    simpa [drain_outcome, slice] using this
  · intro start data n p hok hpend
    have := drain_run B env PFD.client Callback.write_res_handler
      (fun e s q v => write_res_handler B e s q v) data n p _ hok
      (fun _ _ _ => rfl) (fun s q v => write_res_hshort B env hok s q v)
      (fun s q v => write_res_hdone B env s q v) ks hks _ 0 hpend
    simpa [drain_outcome, slice] using this
  · intro size p v hp hsize hall
    exact write_done_arms_read B env size p v hp hsize hall

theorem short_writes_drain_in_order_witness :
    drain_outcome PFD.remote Callback.write_remote_data_handler
        (write_remote_data_handler 8192 (Env.ok [])) (ex_s1_relaying.buf 1).data 4 1
        (read_client_data_handler (Env.ok []) 4 1 ex_s1_relaying) [1, 5]
        (peer_accepts 8192 (Env.ok []) PFD.remote Callback.write_remote_data_handler [1, 5]
          (read_client_data_handler (Env.ok []) 4 1 ex_s1_relaying) []) ∧
    drain_outcome PFD.client Callback.write_auth_res_handler
        (write_auth_res_handler (Env.ok [])) [5, 0, 0] 2 0 ex_s1_auth_read [1, 1]
        (peer_accepts 8192 (Env.ok []) PFD.client Callback.write_auth_res_handler [1, 1]
          ex_s1_auth_read []) :=
  ⟨(short_writes_drain_in_order 8192 (Env.ok []) [1, 5] (by decide)).1 ex_s1_relaying 1 4
      _ rfl (by decide) (by decide) (by decide) rfl (by decide),
    (short_writes_drain_in_order 8192 (Env.ok []) [1, 1] (by decide)).2.2.1 ex_s1_auth_read
      [5, 0, 0] 2 0 rfl
      ⟨by decide, by decide, by decide, by decide, by decide, by decide, by decide,
        [], by simp, by decide⟩⟩

/-! ## The sweeper -/

theorem buf_set_buf_ne (w : World) (p q : Nat) (b : HevBuffer) (h : q ≠ p) :
    (w.set_buf p b).buf q = w.buf q := by
  simp [World.buf, World.set_buf, List.getD_eq_getElem?_getD, List.getElem?_set, h.symm]

theorem buf_set_buf_same (w : World) (p : Nat) (b : HevBuffer) (h : p < w.heap.length) :
    (w.set_buf p b).buf p = b := by
  simp [World.buf, World.set_buf, List.getD_eq_getElem?_getD, List.getElem?_set, h]

theorem holds_le_one (B : Nat) (w : World) (h : accounted B w) (p : Nat) : w.holds p ≤ 1 := by
  have := h.2.2.2 p
  split_ifs at this <;> omega

theorem held_lt (B : Nat) (w : World) (h : accounted B w) (p : Nat) (hp : 0 < w.holds p) :
    p < w.heap.length := by
  have := h.2.2.2 p
  split_ifs at this <;> omega

theorem buffer0_lt (B : Nat) (w : World) (h : accounted B w) (p : Nat)
    (h0 : w.self.buffer0 = some p) : p < w.heap.length := by
  apply held_lt B w h p
  simp [World.holds, h0]

theorem buffer1_lt (B : Nat) (w : World) (h : accounted B w) (p : Nat)
    (h1 : w.self.buffer1 = some p) : p < w.heap.length := by
  apply held_lt B w h p
  simp [World.holds, h1]

theorem buffer0_ne_buffer1 (B : Nat) (w : World) (h : accounted B w) (p q : Nat)
    (h0 : w.self.buffer0 = some p) (h1 : w.self.buffer1 = some q) : p ≠ q := by
  intro hpq
  have := holds_le_one B w h p
  simp [World.holds, h0, h1, hpq] at this

theorem free_count_append (p : Nat) (l₁ l₂ : List Event) :
    free_count p (l₁ ++ l₂) = free_count p l₁ + free_count p l₂ := by
  simp [free_count, List.countP_append]

theorem alloc_count_append (p : Nat) (l₁ l₂ : List Event) :
    alloc_count p (l₁ ++ l₂) = alloc_count p l₁ + alloc_count p l₂ := by
  simp [alloc_count, List.countP_append]

theorem free_count_destroy_calls (self : HevSocks5Session) (p : Nat) :
    free_count p (destroy_calls self) =
      (if self.buffer0 = some p then 1 else 0) + (if self.buffer1 = some p then 1 else 0) := by
  unfold destroy_calls
  simp only [free_count_append]
  have h0 : free_count p (match self.buffer0 with
      | some p => [Event.buffer_free p]
      | none => []) = if self.buffer0 = some p then 1 else 0 := by
    cases self.buffer0 <;> simp [free_count, Event.frees, List.countP_cons]
  have h1 : free_count p (match self.buffer1 with
      | some p => [Event.buffer_free p]
      | none => []) = if self.buffer1 = some p then 1 else 0 := by
    cases self.buffer1 <;> simp [free_count, Event.frees, List.countP_cons]
  rw [h0, h1]
  have e1 : free_count p (if self.socket.isSome = true then [Event.socket_destroy] else []) = 0
      := by
    split_ifs <;> simp [free_count, Event.frees]
  have e2 : free_count p (if self.resolver.isSome = true then [Event.resolver_destroy] else [])
      = 0 := by
    split_ifs <;> simp [free_count, Event.frees]
  have e3 : free_count p (if self.remote_pfd.isSome = true then [Event.pfd_destroy PFD.remote]
      else []) = 0 := by
    split_ifs <;> simp [free_count, Event.frees]
  have e4 : free_count p (if -1 < self.remote_fd then [Event.close self.remote_fd] else [])
      = 0 := by
    split_ifs <;> simp [free_count, Event.frees]
  have e5 : free_count p (if self.notifer = true then [Event.close_notify] else []) = 0 := by
    split_ifs <;> simp [free_count, Event.frees]
  rw [e1, e2, e3, e4, e5]
  simp [free_count, Event.frees]

theorem alloc_count_destroy_calls (self : HevSocks5Session) (p : Nat) :
    alloc_count p (destroy_calls self) = 0 := by
  unfold destroy_calls
  simp only [alloc_count_append]
  have h0 : alloc_count p (match self.buffer0 with
      | some p => [Event.buffer_free p]
      | none => []) = 0 := by
    cases self.buffer0 <;> simp [alloc_count, Event.allocs]
  have h1 : alloc_count p (match self.buffer1 with
      | some p => [Event.buffer_free p]
      | none => []) = 0 := by
    cases self.buffer1 <;> simp [alloc_count, Event.allocs]
  rw [h0, h1]
  have e1 : alloc_count p (if self.socket.isSome = true then [Event.socket_destroy] else []) = 0
      := by
    split_ifs <;> simp [alloc_count, Event.allocs]
  have e2 : alloc_count p (if self.resolver.isSome = true then [Event.resolver_destroy] else [])
      = 0 := by
    split_ifs <;> simp [alloc_count, Event.allocs]
  have e3 : alloc_count p (if self.remote_pfd.isSome = true then [Event.pfd_destroy PFD.remote]
      else []) = 0 := by
    split_ifs <;> simp [alloc_count, Event.allocs]
  have e4 : alloc_count p (if -1 < self.remote_fd then [Event.close self.remote_fd] else [])
      = 0 := by
    split_ifs <;> simp [alloc_count, Event.allocs]
  have e5 : alloc_count p (if self.notifer = true then [Event.close_notify] else []) = 0 := by
    split_ifs <;> simp [alloc_count, Event.allocs]
  rw [e1, e2, e3, e4, e5]
  simp [alloc_count, Event.allocs]

theorem in_bounds_destroy_calls (B : Nat) (self : HevSocks5Session) :
    ∀ e ∈ destroy_calls self, e.in_bounds B = true := by
  intro e he
  unfold destroy_calls at he
  simp only [List.mem_append, List.mem_singleton] at he
  rcases he with ((((((((h | h) | h) | h) | h) | h) | h) | h) | h) | h
  · split_ifs at h <;> simp_all [Event.in_bounds]
  · split_ifs at h <;> simp_all [Event.in_bounds]
  · cases hb : self.buffer0 <;> simp_all [Event.in_bounds]
  · cases hb : self.buffer1 <;> simp_all [Event.in_bounds]
  · simp [h, Event.in_bounds]
  · split_ifs at h <;> simp_all [Event.in_bounds]
  · split_ifs at h <;> simp_all [Event.in_bounds]
  · simp [h, Event.in_bounds]
  · split_ifs at h <;> simp_all [Event.in_bounds]
  · simp [h, Event.in_bounds]

/-- Destroying a live session gives a destroyed session whose books are closed. -/
theorem destroy_inv (B : Nat) (w : World) (h : accounted B w) :
    session_inv B (hev_socks5_session_destroy w) := by
  obtain ⟨hb, ha, ht, hf⟩ := h
  refine ⟨fun _ => ⟨?_, ?_, ?_, ?_⟩, fun hfr => ?_⟩
  · intro e he
    simp only [hev_socks5_session_destroy, List.mem_append] at he
    rcases he with he | he
    · exact hb e he
    · exact in_bounds_destroy_calls B w.self e he
  · intro p
    have := ha p
    simp only [hev_socks5_session_destroy, alloc_count_append, alloc_count_destroy_calls]
    simpa using this
  · intro p
    have := hf p
    simp only [World.holds] at this
    simp only [hev_socks5_session_destroy, free_count_append, free_count_destroy_calls]
    omega
  · exact ⟨w.log, rfl, ht⟩
  · simp [hev_socks5_session_destroy] at hfr

theorem session_inv_alive (B : Nat) (w : World) (hf : w.freed = false) (ha : accounted B w)
    (ho : ops_inv B w) : session_inv B w :=
  ⟨fun h => by simp [hf] at h, fun _ => ⟨ha, ho⟩⟩

/-- Book-keeping carries over a stretch of a handler, given what it appended to the
log and how it changed the heap and the two buffer fields. -/
theorem accounted_step (B : Nat) (w w2 : World) (h : accounted B w)
    (hlog : w.log <+: w2.log)
    (hb : ∀ e ∈ new_events w w2, e.in_bounds B = true ∧ e.is_teardown = false)
    (ha : ∀ p, alloc_count p (new_events w w2) + (if p < w.heap.length then 1 else 0) =
      if p < w2.heap.length then 1 else 0)
    (hf : ∀ p, free_count p (new_events w w2) + w2.holds p
        + (if p < w.heap.length then 1 else 0) =
      w.holds p + if p < w2.heap.length then 1 else 0) : accounted B w2 := by
  obtain ⟨evs, hevs⟩ := hlog
  have hn : new_events w w2 = evs := by simp [new_events, ← hevs]
  rw [hn] at hb ha hf
  obtain ⟨hb0, ha0, ht0, hf0⟩ := h
  refine ⟨?_, ?_, ?_, ?_⟩
  · intro e he
    rw [← hevs, List.mem_append] at he
    rcases he with he | he
    · exact hb0 e he
    · exact (hb e he).1
  · intro p
    rw [← hevs, alloc_count_append]
    have := ha p
    have := ha0 p
    omega
  · intro e he
    rw [← hevs, List.mem_append] at he
    rcases he with he | he
    · exact ht0 e he
    · exact (hb e he).2
  · intro p
    rw [← hevs, free_count_append]
    have := hf p
    have := hf0 p
    omega

/-- Book-keeping carries over a stretch of a handler that makes no call to the pool
and leaves the heap size and the two buffer fields alone. -/
theorem accounted_frame (B : Nat) (w w2 : World) (h : accounted B w)
    (hlog : w.log <+: w2.log)
    (hb : ∀ e ∈ new_events w w2,
      e.in_bounds B = true ∧ e.is_teardown = false ∧ e.is_pool = false)
    (hh : w2.heap.length = w.heap.length) (h0 : w2.self.buffer0 = w.self.buffer0)
    (h1 : w2.self.buffer1 = w.self.buffer1) : accounted B w2 := by
  have hz : ∀ p, alloc_count p (new_events w w2) = 0 ∧ free_count p (new_events w w2) = 0 := by
    intro p
    simp only [alloc_count, free_count, List.countP_eq_zero]
    constructor
    · intro e he
      have h3 := (hb e he).2.2
      clear hb he
      cases e with
      | buffer_alloc r => cases r <;> simp_all [Event.is_pool, Event.allocs]
      | _ => simp [Event.allocs]
    · intro e he
      have h3 := (hb e he).2.2
      clear hb he
      cases e <;> simp_all [Event.is_pool, Event.frees]
  apply accounted_step B w w2 h hlog (fun e he => ⟨(hb e he).1, (hb e he).2.1⟩)
  · intro p
    rw [(hz p).1, hh]
    simp
  · intro p
    rw [(hz p).2, hh]
    simp only [World.holds, h0, h1]
    omega

/-- The error exit that frees `buffer0` and destroys. -/
theorem error_free0_destroy_inv (B : Nat) (buffer : Nat) (w : World) (h : accounted B w)
    (h0 : w.self.buffer0 = some buffer) : session_inv B (error_free0_destroy buffer w) := by
  apply destroy_inv
  apply accounted_step B w _ h
  · simp [set_buffer0, hev_buffer_list_free, World.emit]
  · simp [new_events, set_buffer0, hev_buffer_list_free, World.emit, Event.in_bounds,
      Event.is_teardown]
  · intro p
    simp [new_events, set_buffer0, hev_buffer_list_free, World.emit, alloc_count, Event.allocs]
  · intro p
    simp [new_events, set_buffer0, hev_buffer_list_free, World.emit, free_count, Event.frees,
      World.holds, h0, List.countP_cons]

theorem auth_need_bound (data : List Nat) (m : Nat)
    (h : 0 > (hev_socks5_proto_auth_req_unpack data m).left_size) :
    m + (0 - (hev_socks5_proto_auth_req_unpack data m).left_size).toNat ≤ 257 := by
  unfold hev_socks5_proto_auth_req_unpack at h ⊢
  have := Nat.mod_lt (load data 1) (by decide : 0 < 256)
  split_ifs at h ⊢ <;> simp at h ⊢ <;> omega

theorem req_need_bound (data : List Nat) (m : Nat)
    (h : 0 > (hev_socks5_proto_req_unpack data m).left_size) :
    m + (0 - (hev_socks5_proto_req_unpack data m).left_size).toNat ≤ 262 := by
  unfold hev_socks5_proto_req_unpack at h ⊢
  have : addr_size (load data 3 % 256) (load data 4) ≤ 256 := by
    have := Nat.mod_lt (load data 4) (by decide : 0 < 256)
    unfold addr_size
    split_ifs <;> omega
  split_ifs at h ⊢ <;> simp at h ⊢ <;> omega

theorem res_pack_bound (data : List Nat) (rep atype : Nat) (addr port : List Nat) :
    (hev_socks5_proto_res_pack data rep atype addr port).2 ≤ 262 := by
  have := Nat.mod_lt (load addr 0) (by decide : 0 < 256)
  simp only [hev_socks5_proto_res_pack, addr_size]
  split_ifs <;> omega

/-! ## Each handler keeps the invariant -/

theorem read_auth_req_handler_inv (B : Nat) (env : Env) (size : Int) (buffer : Nat) (v : World)
    (hB : 262 ≤ B) (hf : v.freed = false) (hacc : accounted B v)
    (h0 : v.self.buffer0 = some buffer) (h1 : v.self.buffer1 = none)
    (hr : v.self.client_pfd.reading = none) (hw : v.self.client_pfd.writing = none)
    (hp : v.self.remote_pfd = none) :
    session_inv B (read_auth_req_handler env size buffer v) := by
  have hlt := buffer0_lt B v hacc buffer h0
  have hs : ∀ b : HevBuffer, ((v.heap.set buffer b)[buffer]?).getD default = b := by
    intro b
    simp [List.getElem?_set, hlt]
  unfold read_auth_req_handler
  simp only []
  split_ifs with c1 c2 c3 c4 c5
  · apply error_free0_destroy_inv B buffer _ _ (by simpa [clear_idle] using h0)
    refine accounted_frame B v _ hacc ?_ ?_ ?_ ?_ ?_ <;> simp [clear_idle, new_events]
  · have hb := auth_need_bound _ _ c2
    simp [World.buf, clear_idle] at hb
    simp [hev_socks5_session_client_read] at c3
    apply session_inv_alive
    · simp [hev_socks5_session_client_read, World.set_buf, clear_idle, hf]
    · refine accounted_frame B v _ hacc ?_ ?_ ?_ ?_ ?_ <;>
        simp [hev_socks5_session_client_read, World.set_buf, clear_idle, new_events,
          Event.in_bounds, Event.is_teardown, Event.is_pool, World.buf, hs]
      omega
    · simp [ops_inv, op_ok, hev_socks5_session_client_read, World.set_buf, clear_idle,
        World.buf, hs, World.reading, World.writing, World.pfd, hev_pollable_fd_read_async,
        c3, h0, h1, hw, hp, connect_outstanding, query_outstanding]
      omega
  · have hb := auth_need_bound _ _ c2
    simp [World.buf, clear_idle] at hb
    apply error_free0_destroy_inv B buffer _ _
      (by simpa [clear_idle, hev_socks5_session_client_read, World.set_buf] using h0)
    refine accounted_frame B v _ hacc ?_ ?_ ?_ ?_ ?_ <;>
      simp [hev_socks5_session_client_read, World.set_buf, clear_idle, new_events,
        Event.in_bounds, Event.is_teardown, Event.is_pool, World.buf, hs]
    omega
  · apply error_free0_destroy_inv B buffer _ _ (by simpa [clear_idle] using h0)
    refine accounted_frame B v _ hacc ?_ ?_ ?_ ?_ ?_ <;> simp [clear_idle, new_events]
  · simp [hev_socks5_session_client_write] at c5
    apply session_inv_alive
    · simp [hev_socks5_session_client_write, World.set_buf, clear_idle, hf]
    · refine accounted_frame B v _ hacc ?_ ?_ ?_ ?_ ?_ <;>
        simp [hev_socks5_session_client_write, World.set_buf, clear_idle, new_events,
          Event.in_bounds, Event.is_teardown, Event.is_pool, World.buf, hs,
          hev_socks5_proto_auth_res_pack]
      omega
    · simp [ops_inv, op_ok, hev_socks5_session_client_write, World.set_buf, clear_idle,
        World.buf, hs, World.reading, World.writing, World.pfd, hev_pollable_fd_write_async,
        c5, h0, h1, hr, hp, connect_outstanding, query_outstanding,
        hev_socks5_proto_auth_res_pack]
      omega
  · apply error_free0_destroy_inv B buffer _ _
      (by simpa [clear_idle, hev_socks5_session_client_write, World.set_buf] using h0)
    refine accounted_frame B v _ hacc ?_ ?_ ?_ ?_ ?_ <;>
      simp [hev_socks5_session_client_write, World.set_buf, clear_idle, new_events,
        Event.in_bounds, Event.is_teardown, Event.is_pool, World.buf, hs,
        hev_socks5_proto_auth_res_pack]
    omega

theorem reads_submitted_append (which : PFD) (l₁ l₂ : List Event) :
    reads_submitted which (l₁ ++ l₂) = reads_submitted which l₁ + reads_submitted which l₂ := by
  simp [reads_submitted]

theorem writes_submitted_append (which : PFD) (l₁ l₂ : List Event) :
    writes_submitted which (l₁ ++ l₂) =
      writes_submitted which l₁ + writes_submitted which l₂ := by
  simp [writes_submitted]

theorem destroy_calls_submit_free (self : HevSocks5Session) (which : PFD) :
    reads_submitted which (destroy_calls self) = 0 ∧
      writes_submitted which (destroy_calls self) = 0 := by
  simp only [reads_submitted, writes_submitted, List.length_eq_zero, List.filter_eq_nil_iff]
  constructor <;>
  · intro a ha
    unfold destroy_calls at ha
    simp only [List.mem_append, List.mem_singleton] at ha
    rcases ha with ((((((((h | h) | h) | h) | h) | h) | h) | h) | h) | h
    all_goals first
      | (subst h; simp [Event.submits_read, Event.submits_write])
      | (split at h <;> simp at h; subst h; simp [Event.submits_read, Event.submits_write])

theorem new_events_append (v w : World) (evs : List Event) (h : v.log <+: w.log) :
    (w.log ++ evs).drop v.log.length = new_events v w ++ evs := by
  obtain ⟨l, hl⟩ := h
  simp [new_events, ← hl]

/-- Destroying adds no submission. -/
theorem fresh_destroy (v w : World) (hlog : v.log <+: w.log) (h : fresh_submits v w) :
    fresh_submits v (hev_socks5_session_destroy w) := by
  intro which
  have := h which
  have hd := destroy_calls_submit_free w.self which
  simp only [new_events, hev_socks5_session_destroy, new_events_append v w _ hlog,
    reads_submitted_append, writes_submitted_append, hd.1, hd.2]
  simpa [new_events] using this

/-- Freeing a buffer and clearing its field adds no submission. -/
theorem fresh_free0 (v w : World) (buffer : Nat) (hlog : v.log <+: w.log)
    (h : fresh_submits v w) :
    fresh_submits v (set_buffer0 none (hev_buffer_list_free buffer w)) := by
  intro which
  have := h which
  simp only [new_events, set_buffer0, hev_buffer_list_free, World.emit,
    new_events_append v w _ hlog, reads_submitted_append, writes_submitted_append]
  simpa [new_events, reads_submitted, writes_submitted, Event.submits_read,
    Event.submits_write] using this

theorem fresh_free1 (v w : World) (buffer : Nat) (hlog : v.log <+: w.log)
    (h : fresh_submits v w) :
    fresh_submits v (error_free1 buffer w) := by
  intro which
  have := h which
  simp only [new_events, error_free1, set_buffer1, hev_buffer_list_free, World.emit,
    new_events_append v w _ hlog, reads_submitted_append, writes_submitted_append]
  simpa [new_events, reads_submitted, writes_submitted, Event.submits_read,
    Event.submits_write] using this

theorem fresh_error_free0_destroy (v w : World) (buffer : Nat) (hlog : v.log <+: w.log)
    (h : fresh_submits v w) : fresh_submits v (error_free0_destroy buffer w) := by
  apply fresh_destroy
  · obtain ⟨l, hl⟩ := hlog
    exact ⟨l ++ [Event.buffer_free buffer], by
      simp [set_buffer0, hev_buffer_list_free, World.emit, ← hl]⟩
  · exact fresh_free0 v w buffer hlog h

theorem ite_le_one (c : Prop) [Decidable c] : (if c then 1 else 0) ≤ 1 := by
  split_ifs <;> omega

theorem fresh_self (v : World) : fresh_submits v v := by
  intro which
  simp only [new_events, List.drop_length, reads_submitted, writes_submitted, List.filter_nil,
    List.length_nil, Nat.zero_add]
  constructor <;> split_ifs <;> omega

theorem fresh_clear_idle (v : World) : fresh_submits v (clear_idle v) :=
  fresh_self v

theorem submits_read_read (which pfd : PFD) (b o c : Nat) (cb : Callback) (ok : Bool) :
    Event.submits_read which (Event.read_async (some pfd) b o c cb ok) =
      decide (pfd = which) := by
  simp [Event.submits_read]

theorem submits_write_write (which pfd : PFD) (b o c : Nat) (cb : Callback) (ok : Bool) :
    Event.submits_write which (Event.write_async (some pfd) b o c cb ok) =
      decide (pfd = which) := by
  simp [Event.submits_write]

theorem submits_read_null (which : PFD) (b o c : Nat) (cb : Callback) (ok : Bool) :
    Event.submits_read which (Event.read_async none b o c cb ok) = false := by
  simp [Event.submits_read]

theorem submits_write_null (which : PFD) (b o c : Nat) (cb : Callback) (ok : Bool) :
    Event.submits_write which (Event.write_async none b o c cb ok) = false := by
  simp [Event.submits_write]

/-- A stretch of a handler that submits nothing. -/
theorem fresh_quiet (v w : World)
    (h : ∀ e ∈ new_events v w, Event.is_transfer e = false) : fresh_submits v w := by
  intro which
  have hr : reads_submitted which (new_events v w) = 0 := by
    simp only [reads_submitted, List.length_eq_zero, List.filter_eq_nil_iff]
    intro e he
    have := h e he
    cases e <;> simp_all [Event.is_transfer, Event.is_read, Event.is_write, Event.submits_read]
  have hw : writes_submitted which (new_events v w) = 0 := by
    simp only [writes_submitted, List.length_eq_zero, List.filter_eq_nil_iff]
    intro e he
    have := h e he
    cases e <;> simp_all [Event.is_transfer, Event.is_read, Event.is_write, Event.submits_write]
  rw [hr, hw]
  simp [ite_le_one]

theorem read_auth_req_handler_fresh (env : Env) (size : Int) (buffer : Nat) (v : World)
    (hr : v.self.client_pfd.reading = none) (hw : v.self.client_pfd.writing = none) :
    fresh_submits v (read_auth_req_handler env size buffer v) := by
  unfold read_auth_req_handler
  simp only []
  split_ifs with c1 c2 c3 c4 c5
  · exact fresh_error_free0_destroy _ _ _ (by simp [clear_idle]) (fresh_clear_idle v)
  · simp [hev_socks5_session_client_read] at c3
    intro which
    cases which <;>
      simp [hev_socks5_session_client_read, World.set_buf, clear_idle, new_events,
        reads_submitted, writes_submitted, submits_read_read, Event.submits_write,
        World.reading, World.writing, World.pfd, hr, hw, c3, ite_le_one]
  · simp [hev_socks5_session_client_read] at c3
    apply fresh_error_free0_destroy
    · simp [hev_socks5_session_client_read, World.set_buf, clear_idle]
    · intro which
      cases which <;>
        simp [hev_socks5_session_client_read, World.set_buf, clear_idle, new_events,
          World.reading, World.writing, World.pfd, hr, hw, reads_submitted, writes_submitted,
            submits_read_read, Event.submits_write, c3, ite_le_one]
  · exact fresh_error_free0_destroy _ _ _ (by simp [clear_idle]) (fresh_clear_idle v)
  · simp [hev_socks5_session_client_write] at c5
    intro which
    cases which <;>
      simp [hev_socks5_session_client_write, World.set_buf, clear_idle, new_events,
        reads_submitted, writes_submitted, Event.submits_read, submits_write_write,
        World.reading, World.writing, World.pfd, hr, hw, c5, ite_le_one]
  · simp [hev_socks5_session_client_write] at c5
    apply fresh_error_free0_destroy
    · simp [hev_socks5_session_client_write, World.set_buf, clear_idle]
    · intro which
      cases which <;>
        simp [hev_socks5_session_client_write, World.set_buf, clear_idle, new_events,
          World.reading, World.writing, World.pfd, hr, hw, reads_submitted, writes_submitted,
            Event.submits_read, submits_write_write, c5, ite_le_one]

theorem write_auth_res_handler_inv (B : Nat) (env : Env) (size : Int) (buffer : Nat) (v : World)
    (hB : 262 ≤ B) (hf : v.freed = false) (hacc : accounted B v)
    (h0 : v.self.buffer0 = some buffer) (h1 : v.self.buffer1 = none)
    (hr : v.self.client_pfd.reading = none) (hw : v.self.client_pfd.writing = none)
    (hp : v.self.remote_pfd = none)
    (hbound : (v.buf buffer).offset + (v.buf buffer).length ≤ B) :
    session_inv B (write_auth_res_handler env size buffer v) := by
  have hlt := buffer0_lt B v hacc buffer h0
  have hs : ∀ b : HevBuffer, ((v.heap.set buffer b)[buffer]?).getD default = b := by
    intro b
    simp [List.getElem?_set, hlt]
  simp [World.buf] at hbound
  unfold write_auth_res_handler
  simp only []
  split_ifs with c1 c2 c3 c4
  · apply error_free0_destroy_inv B buffer _ _ (by simpa [clear_idle] using h0)
    refine accounted_frame B v _ hacc ?_ ?_ ?_ ?_ ?_ <;> simp [clear_idle, new_events]
  · simp [World.buf, clear_idle] at c2
    simp [hev_socks5_session_client_write] at c3
    apply session_inv_alive
    · simp [hev_socks5_session_client_write, World.set_buf, clear_idle, hf]
    · refine accounted_frame B v _ hacc ?_ ?_ ?_ ?_ ?_ <;>
        simp [hev_socks5_session_client_write, World.set_buf, clear_idle, new_events,
          Event.in_bounds, Event.is_teardown, Event.is_pool, World.buf, hs]
      omega
    · simp [ops_inv, op_ok, hev_socks5_session_client_write, World.set_buf, clear_idle,
        World.buf, hs, World.reading, World.writing, World.pfd, hev_pollable_fd_write_async,
        c3, h0, h1, hr, hp, connect_outstanding, query_outstanding]
      omega
  · simp [World.buf, clear_idle] at c2
    apply error_free0_destroy_inv B buffer _ _
      (by simpa [clear_idle, hev_socks5_session_client_write, World.set_buf] using h0)
    refine accounted_frame B v _ hacc ?_ ?_ ?_ ?_ ?_ <;>
      simp [hev_socks5_session_client_write, World.set_buf, clear_idle, new_events,
        Event.in_bounds, Event.is_teardown, Event.is_pool, World.buf, hs]
    omega
  · simp [hev_socks5_session_client_read] at c4
    apply session_inv_alive
    · simp [hev_socks5_session_client_read, World.set_buf, clear_idle, hf]
    · refine accounted_frame B v _ hacc ?_ ?_ ?_ ?_ ?_ <;>
        simp [hev_socks5_session_client_read, World.set_buf, clear_idle, new_events,
          Event.in_bounds, Event.is_teardown, Event.is_pool, World.buf, hs,
          hev_socks5_proto_req_unpack]
      omega
    · simp [ops_inv, op_ok, hev_socks5_session_client_read, World.set_buf, clear_idle,
        World.buf, hs, World.reading, World.writing, World.pfd, hev_pollable_fd_read_async,
        c4, h0, h1, hw, hp, connect_outstanding, query_outstanding,
        hev_socks5_proto_req_unpack]
      omega
  · apply error_free0_destroy_inv B buffer _ _
      (by simpa [clear_idle, hev_socks5_session_client_read, World.set_buf] using h0)
    refine accounted_frame B v _ hacc ?_ ?_ ?_ ?_ ?_ <;>
      simp [hev_socks5_session_client_read, World.set_buf, clear_idle, new_events,
        Event.in_bounds, Event.is_teardown, Event.is_pool, World.buf, hs,
        hev_socks5_proto_req_unpack]
    omega

theorem write_auth_res_handler_fresh (env : Env) (size : Int) (buffer : Nat) (v : World)
    (hr : v.self.client_pfd.reading = none) (hw : v.self.client_pfd.writing = none) :
    fresh_submits v (write_auth_res_handler env size buffer v) := by
  unfold write_auth_res_handler
  simp only []
  split_ifs with c1 c2 c3 c4
  · exact fresh_error_free0_destroy _ _ _ (by simp [clear_idle]) (fresh_clear_idle v)
  · simp [hev_socks5_session_client_write] at c3
    intro which
    cases which <;>
      simp [hev_socks5_session_client_write, World.set_buf, clear_idle, new_events,
        reads_submitted, writes_submitted, Event.submits_read, submits_write_write,
        World.reading, World.writing, World.pfd, hr, hw, c3, ite_le_one]
  · simp [hev_socks5_session_client_write] at c3
    apply fresh_error_free0_destroy
    · simp [hev_socks5_session_client_write, World.set_buf, clear_idle]
    · intro which
      cases which <;>
        simp [hev_socks5_session_client_write, World.set_buf, clear_idle, new_events,
          World.reading, World.writing, World.pfd, hr, hw, reads_submitted, writes_submitted,
            Event.submits_read, submits_write_write, c3,
          ite_le_one]
  · simp [hev_socks5_session_client_read] at c4
    intro which
    cases which <;>
      simp [hev_socks5_session_client_read, World.set_buf, clear_idle, new_events,
        reads_submitted, writes_submitted, submits_read_read, Event.submits_write,
        World.reading, World.writing, World.pfd, hr, hw, c4, ite_le_one]
  · simp [hev_socks5_session_client_read] at c4
    apply fresh_error_free0_destroy
    · simp [hev_socks5_session_client_read, World.set_buf, clear_idle]
    · intro which
      cases which <;>
        simp [hev_socks5_session_client_read, World.set_buf, clear_idle, new_events,
          World.reading, World.writing, World.pfd, hr, hw, reads_submitted, writes_submitted,
            submits_read_read, Event.submits_write, c4,
          ite_le_one]

theorem accounted_clear_idle (B : Nat) (w : World) (h : accounted B w) :
    accounted B (clear_idle w) := h

theorem accounted_free0 (B : Nat) (buffer : Nat) (w : World) (h : accounted B w)
    (h0 : w.self.buffer0 = some buffer) :
    accounted B (set_buffer0 none (hev_buffer_list_free buffer w)) := by
  apply accounted_step B w _ h
  · simp [set_buffer0, hev_buffer_list_free, World.emit]
  · simp [new_events, set_buffer0, hev_buffer_list_free, World.emit, Event.in_bounds,
      Event.is_teardown]
  · intro p
    simp [new_events, set_buffer0, hev_buffer_list_free, World.emit, alloc_count, Event.allocs]
  · intro p
    simp [new_events, set_buffer0, hev_buffer_list_free, World.emit, free_count, Event.frees,
      World.holds, h0, List.countP_cons]

theorem accounted_free1 (B : Nat) (buffer : Nat) (w : World) (h : accounted B w)
    (h1 : w.self.buffer1 = some buffer) :
    accounted B (error_free1 buffer w) := by
  apply accounted_step B w _ h
  · simp [error_free1, set_buffer1, hev_buffer_list_free, World.emit]
  · simp [new_events, error_free1, set_buffer1, hev_buffer_list_free, World.emit,
      Event.in_bounds, Event.is_teardown]
  · intro p
    simp [new_events, error_free1, set_buffer1, hev_buffer_list_free, World.emit, alloc_count,
      Event.allocs]
  · intro p
    simp [new_events, error_free1, set_buffer1, hev_buffer_list_free, World.emit, free_count,
      Event.frees, World.holds, h1, List.countP_cons]
    omega

theorem read_req_handler_inv (B : Nat) (env : Env) (size : Int) (buffer : Nat) (v : World)
    (hB : 262 ≤ B) (hf : v.freed = false) (hacc : accounted B v)
    (h0 : v.self.buffer0 = some buffer) (h1 : v.self.buffer1 = none)
    (hr : v.self.client_pfd.reading = none) (hw : v.self.client_pfd.writing = none)
    (hp : v.self.remote_pfd = none) :
    session_inv B (read_req_handler env size buffer v) := by
  have hlt := buffer0_lt B v hacc buffer h0
  have hs : ∀ b : HevBuffer, ((v.heap.set buffer b)[buffer]?).getD default = b := by
    intro b
    simp [List.getElem?_set, hlt]
  have hfree := accounted_free0 B buffer (clear_idle v) hacc h0
  unfold read_req_handler
  simp only []
  split
  next c1 =>
    apply error_free0_destroy_inv B buffer _ _ (by simpa [clear_idle] using h0)
    refine accounted_frame B v _ hacc ?_ ?_ ?_ ?_ ?_ <;> simp [clear_idle, new_events]
  next c1 =>
  split
  next c2 =>
    have hb := req_need_bound _ _ c2
    simp [World.buf, clear_idle] at hb
    split
    next c3 =>
      simp [hev_socks5_session_client_read] at c3
      apply session_inv_alive
      · simp [hev_socks5_session_client_read, World.set_buf, clear_idle, hf]
      · refine accounted_frame B v _ hacc ?_ ?_ ?_ ?_ ?_ <;>
          simp [hev_socks5_session_client_read, World.set_buf, clear_idle, new_events,
            Event.in_bounds, Event.is_teardown, Event.is_pool, World.buf, hs]
        omega
      · simp [ops_inv, op_ok, hev_socks5_session_client_read, World.set_buf, clear_idle,
          World.buf, hs, World.reading, World.writing, World.pfd, hev_pollable_fd_read_async,
          c3, h0, h1, hw, hp, connect_outstanding, query_outstanding]
        omega
    next c3 =>
      apply error_free0_destroy_inv B buffer _ _
        (by simpa [clear_idle, hev_socks5_session_client_read, World.set_buf] using h0)
      refine accounted_frame B v _ hacc ?_ ?_ ?_ ?_ ?_ <;>
        simp [hev_socks5_session_client_read, World.set_buf, clear_idle, new_events,
          Event.in_bounds, Event.is_teardown, Event.is_pool, World.buf, hs]
      omega
  next c2 =>
  split
  next c4 =>
    split
    next c5 =>
      cases hsn : env.socket_new with
      | none => simp [hev_socks5_session_socket_connect, hsn] at c5
      | some fd =>
        simp [hev_socks5_session_socket_connect, hsn] at c5
        apply session_inv_alive
        · simp [hev_socks5_session_socket_connect, hsn, set_buffer0, hev_buffer_list_free,
            World.emit, clear_idle, hf]
        · refine accounted_frame B _ _ hfree ?_ ?_ ?_ ?_ ?_ <;>
            simp [hev_socks5_session_socket_connect, hsn, set_buffer0, hev_buffer_list_free,
              World.emit, clear_idle, new_events, Event.in_bounds, Event.is_teardown,
              Event.is_pool]
        · simp [ops_inv, hev_socks5_session_socket_connect, hsn, set_buffer0,
            hev_buffer_list_free, World.emit, clear_idle, World.reading, World.writing,
            World.pfd, h1, hr, hw, hp]
    next c5 =>
      apply destroy_inv
      cases hsn : env.socket_new with
      | none =>
        refine accounted_frame B _ _ hfree ?_ ?_ ?_ ?_ ?_ <;>
          simp [hev_socks5_session_socket_connect, hsn, set_buffer0, hev_buffer_list_free,
            World.emit, clear_idle, new_events, Event.in_bounds, Event.is_teardown,
            Event.is_pool]
      | some fd =>
        refine accounted_frame B _ _ hfree ?_ ?_ ?_ ?_ ?_ <;>
          simp [hev_socks5_session_socket_connect, hsn, set_buffer0, hev_buffer_list_free,
            World.emit, clear_idle, new_events, Event.in_bounds, Event.is_teardown,
            Event.is_pool]
  next c4 =>
  split
  next c6 =>
    cases hrn : env.resolver_new with
    | false =>
      simp only [hrn, Bool.false_eq_true, if_false, Option.isNone_none, if_true]
      apply destroy_inv
      refine accounted_frame B _ _ hfree ?_ ?_ ?_ ?_ ?_ <;>
        simp [set_buffer0, hev_buffer_list_free, World.emit, clear_idle, new_events,
          Event.in_bounds, Event.is_teardown, Event.is_pool]
    | true =>
      simp only [if_true, Option.isNone_some, Bool.false_eq_true, if_false]
      split
      next c8 =>
        apply session_inv_alive
        · simp [set_buffer0, hev_buffer_list_free, World.emit, clear_idle, hf]
        · refine accounted_frame B _ _ hfree ?_ ?_ ?_ ?_ ?_ <;>
            simp [set_buffer0, hev_buffer_list_free, World.emit, clear_idle, new_events,
              Event.in_bounds, Event.is_teardown, Event.is_pool]
        · simp [ops_inv, set_buffer0, hev_buffer_list_free, World.emit, clear_idle,
            World.reading, World.writing, World.pfd, h1, hr, hw, hp]
      next c8 =>
        apply destroy_inv
        refine accounted_frame B _ _ hfree ?_ ?_ ?_ ?_ ?_ <;>
          simp [set_buffer0, hev_buffer_list_free, World.emit, clear_idle, new_events,
            Event.in_bounds, Event.is_teardown, Event.is_pool]
  next c6 =>
    have hb := res_pack_bound ((clear_idle v).buf buffer).data
      HEV_SOCKS5_PROTO_REP_ATYPE_NOT_SUPPORT
      (hev_socks5_proto_req_unpack ((clear_idle v).buf buffer).data
        (((clear_idle v).buf buffer).offset + size.toNat)).atype
      (((clear_idle v).buf buffer).data.drop
        (hev_socks5_proto_req_unpack ((clear_idle v).buf buffer).data
          (((clear_idle v).buf buffer).offset + size.toNat)).addr)
      (hev_socks5_proto_req_unpack ((clear_idle v).buf buffer).data
        (((clear_idle v).buf buffer).offset + size.toNat)).port
    simp [World.buf, clear_idle] at hb
    split
    next c9 =>
      simp [hev_socks5_session_client_write] at c9
      apply session_inv_alive
      · simp [hev_socks5_session_client_write, World.set_buf, clear_idle, hf]
      · refine accounted_frame B v _ hacc ?_ ?_ ?_ ?_ ?_ <;>
          simp [hev_socks5_session_client_write, World.set_buf, clear_idle, new_events,
            Event.in_bounds, Event.is_teardown, Event.is_pool, World.buf, hs]
        omega
      · simp [ops_inv, op_ok, hev_socks5_session_client_write, World.set_buf, clear_idle,
          World.buf, hs, World.reading, World.writing, World.pfd, hev_pollable_fd_write_async,
          c9, h0, h1, hr, hp, connect_outstanding, query_outstanding]
        omega
    next c9 =>
      apply error_free0_destroy_inv B buffer _ _
        (by simpa [clear_idle, hev_socks5_session_client_write, World.set_buf] using h0)
      refine accounted_frame B v _ hacc ?_ ?_ ?_ ?_ ?_ <;>
        simp [hev_socks5_session_client_write, World.set_buf, clear_idle, new_events,
          Event.in_bounds, Event.is_teardown, Event.is_pool, World.buf, hs]
      omega

theorem read_req_handler_fresh (env : Env) (size : Int) (buffer : Nat) (v : World)
    (hr : v.self.client_pfd.reading = none) (hw : v.self.client_pfd.writing = none) :
    fresh_submits v (read_req_handler env size buffer v) := by
  unfold read_req_handler
  simp only []
  split
  next c1 =>
    exact fresh_error_free0_destroy _ _ _ (by simp [clear_idle]) (fresh_clear_idle v)
  next c1 =>
  split
  next c2 =>
    split
    next c3 =>
      simp [hev_socks5_session_client_read] at c3
      intro which
      cases which <;>
        simp [hev_socks5_session_client_read, World.set_buf, clear_idle, new_events,
          reads_submitted, writes_submitted, submits_read_read, Event.submits_write,
          World.reading, World.writing, World.pfd, hr, hw, c3, ite_le_one]
    next c3 =>
      simp [hev_socks5_session_client_read] at c3
      apply fresh_error_free0_destroy
      · simp [hev_socks5_session_client_read, World.set_buf, clear_idle]
      · intro which
        cases which <;>
          simp [hev_socks5_session_client_read, World.set_buf, clear_idle, new_events,
            World.reading, World.writing, World.pfd, hr, hw, reads_submitted, writes_submitted,
              submits_read_read, Event.submits_write, c3,
            ite_le_one]
  next c2 =>
  split
  next c4 =>
    cases hsn : env.socket_new with
    | none =>
      split
      next c5 => simp [hev_socks5_session_socket_connect, hsn] at c5
      next c5 =>
        apply fresh_destroy
        · simp [hev_socks5_session_socket_connect, hsn, set_buffer0, hev_buffer_list_free,
            World.emit, clear_idle]
        · apply fresh_quiet
          simp [hev_socks5_session_socket_connect, hsn, set_buffer0, hev_buffer_list_free,
            World.emit, clear_idle, new_events, Event.is_transfer, Event.is_read,
            Event.is_write]
    | some fd =>
      split
      next c5 =>
        apply fresh_quiet
        simp [hev_socks5_session_socket_connect, hsn, set_buffer0, hev_buffer_list_free,
          World.emit, clear_idle, new_events, Event.is_transfer, Event.is_read,
          Event.is_write]
      next c5 =>
        apply fresh_destroy
        · simp [hev_socks5_session_socket_connect, hsn, set_buffer0, hev_buffer_list_free,
            World.emit, clear_idle]
        · apply fresh_quiet
          simp [hev_socks5_session_socket_connect, hsn, set_buffer0, hev_buffer_list_free,
            World.emit, clear_idle, new_events, Event.is_transfer, Event.is_read,
            Event.is_write]
  next c4 =>
  split
  next c6 =>
    cases hrn : env.resolver_new with
    | false =>
      simp only [hrn, Bool.false_eq_true, if_false, Option.isNone_none, if_true]
      apply fresh_destroy
      · simp [set_buffer0, hev_buffer_list_free, World.emit, clear_idle]
      · apply fresh_quiet
        simp [set_buffer0, hev_buffer_list_free, World.emit, clear_idle, new_events,
          Event.is_transfer, Event.is_read, Event.is_write]
    | true =>
      simp only [if_true, Option.isNone_some, Bool.false_eq_true, if_false]
      split
      next c8 =>
        apply fresh_quiet
        simp [set_buffer0, hev_buffer_list_free, World.emit, clear_idle, new_events,
          Event.is_transfer, Event.is_read, Event.is_write]
      next c8 =>
        apply fresh_destroy
        · simp [set_buffer0, hev_buffer_list_free, World.emit, clear_idle]
        · apply fresh_quiet
          simp [set_buffer0, hev_buffer_list_free, World.emit, clear_idle, new_events,
            Event.is_transfer, Event.is_read, Event.is_write]
  next c6 =>
    split
    next c9 =>
      simp [hev_socks5_session_client_write] at c9
      intro which
      cases which <;>
        simp [hev_socks5_session_client_write, World.set_buf, clear_idle, new_events,
          reads_submitted, writes_submitted, Event.submits_read, submits_write_write,
          World.reading, World.writing, World.pfd, hr, hw, c9, ite_le_one]
    next c9 =>
      simp [hev_socks5_session_client_write] at c9
      apply fresh_error_free0_destroy
      · simp [hev_socks5_session_client_write, World.set_buf, clear_idle]
      · intro which
        cases which <;>
          simp [hev_socks5_session_client_write, World.set_buf, clear_idle, new_events,
            World.reading, World.writing, World.pfd, hr, hw, reads_submitted, writes_submitted,
              Event.submits_read, submits_write_write, c9,
            ite_le_one]

theorem resolver_handler_inv (B : Nat) (env : Env) (ip : List Nat) (v : World)
    (hf : v.freed = false) (hacc : accounted B v)
    (h0 : v.self.buffer0 = none) (h1 : v.self.buffer1 = none)
    (hr : v.self.client_pfd.reading = none) (hw : v.self.client_pfd.writing = none)
    (hp : v.self.remote_pfd = none) :
    session_inv B (resolver_handler env ip v) := by
  unfold resolver_handler
  simp only []
  split
  next c1 => exact destroy_inv B _ hacc
  next c1 =>
  cases hsn : env.socket_new with
  | none =>
    split
    next c2 => simp [hev_socks5_session_socket_connect, hsn] at c2
    next c2 =>
      apply destroy_inv
      refine accounted_frame B v _ hacc ?_ ?_ ?_ ?_ ?_ <;>
        simp [hev_socks5_session_socket_connect, hsn, clear_idle, new_events, Event.in_bounds,
          Event.is_teardown, Event.is_pool]
  | some fd =>
    split
    next c2 =>
      simp [hev_socks5_session_socket_connect, hsn] at c2
      apply session_inv_alive
      · simp [hev_socks5_session_socket_connect, hsn, clear_idle, hf]
      · refine accounted_frame B v _ hacc ?_ ?_ ?_ ?_ ?_ <;>
          simp [hev_socks5_session_socket_connect, hsn, clear_idle, new_events,
            Event.in_bounds, Event.is_teardown, Event.is_pool]
      · simp [ops_inv, hev_socks5_session_socket_connect, hsn, clear_idle, World.reading,
          World.writing, World.pfd, h0, h1, hr, hw, hp]
    next c2 =>
      apply destroy_inv
      refine accounted_frame B v _ hacc ?_ ?_ ?_ ?_ ?_ <;>
        simp [hev_socks5_session_socket_connect, hsn, clear_idle, new_events, Event.in_bounds,
          Event.is_teardown, Event.is_pool]

theorem resolver_handler_fresh (env : Env) (ip : List Nat) (v : World) :
    fresh_submits v (resolver_handler env ip v) := by
  unfold resolver_handler
  simp only []
  split
  next c1 => exact fresh_destroy _ _ (by simp [clear_idle]) (fresh_clear_idle v)
  next c1 =>
  cases hsn : env.socket_new with
  | none =>
    split
    next c2 => simp [hev_socks5_session_socket_connect, hsn] at c2
    next c2 =>
      apply fresh_destroy
      · simp [hev_socks5_session_socket_connect, hsn, clear_idle]
      · apply fresh_quiet
        simp [hev_socks5_session_socket_connect, hsn, clear_idle, new_events,
          Event.is_transfer, Event.is_read, Event.is_write]
  | some fd =>
    split
    next c2 =>
      apply fresh_quiet
      simp [hev_socks5_session_socket_connect, hsn, clear_idle, new_events,
        Event.is_transfer, Event.is_read, Event.is_write]
    next c2 =>
      apply fresh_destroy
      · simp [hev_socks5_session_socket_connect, hsn, clear_idle]
      · apply fresh_quiet
        simp [hev_socks5_session_socket_connect, hsn, clear_idle, new_events,
          Event.is_transfer, Event.is_read, Event.is_write]

theorem socket_connect_handler_inv (B : Nat) (env : Env) (status : Int) (v : World)
    (hB : 262 ≤ B) (hf : v.freed = false) (hacc : accounted B v)
    (h0 : v.self.buffer0 = none) (h1 : v.self.buffer1 = none)
    (hr : v.self.client_pfd.reading = none) :
    session_inv B (socket_connect_handler env status v) := by
  have hs2 : ∀ b b2 : HevBuffer,
      (((v.heap ++ [b]).set v.heap.length b2)[v.heap.length]?).getD default = b2 := by
    intro b b2
    simp [List.getElem?_set]
  unfold socket_connect_handler
  simp only []
  split
  next c1 => exact destroy_inv B _ hacc
  next c1 =>
  cases hpn : env.pfd_new with
  | false =>
    simp only [Bool.false_eq_true, if_false, Option.isNone_none, if_true]
    apply destroy_inv
    refine accounted_frame B v _ hacc ?_ ?_ ?_ ?_ ?_ <;>
      simp [clear_idle, new_events, Event.in_bounds, Event.is_teardown, Event.is_pool]
  | true =>
    simp only [if_true, Option.isNone_some, Bool.false_eq_true, if_false]
    cases ha : env.buffer_alloc with
    | none =>
      simp only [hev_buffer_list_alloc, ha]
      apply destroy_inv
      refine accounted_frame B v _ hacc ?_ ?_ ?_ ?_ ?_ <;>
        simp [clear_idle, set_buffer0, World.emit, new_events, Event.in_bounds,
          Event.is_teardown, Event.is_pool, h0]
    | some d =>
      simp only [hev_buffer_list_alloc, ha]
      split
      next c2 =>
        simp [hev_socks5_session_client_write] at c2
        apply session_inv_alive
        · simp [hev_socks5_session_client_write, World.set_buf, set_buffer0, clear_idle, hf]
        · apply accounted_step B v _ hacc
          · simp [hev_socks5_session_client_write, World.set_buf, set_buffer0, clear_idle]
          · simp [hev_socks5_session_client_write, World.set_buf, set_buffer0, clear_idle,
              new_events, Event.in_bounds, Event.is_teardown, World.buf, hs2,
              hev_socks5_proto_res_pack, addr_size, HEV_SOCKS5_PROTO_ATYPE_IPV4]
            omega
          · intro p
            simp [hev_socks5_session_client_write, World.set_buf, set_buffer0, clear_idle,
              new_events, alloc_count, Event.allocs, List.countP_cons]
            split_ifs <;> omega
          · intro p
            simp [hev_socks5_session_client_write, World.set_buf, set_buffer0, clear_idle,
              new_events, free_count, Event.frees, List.countP_cons, World.holds, h0, h1]
            split_ifs <;> omega
        · simp [ops_inv, op_ok, hev_socks5_session_client_write, World.set_buf, set_buffer0,
            clear_idle, World.buf, hs2, World.reading, World.writing, World.pfd,
            hev_pollable_fd_write_async, c2, h1, hr, connect_outstanding, query_outstanding,
            hev_socks5_proto_res_pack, addr_size, HEV_SOCKS5_PROTO_ATYPE_IPV4]
          omega
      next c2 =>
        apply destroy_inv
        refine accounted_step B v _ hacc ?_ ?_ ?_ ?_
        · simp [hev_socks5_session_client_write, World.set_buf, set_buffer0, clear_idle]
        · simp [hev_socks5_session_client_write, World.set_buf, set_buffer0, clear_idle,
            new_events, Event.in_bounds, Event.is_teardown, World.buf, hs2,
            hev_socks5_proto_res_pack, addr_size, HEV_SOCKS5_PROTO_ATYPE_IPV4]
          omega
        · intro p
          simp [hev_socks5_session_client_write, World.set_buf, set_buffer0, clear_idle,
            new_events, alloc_count, Event.allocs, List.countP_cons]
          split_ifs <;> omega
        · intro p
          simp [hev_socks5_session_client_write, World.set_buf, set_buffer0, clear_idle,
            new_events, free_count, Event.frees, List.countP_cons, World.holds, h0, h1]
          split_ifs <;> omega

theorem socket_connect_handler_fresh (env : Env) (status : Int) (v : World)
    (hw : v.self.client_pfd.writing = none) :
    fresh_submits v (socket_connect_handler env status v) := by
  unfold socket_connect_handler
  simp only []
  split
  next c1 => exact fresh_destroy _ _ (by simp [clear_idle]) (fresh_clear_idle v)
  next c1 =>
  cases hpn : env.pfd_new with
  | false =>
    simp only [Bool.false_eq_true, if_false, Option.isNone_none, if_true]
    apply fresh_destroy
    · simp [clear_idle]
    · apply fresh_quiet
      simp [clear_idle, new_events, Event.is_transfer, Event.is_read, Event.is_write]
  | true =>
    simp only [if_true, Option.isNone_some, Bool.false_eq_true, if_false]
    cases ha : env.buffer_alloc with
    | none =>
      simp only [hev_buffer_list_alloc, ha]
      apply fresh_destroy
      · simp [clear_idle, set_buffer0, World.emit]
      · apply fresh_quiet
        simp [clear_idle, set_buffer0, World.emit, new_events, Event.is_transfer,
          Event.is_read, Event.is_write]
    | some d =>
      simp only [hev_buffer_list_alloc, ha]
      split
      next c2 =>
        simp [hev_socks5_session_client_write] at c2
        intro which
        cases which <;>
          simp [hev_socks5_session_client_write, World.set_buf, set_buffer0, clear_idle,
            new_events, reads_submitted, writes_submitted, Event.submits_read,
            Event.submits_write, submits_write_write, World.reading, World.writing,
            World.pfd, hw, c2, ite_le_one]
      next c2 =>
        simp [hev_socks5_session_client_write] at c2
        apply fresh_destroy
        · simp [hev_socks5_session_client_write, World.set_buf, set_buffer0, clear_idle]
        · intro which
          cases which <;>
            simp [hev_socks5_session_client_write, World.set_buf, set_buffer0, clear_idle,
              new_events, World.reading, World.writing, World.pfd, hw, reads_submitted,
                writes_submitted, Event.submits_read,
              Event.submits_write, submits_write_write, c2, ite_le_one]

theorem write_res_handler_inv (M B : Nat) (hBM : B ≤ M) (env : Env) (size : Int) (buffer : Nat)
    (v : World)
    (hf : v.freed = false) (hacc : accounted M v)
    (h0 : v.self.buffer0 = some buffer) (h1 : v.self.buffer1 = none)
    (hr : v.self.client_pfd.reading = none) (hw : v.self.client_pfd.writing = none)
    (hrr : v.reading PFD.remote = none) (hrw : v.writing PFD.remote = none)
    (hbound : (v.buf buffer).offset + (v.buf buffer).length ≤ M) :
    session_inv M (write_res_handler B env size buffer v) := by
  have hlt := buffer0_lt M v hacc buffer h0
  have hne : buffer ≠ v.heap.length := Nat.ne_of_lt hlt
  have hs : ∀ b : HevBuffer, ((v.heap.set buffer b)[buffer]?).getD default = b := by
    intro b
    simp [List.getElem?_set, hlt]
  have hs3 : ∀ b x b2 : HevBuffer,
      ((((v.heap.set buffer b) ++ [x]).set v.heap.length b2)[v.heap.length]?).getD default
        = b2 := by
    intro b x b2
    simp [List.getElem?_set]
  have hs4 : ∀ b x b2 : HevBuffer,
      ((((v.heap.set buffer b) ++ [x]).set v.heap.length b2)[buffer]?).getD default = b := by
    intro b x b2
    simp [List.getElem?_set, List.getElem?_append, hlt, hne.symm]
  have hs5 : ∀ b x : HevBuffer, (((v.heap.set buffer b) ++ [x])[buffer]?).getD default = b := by
    intro b x
    simp [List.getElem?_set, List.getElem?_append, hlt]
  have hs6 : ∀ b x : HevBuffer,
      (((v.heap.set buffer b) ++ [x])[v.heap.length]?).getD default = x := by
    intro b x
    simp [List.getElem?_append]
  simp [World.buf] at hbound
  simp only [show write_res_error1 = error_free0_destroy from rfl, write_res_handler,
    write_res_error0]
  split
  next c1 =>
    apply error_free0_destroy_inv M buffer _ _ (by simpa [clear_idle] using h0)
    refine accounted_frame M v _ hacc ?_ ?_ ?_ ?_ ?_ <;> simp [clear_idle, new_events]
  next c1 =>
  split
  next c2 =>
    simp [World.buf, clear_idle] at c2
    split
    next c3 =>
      simp [hev_socks5_session_client_write] at c3
      apply session_inv_alive
      · simp [hev_socks5_session_client_write, World.set_buf, clear_idle, hf]
      · refine accounted_frame M v _ hacc ?_ ?_ ?_ ?_ ?_ <;>
          simp [hev_socks5_session_client_write, World.set_buf, clear_idle, new_events,
            Event.in_bounds, hBM, Event.is_teardown, Event.is_pool, World.buf, hs]
        omega
      · simp [World.reading, World.writing, World.pfd] at hrr hrw
        simp [ops_inv, op_ok, hBM, hev_socks5_session_client_write, World.set_buf, clear_idle,
          World.buf, hs, World.reading, World.writing, World.pfd,
          hev_pollable_fd_write_async, c3, h0, h1, hr, hrr, hrw, connect_outstanding,
          query_outstanding]
        omega
    next c3 =>
      apply error_free0_destroy_inv M buffer _ _
        (by simpa [clear_idle, hev_socks5_session_client_write, World.set_buf] using h0)
      refine accounted_frame M v _ hacc ?_ ?_ ?_ ?_ ?_ <;>
        simp [hev_socks5_session_client_write, World.set_buf, clear_idle, new_events,
          Event.in_bounds, hBM, Event.is_teardown, Event.is_pool, World.buf, hs]
      omega
  next c2 =>
  split
  next c4 =>
    simp [hev_socks5_session_client_read] at c4
    cases ha : env.buffer_alloc with
    | none =>
      simp only [hev_buffer_list_alloc, ha]
      apply destroy_inv
      refine accounted_frame M v _ hacc ?_ ?_ ?_ ?_ ?_ <;>
        simp [hev_socks5_session_client_read, World.set_buf, clear_idle, set_buffer1,
          World.emit, new_events, Event.in_bounds, hBM, Event.is_teardown, Event.is_pool,
          World.buf, hs, h1]
    | some d =>
      simp only [hev_buffer_list_alloc, ha]
      split
      next c5 =>
        simp [hev_socks5_session_remote_read] at c5
        apply session_inv_alive
        · simp [hev_socks5_session_remote_read, hev_socks5_session_client_read, World.set_buf,
            clear_idle, set_buffer1, hf]
        · apply accounted_step M v _ hacc
          · simp [hev_socks5_session_remote_read, hev_socks5_session_client_read,
              World.set_buf, clear_idle, set_buffer1]
          · simp [hev_socks5_session_remote_read, hev_socks5_session_client_read,
              World.set_buf, clear_idle, set_buffer1, new_events, Event.in_bounds, hBM,
              Event.is_teardown, World.buf, hs, hs3]
          · intro p
            simp [hev_socks5_session_remote_read, hev_socks5_session_client_read,
              World.set_buf, clear_idle, set_buffer1, new_events, alloc_count, Event.allocs,
              List.countP_cons]
            split_ifs <;> omega
          · intro p
            simp [hev_socks5_session_remote_read, hev_socks5_session_client_read,
              World.set_buf, clear_idle, set_buffer1, new_events, free_count, Event.frees,
              List.countP_cons, World.holds, h0, h1]
            split_ifs <;> omega
        · simp [World.reading, World.writing, World.pfd] at hrr hrw
          cases hrp : v.self.remote_pfd <;>
            simp [hrp] at hrr hrw <;>
            simp [ops_inv, op_ok, hBM, hev_socks5_session_remote_read,
              hev_socks5_session_client_read, World.set_buf, clear_idle, set_buffer1,
              World.buf, hs, hs3, hs4, hs5, hs6, World.reading, World.writing, World.pfd,
              hev_pollable_fd_read_async, c4, c5, h0, hw, hrp, hrr, hrw, connect_outstanding,
              query_outstanding]
      next c5 =>
        simp [hev_socks5_session_remote_read] at c5
        apply error_free0_destroy_inv M buffer _ _
          (by simpa [hev_socks5_session_remote_read, hev_socks5_session_client_read,
            World.set_buf, clear_idle, set_buffer1, hev_buffer_list_free, World.emit]
            using h0)
        apply accounted_step M v _ hacc
        · simp [hev_socks5_session_remote_read, hev_socks5_session_client_read,
            World.set_buf, clear_idle, set_buffer1, hev_buffer_list_free, World.emit]
        · simp [hev_socks5_session_remote_read, hev_socks5_session_client_read,
            World.set_buf, clear_idle, set_buffer1, hev_buffer_list_free, World.emit,
            new_events, Event.in_bounds, hBM, Event.is_teardown, World.buf, hs, hs3]
        · intro p
          simp [hev_socks5_session_remote_read, hev_socks5_session_client_read,
            World.set_buf, clear_idle, set_buffer1, hev_buffer_list_free, World.emit,
            new_events, alloc_count, Event.allocs, List.countP_cons]
          split_ifs <;> omega
        · intro p
          simp [hev_socks5_session_remote_read, hev_socks5_session_client_read,
            World.set_buf, clear_idle, set_buffer1, hev_buffer_list_free, World.emit,
            new_events, free_count, Event.frees, List.countP_cons, World.holds, h0, h1]
          split_ifs <;> omega
  next c4 =>
    apply error_free0_destroy_inv M buffer _ _
      (by simpa [clear_idle, hev_socks5_session_client_read, World.set_buf] using h0)
    refine accounted_frame M v _ hacc ?_ ?_ ?_ ?_ ?_ <;>
      simp [hev_socks5_session_client_read, World.set_buf, clear_idle, new_events,
        Event.in_bounds, hBM, Event.is_teardown, Event.is_pool, World.buf, hs]

theorem read_client_data_handler_inv (B : Nat) (env : Env) (size : Int) (buffer : Nat)
    (v : World) (hf : v.freed = false) (hacc : accounted B v) (hops : ops_inv B v)
    (h0 : v.self.buffer0 = some buffer)
    (hr : v.self.client_pfd.reading = none)
    (hwc : ∀ op2, v.self.client_pfd.writing = some op2 →
      op2.callback = Callback.write_client_data_handler)
    (hbound : (v.buf buffer).offset + (v.buf buffer).length ≤ B)
    (hsz : size ≤ ((v.buf buffer).length : Int)) :
    session_inv B (read_client_data_handler env size buffer v) := by
  have hlt := buffer0_lt B v hacc buffer h0
  have hs : ∀ b : HevBuffer, ((v.heap.set buffer b)[buffer]?).getD default = b := by
    intro b
    simp [List.getElem?_set, hlt]
  simp [World.buf] at hbound hsz
  obtain ⟨-, J6, J7, -, -⟩ := hops
  unfold read_client_data_handler
  simp only []
  split
  next c1 =>
    apply error_free0_destroy_inv B buffer _ _ (by simpa [clear_idle] using h0)
    refine accounted_frame B v _ hacc ?_ ?_ ?_ ?_ ?_ <;> simp [clear_idle, new_events]
  next c1 =>
  split
  next c2 =>
    simp [hev_socks5_session_remote_write] at c2
    apply session_inv_alive
    · simp [hev_socks5_session_remote_write, World.set_buf, clear_idle, hf]
    · refine accounted_frame B v _ hacc ?_ ?_ ?_ ?_ ?_ <;>
        simp [hev_socks5_session_remote_write, World.set_buf, clear_idle, new_events,
          Event.in_bounds, Event.is_teardown, Event.is_pool, World.buf, hs]
      omega
    · refine ⟨?_, ?_, ?_, ?_, ?_⟩
      · intro op hop
        simp [hev_socks5_session_remote_write, World.set_buf, clear_idle, hr] at hop
      · intro op hop
        simp [hev_socks5_session_remote_write, World.set_buf, clear_idle] at hop
        obtain ⟨hok, hbr⟩ := J6 op hop
        have hcb := hwc op hop
        rcases hbr with ⟨-, hb1, hrd⟩ | ⟨hcb2, -⟩
        · have hne := buffer0_ne_buffer1 B v hacc buffer op.buffer h0 hb1
          simp [op_ok, World.buf] at hok
          simp [World.reading, World.pfd] at hrd
          cases hrp : v.self.remote_pfd <;>
            simp [hrp] at hrd <;>
            simp [op_ok, hev_socks5_session_remote_write, World.set_buf, clear_idle,
              World.buf, List.getElem?_set, hne, hok, hcb, hb1, hrd, hrp, World.reading,
              World.pfd, hev_pollable_fd_write_async]
          split_ifs
          all_goals simp [hrd]
        · rcases hcb2 with ⟨h, -⟩ | h <;> simp [hcb] at h
      · intro op hop
        cases hrp : v.self.remote_pfd with
        | none =>
          simp [hev_socks5_session_remote_write, World.set_buf, clear_idle, World.reading,
            World.pfd, hrp] at hop
        | some q =>
          simp [hev_socks5_session_remote_write, World.set_buf, clear_idle, World.reading,
            World.pfd, hrp, hev_pollable_fd_write_async, c2] at hop
          obtain ⟨hok, hcb, hb1⟩ := J7 op (by simpa [World.reading, World.pfd, hrp] using hop)
          have hne := buffer0_ne_buffer1 B v hacc buffer op.buffer h0 hb1
          simp [op_ok, World.buf] at hok
          simp [op_ok, hev_socks5_session_remote_write, World.set_buf, clear_idle,
            World.buf, List.getElem?_set, hne, hok, hcb, hb1]
      · intro op hop
        cases hrp : v.self.remote_pfd with
        | none =>
          simp [hev_socks5_session_remote_write, World.set_buf, clear_idle, World.writing,
            World.pfd, hrp] at hop
        | some q =>
          simp [hev_socks5_session_remote_write, World.set_buf, clear_idle, World.writing,
            World.pfd, hrp, hev_pollable_fd_write_async, c2, World.buf, hs] at hop
          subst hop
          simp [op_ok, hev_socks5_session_remote_write, World.set_buf, clear_idle,
            World.buf, hs, h0]
          omega
      · simp [connect_outstanding, query_outstanding, hev_socks5_session_remote_write,
          World.set_buf, clear_idle]
  next c2 =>
    apply error_free0_destroy_inv B buffer _ _
      (by simpa [clear_idle, hev_socks5_session_remote_write, World.set_buf] using h0)
    refine accounted_frame B v _ hacc ?_ ?_ ?_ ?_ ?_ <;>
      simp [hev_socks5_session_remote_write, World.set_buf, clear_idle, new_events,
        Event.in_bounds, Event.is_teardown, Event.is_pool, World.buf, hs]
    omega

theorem write_remote_data_handler_inv (M B : Nat) (hBM : B ≤ M) (env : Env) (size : Int)
    (buffer : Nat)
    (v : World) (hf : v.freed = false) (hacc : accounted M v) (hops : ops_inv M v)
    (h0 : v.self.buffer0 = some buffer)
    (hr : v.self.client_pfd.reading = none) (hrw : v.writing PFD.remote = none)
    (hwc : ∀ op2, v.self.client_pfd.writing = some op2 →
      op2.callback = Callback.write_client_data_handler)
    (hbound : (v.buf buffer).offset + (v.buf buffer).length ≤ M) :
    session_inv M (write_remote_data_handler B env size buffer v) := by
  have hlt := buffer0_lt M v hacc buffer h0
  have hs : ∀ b : HevBuffer, ((v.heap.set buffer b)[buffer]?).getD default = b := by
    intro b
    simp [List.getElem?_set, hlt]
  simp [World.buf] at hbound
  obtain ⟨-, J6, J7, -, -⟩ := hops
  have K6 : ∀ op, v.self.client_pfd.writing = some op →
      op.buffer ≠ buffer ∧ op_ok M v op ∧
      op.callback = Callback.write_client_data_handler ∧
      v.self.buffer1 = some op.buffer ∧ v.reading PFD.remote = none := by
    intro op hop
    obtain ⟨hok, hbr⟩ := J6 op hop
    have hcb := hwc op hop
    rcases hbr with ⟨-, hb1, hrd⟩ | ⟨hcb2, -⟩
    · exact ⟨(buffer0_ne_buffer1 M v hacc buffer op.buffer h0 hb1).symm, hok, hcb, hb1, hrd⟩
    · rcases hcb2 with ⟨h, -⟩ | h <;> simp [hcb] at h
  have K7 : ∀ op, v.reading PFD.remote = some op →
      op.buffer ≠ buffer ∧ op_ok M v op ∧
      op.callback = Callback.read_remote_data_handler ∧ v.self.buffer1 = some op.buffer := by
    intro op hop
    obtain ⟨hok, hcb, hb1⟩ := J7 op hop
    exact ⟨(buffer0_ne_buffer1 M v hacc buffer op.buffer h0 hb1).symm, hok, hcb, hb1⟩
  unfold write_remote_data_handler
  simp only []
  split
  next c1 =>
    apply error_free0_destroy_inv M buffer _ _ (by simpa [clear_idle] using h0)
    refine accounted_frame M v _ hacc ?_ ?_ ?_ ?_ ?_ <;> simp [clear_idle, new_events]
  next c1 =>
  split
  next c2 =>
    simp [World.buf, clear_idle] at c2
    split
    next c3 =>
      simp [hev_socks5_session_remote_write] at c3
      apply session_inv_alive
      · simp [hev_socks5_session_remote_write, World.set_buf, clear_idle, hf]
      · refine accounted_frame M v _ hacc ?_ ?_ ?_ ?_ ?_ <;>
          simp [hev_socks5_session_remote_write, World.set_buf, clear_idle, new_events,
            Event.in_bounds, hBM, Event.is_teardown, Event.is_pool, World.buf, hs]
        omega
      · refine ⟨?_, ?_, ?_, ?_, ?_⟩
        · intro op hop
          simp [hev_socks5_session_remote_write, World.set_buf, clear_idle, hr] at hop
        · intro op hop
          simp [hev_socks5_session_remote_write, World.set_buf, clear_idle] at hop
          obtain ⟨hne, hok, hcb, hb1, hrd⟩ := K6 op hop
          simp [op_ok, hBM, World.buf] at hok
          simp [World.reading, World.pfd] at hrd
          cases hrp : v.self.remote_pfd <;>
            simp [hrp] at hrd <;>
            simp [op_ok, hBM, hev_socks5_session_remote_write, World.set_buf, clear_idle,
              World.buf, List.getElem?_set, hne.symm, hok, hcb, hb1, hrd, hrp, World.reading,
              World.pfd, hev_pollable_fd_write_async, c3]
        · intro op hop
          cases hrp : v.self.remote_pfd with
          | none =>
            simp [hev_socks5_session_remote_write, World.set_buf, clear_idle, World.reading,
              World.pfd, hrp] at hop
          | some q =>
            simp [hev_socks5_session_remote_write, World.set_buf, clear_idle, World.reading,
              World.pfd, hrp, hev_pollable_fd_write_async, c3] at hop
            obtain ⟨hne, hok, hcb, hb1⟩ :=
              K7 op (by simpa [World.reading, World.pfd, hrp] using hop)
            simp [op_ok, hBM, World.buf] at hok
            simp [op_ok, hBM, hev_socks5_session_remote_write, World.set_buf, clear_idle,
              World.buf, List.getElem?_set, hne.symm, hok, hcb, hb1]
        · intro op hop
          cases hrp : v.self.remote_pfd with
          | none =>
            simp [hev_socks5_session_remote_write, World.set_buf, clear_idle, World.writing,
              World.pfd, hrp] at hop
          | some q =>
            simp [hev_socks5_session_remote_write, World.set_buf, clear_idle, World.writing,
              World.pfd, hrp, hev_pollable_fd_write_async, c3, World.buf, hs] at hop
            subst hop
            simp [op_ok, hBM, hev_socks5_session_remote_write, World.set_buf, clear_idle,
              World.buf, hs, h0]
            omega
        · simp [connect_outstanding, query_outstanding, hev_socks5_session_remote_write,
            World.set_buf, clear_idle]
    next c3 =>
      apply error_free0_destroy_inv M buffer _ _
        (by simpa [clear_idle, hev_socks5_session_remote_write, World.set_buf] using h0)
      refine accounted_frame M v _ hacc ?_ ?_ ?_ ?_ ?_ <;>
        simp [hev_socks5_session_remote_write, World.set_buf, clear_idle, new_events,
          Event.in_bounds, hBM, Event.is_teardown, Event.is_pool, World.buf, hs]
      omega
  next c2 =>
  split
  next c4 =>
    simp [hev_socks5_session_client_read] at c4
    apply session_inv_alive
    · simp [hev_socks5_session_client_read, World.set_buf, clear_idle, hf]
    · refine accounted_frame M v _ hacc ?_ ?_ ?_ ?_ ?_ <;>
        simp [hev_socks5_session_client_read, World.set_buf, clear_idle, new_events,
          Event.in_bounds, hBM, Event.is_teardown, Event.is_pool, World.buf, hs]
    · refine ⟨?_, ?_, ?_, ?_, ?_⟩
      · intro op hop
        simp [hev_socks5_session_client_read, World.set_buf, clear_idle,
          hev_pollable_fd_read_async, c4, World.buf, hs] at hop
        subst hop
        simp [World.writing, World.pfd] at hrw
        simp [op_ok, hBM, hev_socks5_session_client_read, World.set_buf, clear_idle,
          World.buf, hs, h0, World.writing, World.pfd, hrw, hev_pollable_fd_read_async, c4]
        exact hwc
      · intro op hop
        simp [hev_socks5_session_client_read, World.set_buf, clear_idle,
          hev_pollable_fd_read_async, c4] at hop
        obtain ⟨hne, hok, hcb, hb1, hrd⟩ := K6 op hop
        simp [op_ok, hBM, World.buf] at hok
        simp [World.reading, World.pfd] at hrd
        simp [op_ok, hBM, hev_socks5_session_client_read, World.set_buf, clear_idle,
          World.buf, List.getElem?_set, hne.symm, hok, hcb, hb1, hrd, World.reading,
          World.pfd]
      · intro op hop
        simp [hev_socks5_session_client_read, World.set_buf, clear_idle, World.reading,
          World.pfd] at hop
        obtain ⟨hne, hok, hcb, hb1⟩ :=
          K7 op (by simpa [World.reading, World.pfd] using hop)
        simp [op_ok, hBM, World.buf] at hok
        simp [op_ok, hBM, hev_socks5_session_client_read, World.set_buf, clear_idle,
          World.buf, List.getElem?_set, hne.symm, hok, hcb, hb1]
      · intro op hop
        simp [World.writing, World.pfd] at hrw
        simp [hev_socks5_session_client_read, World.set_buf, clear_idle, World.writing,
          World.pfd, hrw] at hop
      · simp [connect_outstanding, query_outstanding, hev_socks5_session_client_read,
          World.set_buf, clear_idle]
  next c4 =>
    apply error_free0_destroy_inv M buffer _ _
      (by simpa [clear_idle, hev_socks5_session_client_read, World.set_buf] using h0)
    refine accounted_frame M v _ hacc ?_ ?_ ?_ ?_ ?_ <;>
      simp [hev_socks5_session_client_read, World.set_buf, clear_idle, new_events,
        Event.in_bounds, hBM, Event.is_teardown, Event.is_pool, World.buf, hs]

theorem read_remote_data_handler_inv (B : Nat) (env : Env) (size : Int) (buffer : Nat)
    (v : World) (hf : v.freed = false) (hacc : accounted B v) (hops : ops_inv B v)
    (h1 : v.self.buffer1 = some buffer)
    (hw : v.self.client_pfd.writing = none) (hrr : v.reading PFD.remote = none)
    (hbound : (v.buf buffer).offset + (v.buf buffer).length ≤ B)
    (hsz : size ≤ ((v.buf buffer).length : Int)) :
    session_inv B (read_remote_data_handler env size buffer v) := by
  have hlt := buffer1_lt B v hacc buffer h1
  have hs : ∀ b : HevBuffer, ((v.heap.set buffer b)[buffer]?).getD default = b := by
    intro b
    simp [List.getElem?_set, hlt]
  simp [World.buf] at hbound hsz
  obtain ⟨J5, -, -, J8, -⟩ := hops
  have K5 : ∀ op, v.self.client_pfd.reading = some op →
      op.buffer ≠ buffer ∧ op_ok B v op ∧ v.self.buffer0 = some op.buffer ∧
      v.writing PFD.remote = none ∧ op.callback = Callback.read_client_data_handler := by
    intro op hop
    obtain ⟨hok, hb0, hrw, hbr⟩ := J5 op hop
    rcases hbr with ⟨hcb, -⟩ | ⟨-, hb1, -⟩
    · exact ⟨buffer0_ne_buffer1 B v hacc op.buffer buffer hb0 h1, hok, hb0, hrw, hcb⟩
    · simp [h1] at hb1
  have K8 : ∀ op, v.writing PFD.remote = some op →
      op.buffer ≠ buffer ∧ op_ok B v op ∧
      op.callback = Callback.write_remote_data_handler ∧ v.self.buffer0 = some op.buffer := by
    intro op hop
    obtain ⟨hok, hcb, hb0⟩ := J8 op hop
    exact ⟨buffer0_ne_buffer1 B v hacc op.buffer buffer hb0 h1, hok, hcb, hb0⟩
  unfold read_remote_data_handler
  simp only []
  split
  next c1 =>
    apply session_inv_alive
    · simp [error_free1, set_buffer1, hev_buffer_list_free, World.emit, clear_idle, hf]
    · exact accounted_free1 B buffer _ (accounted_clear_idle B v hacc)
        (by simpa [clear_idle] using h1)
    · refine ⟨?_, ?_, ?_, ?_, ?_⟩
      · intro op hop
        simp [error_free1, set_buffer1, hev_buffer_list_free, World.emit, clear_idle] at hop
        obtain ⟨hne, hok, hb0, hrw, hcb⟩ := K5 op hop
        simp [op_ok, World.buf] at hok
        simp [World.writing, World.pfd] at hrw
        simp [op_ok, error_free1, set_buffer1, hev_buffer_list_free, World.emit, clear_idle,
          World.buf, hok, hb0, hrw, hcb, hw, World.writing, World.pfd]
      · intro op hop
        simp [error_free1, set_buffer1, hev_buffer_list_free, World.emit, clear_idle, hw]
          at hop
      · intro op hop
        simp [World.reading, World.pfd] at hrr
        simp [error_free1, set_buffer1, hev_buffer_list_free, World.emit, clear_idle,
          World.reading, World.pfd, hrr] at hop
      · intro op hop
        simp [error_free1, set_buffer1, hev_buffer_list_free, World.emit, clear_idle,
          World.writing, World.pfd] at hop
        obtain ⟨hne, hok, hcb, hb0⟩ := K8 op (by simpa [World.writing, World.pfd] using hop)
        simp [op_ok, World.buf] at hok
        simp [op_ok, error_free1, set_buffer1, hev_buffer_list_free, World.emit, clear_idle,
          World.buf, hok, hcb, hb0]
      · simp [connect_outstanding, query_outstanding, error_free1, set_buffer1,
          hev_buffer_list_free, World.emit, clear_idle]
  next c1 =>
  split
  next c2 =>
    simp [hev_socks5_session_client_write] at c2
    apply session_inv_alive
    · simp [hev_socks5_session_client_write, World.set_buf, clear_idle, hf]
    · refine accounted_frame B v _ hacc ?_ ?_ ?_ ?_ ?_ <;>
        simp [hev_socks5_session_client_write, World.set_buf, clear_idle, new_events,
          Event.in_bounds, Event.is_teardown, Event.is_pool, World.buf, hs]
      omega
    · refine ⟨?_, ?_, ?_, ?_, ?_⟩
      · intro op hop
        simp [hev_socks5_session_client_write, World.set_buf, clear_idle,
          hev_pollable_fd_write_async, c2] at hop
        obtain ⟨hne, hok, hb0, hrw, hcb⟩ := K5 op hop
        simp [op_ok, World.buf] at hok
        simp [World.writing, World.pfd] at hrw
        simp [op_ok, hev_socks5_session_client_write, World.set_buf, clear_idle,
          World.buf, List.getElem?_set, hne.symm, hok, hb0, hrw, hcb, World.writing,
          World.pfd, hev_pollable_fd_write_async, c2]
      · intro op hop
        simp [hev_socks5_session_client_write, World.set_buf, clear_idle,
          hev_pollable_fd_write_async, c2, World.buf, hs] at hop
        subst hop
        simp [World.reading, World.pfd] at hrr
        simp [op_ok, hev_socks5_session_client_write, World.set_buf, clear_idle,
          World.buf, hs, h1, World.reading, World.pfd, hrr]
        omega
      · intro op hop
        simp [World.reading, World.pfd] at hrr
        simp [hev_socks5_session_client_write, World.set_buf, clear_idle, World.reading,
          World.pfd, hrr] at hop
      · intro op hop
        simp [hev_socks5_session_client_write, World.set_buf, clear_idle, World.writing,
          World.pfd] at hop
        obtain ⟨hne, hok, hcb, hb0⟩ := K8 op (by simpa [World.writing, World.pfd] using hop)
        simp [op_ok, World.buf] at hok
        simp [op_ok, hev_socks5_session_client_write, World.set_buf, clear_idle,
          World.buf, List.getElem?_set, hne.symm, hok, hcb, hb0]
      · simp [connect_outstanding, query_outstanding, hev_socks5_session_client_write,
          World.set_buf, clear_idle]
  next c2 =>
    simp [hev_socks5_session_client_write] at c2
    apply session_inv_alive
    · simp [error_free1, set_buffer1, hev_buffer_list_free, World.emit,
        hev_socks5_session_client_write, World.set_buf, clear_idle, hf]
    · apply accounted_free1
      · refine accounted_frame B v _ hacc ?_ ?_ ?_ ?_ ?_ <;>
          simp [hev_socks5_session_client_write, World.set_buf, clear_idle, new_events,
            Event.in_bounds, Event.is_teardown, Event.is_pool, World.buf, hs]
        omega
      · simpa [hev_socks5_session_client_write, World.set_buf, clear_idle] using h1
    · refine ⟨?_, ?_, ?_, ?_, ?_⟩
      · intro op hop
        simp [error_free1, set_buffer1, hev_buffer_list_free, World.emit,
          hev_socks5_session_client_write, World.set_buf, clear_idle,
          hev_pollable_fd_write_async, c2] at hop
        obtain ⟨hne, hok, hb0, hrw, hcb⟩ := K5 op hop
        simp [op_ok, World.buf] at hok
        simp [World.writing, World.pfd] at hrw
        simp [op_ok, error_free1, set_buffer1, hev_buffer_list_free, World.emit,
          hev_socks5_session_client_write, World.set_buf, clear_idle,
          World.buf, List.getElem?_set, hne.symm, hok, hb0, hrw, hcb, hw, World.writing,
          World.pfd, hev_pollable_fd_write_async, c2]
      · intro op hop
        simp [error_free1, set_buffer1, hev_buffer_list_free, World.emit,
          hev_socks5_session_client_write, World.set_buf, clear_idle,
          hev_pollable_fd_write_async, c2, hw] at hop
      · intro op hop
        simp [World.reading, World.pfd] at hrr
        simp [error_free1, set_buffer1, hev_buffer_list_free, World.emit,
          hev_socks5_session_client_write, World.set_buf, clear_idle, World.reading,
          World.pfd, hrr] at hop
      · intro op hop
        simp [error_free1, set_buffer1, hev_buffer_list_free, World.emit,
          hev_socks5_session_client_write, World.set_buf, clear_idle, World.writing,
          World.pfd] at hop
        obtain ⟨hne, hok, hcb, hb0⟩ := K8 op (by simpa [World.writing, World.pfd] using hop)
        simp [op_ok, World.buf] at hok
        simp [op_ok, error_free1, set_buffer1, hev_buffer_list_free, World.emit,
          hev_socks5_session_client_write, World.set_buf, clear_idle,
          World.buf, List.getElem?_set, hne.symm, hok, hcb, hb0]
      · simp [connect_outstanding, query_outstanding, error_free1, set_buffer1,
          hev_buffer_list_free, World.emit, hev_socks5_session_client_write, World.set_buf,
          clear_idle]

theorem write_client_data_handler_inv (M B : Nat) (hBM : B ≤ M) (env : Env) (size : Int)
    (buffer : Nat)
    (v : World) (hf : v.freed = false) (hacc : accounted M v) (hops : ops_inv M v)
    (h1 : v.self.buffer1 = some buffer)
    (hw : v.self.client_pfd.writing = none) (hrr : v.reading PFD.remote = none)
    (hbound : (v.buf buffer).offset + (v.buf buffer).length ≤ M) :
    session_inv M (write_client_data_handler B env size buffer v) := by
  have hlt := buffer1_lt M v hacc buffer h1
  have hs : ∀ b : HevBuffer, ((v.heap.set buffer b)[buffer]?).getD default = b := by
    intro b
    simp [List.getElem?_set, hlt]
  simp [World.buf] at hbound
  obtain ⟨J5, -, -, J8, -⟩ := hops
  have K5 : ∀ op, v.self.client_pfd.reading = some op →
      op.buffer ≠ buffer ∧ op_ok M v op ∧ v.self.buffer0 = some op.buffer ∧
      v.writing PFD.remote = none ∧ op.callback = Callback.read_client_data_handler := by
    intro op hop
    obtain ⟨hok, hb0, hrw, hbr⟩ := J5 op hop
    rcases hbr with ⟨hcb, -⟩ | ⟨-, hb1, -⟩
    · exact ⟨buffer0_ne_buffer1 M v hacc op.buffer buffer hb0 h1, hok, hb0, hrw, hcb⟩
    · simp [h1] at hb1
  have K8 : ∀ op, v.writing PFD.remote = some op →
      op.buffer ≠ buffer ∧ op_ok M v op ∧
      op.callback = Callback.write_remote_data_handler ∧ v.self.buffer0 = some op.buffer := by
    intro op hop
    obtain ⟨hok, hcb, hb0⟩ := J8 op hop
    exact ⟨buffer0_ne_buffer1 M v hacc op.buffer buffer hb0 h1, hok, hcb, hb0⟩
  unfold write_client_data_handler
  simp only []
  split
  next c1 =>
    apply session_inv_alive
    · simp [error_free1, set_buffer1, hev_buffer_list_free, World.emit, clear_idle, hf]
    · exact accounted_free1 M buffer _ (accounted_clear_idle M v hacc)
        (by simpa [clear_idle] using h1)
    · refine ⟨?_, ?_, ?_, ?_, ?_⟩
      · intro op hop
        simp [error_free1, set_buffer1, hev_buffer_list_free, World.emit, clear_idle,
          World.reading, World.pfd] at hop
        obtain ⟨hne, hok, hb0, hrw, hcb⟩ := K5 op hop
        simp [op_ok, hBM, World.buf] at hok
        simp [World.writing, World.pfd] at hrw
        cases hrp : v.self.remote_pfd <;>
          simp [hrp] at hrw <;>
          simp [op_ok, hBM, error_free1, set_buffer1, hev_buffer_list_free, World.emit, clear_idle,
            World.buf, List.getElem?_set, hne.symm, hok, hb0, hrw, hcb, hw, World.writing,
            World.pfd, hrp]
      · intro op hop
        simp [error_free1, set_buffer1, hev_buffer_list_free, World.emit, clear_idle, hw] at hop
      · intro op hop
        simp [World.reading, World.pfd] at hrr
        cases hrp : v.self.remote_pfd <;>
          simp [hrp] at hrr <;>
          simp [error_free1, set_buffer1, hev_buffer_list_free, World.emit, clear_idle,
            World.reading, World.pfd, hrr, hrp] at hop
      · intro op hop
        have hop2 : v.writing PFD.remote = some op := by
          cases hrp : v.self.remote_pfd <;>
            simp [error_free1, set_buffer1, hev_buffer_list_free, World.emit, clear_idle,
              World.writing, World.pfd, hrp] at hop ⊢
          exact hop
        obtain ⟨hne, hok, hcb, hb0⟩ := K8 op hop2
        simp [op_ok, hBM, World.buf] at hok
        simp [op_ok, hBM, error_free1, set_buffer1, hev_buffer_list_free, World.emit, clear_idle,
          World.buf, List.getElem?_set, hne.symm, hok, hcb, hb0]
      · simp [connect_outstanding, query_outstanding, error_free1, set_buffer1,
        hev_buffer_list_free, World.emit, clear_idle]
  next c1 =>
  split
  next c2 =>
    simp [World.buf, clear_idle] at c2
    split
    next c3 =>
      simp [hev_socks5_session_client_write] at c3
      apply session_inv_alive
      · simp [hev_socks5_session_client_write, World.set_buf, clear_idle, hf]
      · refine accounted_frame M v _ hacc ?_ ?_ ?_ ?_ ?_ <;>
          simp [hev_socks5_session_client_write, World.set_buf, clear_idle, new_events,
            Event.in_bounds, hBM, Event.is_teardown, Event.is_pool, World.buf, hs]
        omega
      · refine ⟨?_, ?_, ?_, ?_, ?_⟩
        · intro op hop
          simp [hev_socks5_session_client_write, World.set_buf, clear_idle,
            hev_pollable_fd_write_async, c3] at hop
          obtain ⟨hne, hok, hb0, hrw, hcb⟩ := K5 op hop
          simp [op_ok, hBM, World.buf] at hok
          simp [World.writing, World.pfd] at hrw
          simp [op_ok, hBM, hev_socks5_session_client_write, World.set_buf, clear_idle,
            World.buf, List.getElem?_set, hne.symm, hok, hb0, hrw, hcb, World.writing,
            World.pfd, hev_pollable_fd_write_async, c3]
        · intro op hop
          simp [hev_socks5_session_client_write, World.set_buf, clear_idle,
            hev_pollable_fd_write_async, c3, World.buf, hs] at hop
          subst hop
          simp [World.reading, World.pfd] at hrr
          simp [op_ok, hBM, hev_socks5_session_client_write, World.set_buf, clear_idle,
            World.buf, hs, h1, World.reading, World.pfd, hrr]
          omega
        · intro op hop
          simp [World.reading, World.pfd] at hrr
          simp [hev_socks5_session_client_write, World.set_buf, clear_idle, World.reading,
            World.pfd, hrr] at hop
        · intro op hop
          simp [hev_socks5_session_client_write, World.set_buf, clear_idle, World.writing,
            World.pfd] at hop
          obtain ⟨hne, hok, hcb, hb0⟩ :=
            K8 op (by simpa [World.writing, World.pfd] using hop)
          simp [op_ok, hBM, World.buf] at hok
          simp [op_ok, hBM, hev_socks5_session_client_write, World.set_buf, clear_idle,
            World.buf, List.getElem?_set, hne.symm, hok, hcb, hb0]
        · simp [connect_outstanding, query_outstanding, hev_socks5_session_client_write,
            World.set_buf, clear_idle]
    next c3 =>
      simp [hev_socks5_session_client_write] at c3
      apply session_inv_alive
      · simp [error_free1, set_buffer1, hev_buffer_list_free, World.emit,
        hev_socks5_session_client_write, World.set_buf, clear_idle, hf]
      · apply accounted_free1
        · refine accounted_frame M v _ hacc ?_ ?_ ?_ ?_ ?_ <;>
            simp [hev_socks5_session_client_write, World.set_buf, clear_idle, new_events,
              Event.in_bounds, hBM, Event.is_teardown, Event.is_pool, World.buf, hs]
          omega
        · simpa [hev_socks5_session_client_write, World.set_buf, clear_idle] using h1
      · refine ⟨?_, ?_, ?_, ?_, ?_⟩
        · intro op hop
          simp [error_free1, set_buffer1, hev_buffer_list_free, World.emit,
            hev_socks5_session_client_write, World.set_buf, clear_idle,
            hev_pollable_fd_write_async, hev_pollable_fd_read_async, c3, World.reading,
            World.pfd] at hop
          obtain ⟨hne, hok, hb0, hrw, hcb⟩ := K5 op hop
          simp [op_ok, hBM, World.buf] at hok
          simp [World.writing, World.pfd] at hrw
          cases hrp : v.self.remote_pfd <;>
            simp [hrp] at hrw <;>
            simp [op_ok, hBM, error_free1, set_buffer1, hev_buffer_list_free, World.emit,
              hev_socks5_session_client_write, World.set_buf, clear_idle,
              World.buf, List.getElem?_set, hne.symm, hok, hb0, hrw, hcb, hw, World.writing,
              World.pfd, hev_pollable_fd_write_async, hev_pollable_fd_read_async, c3, hrp]
        · intro op hop
          simp [error_free1, set_buffer1, hev_buffer_list_free, World.emit,
            hev_socks5_session_client_write, World.set_buf, clear_idle,
            hev_pollable_fd_write_async, hev_pollable_fd_read_async, c3, hw] at hop
        · intro op hop
          simp [World.reading, World.pfd] at hrr
          cases hrp : v.self.remote_pfd <;>
            simp [hrp] at hrr <;>
            simp [error_free1, set_buffer1, hev_buffer_list_free, World.emit,
              hev_socks5_session_client_write, World.set_buf, clear_idle, World.reading, World.pfd,
              hev_pollable_fd_write_async, hev_pollable_fd_read_async, c3, hrr, hrp] at hop
        · intro op hop
          have hop2 : v.writing PFD.remote = some op := by
            cases hrp : v.self.remote_pfd <;>
              simp [error_free1, set_buffer1, hev_buffer_list_free, World.emit,
                hev_socks5_session_client_write, World.set_buf, clear_idle, World.writing,
                World.pfd, hev_pollable_fd_write_async, hev_pollable_fd_read_async, c3,
                hrp] at hop ⊢
            exact hop
          obtain ⟨hne, hok, hcb, hb0⟩ := K8 op hop2
          simp [op_ok, hBM, World.buf] at hok
          simp [op_ok, hBM, error_free1, set_buffer1, hev_buffer_list_free, World.emit,
            hev_socks5_session_client_write, World.set_buf, clear_idle,
            World.buf, List.getElem?_set, hne.symm, hok, hcb, hb0]
        · simp [connect_outstanding, query_outstanding, error_free1, set_buffer1,
          hev_buffer_list_free, World.emit, hev_socks5_session_client_write, World.set_buf,
          clear_idle]
  next c2 =>
  split
  next c4 =>
    simp [hev_socks5_session_remote_read] at c4
    apply session_inv_alive
    · simp [hev_socks5_session_remote_read, World.set_buf, clear_idle, hf]
    · refine accounted_frame M v _ hacc ?_ ?_ ?_ ?_ ?_ <;>
        simp [hev_socks5_session_remote_read, World.set_buf, clear_idle, new_events,
          Event.in_bounds, hBM, Event.is_teardown, Event.is_pool, World.buf, hs]
    · refine ⟨?_, ?_, ?_, ?_, ?_⟩
      · intro op hop
        simp [hev_socks5_session_remote_read, World.set_buf, clear_idle] at hop
        obtain ⟨hne, hok, hb0, hrw, hcb⟩ := K5 op hop
        simp [op_ok, hBM, World.buf] at hok
        simp [World.writing, World.pfd] at hrw
        cases hrp : v.self.remote_pfd <;>
          simp [hrp] at hrw <;>
          simp [op_ok, hBM, hev_socks5_session_remote_read, World.set_buf, clear_idle,
            World.buf, List.getElem?_set, hne.symm, hok, hb0, hrw, hcb, hw, World.writing,
            World.pfd, hev_pollable_fd_read_async, c4, hrp]
      · intro op hop
        simp [hev_socks5_session_remote_read, World.set_buf, clear_idle, hw] at hop
      · intro op hop
        cases hrp : v.self.remote_pfd with
        | none =>
          simp [hev_socks5_session_remote_read, World.set_buf, clear_idle, World.reading,
            World.pfd, hrp] at hop
        | some q =>
          simp [hev_socks5_session_remote_read, World.set_buf, clear_idle, World.reading,
            World.pfd, hrp, hev_pollable_fd_read_async, c4, World.buf, hs] at hop
          subst hop
          simp [op_ok, hBM, hev_socks5_session_remote_read, World.set_buf, clear_idle,
            World.buf, hs, h1]
      · intro op hop
        have hop2 : v.writing PFD.remote = some op := by
          cases hrp : v.self.remote_pfd <;>
            simp [hev_socks5_session_remote_read, World.set_buf, clear_idle, World.writing,
              World.pfd, hev_pollable_fd_read_async, c4, hrp] at hop ⊢
          exact hop
        obtain ⟨hne, hok, hcb, hb0⟩ := K8 op hop2
        simp [op_ok, hBM, World.buf] at hok
        simp [op_ok, hBM, hev_socks5_session_remote_read, World.set_buf, clear_idle,
          World.buf, List.getElem?_set, hne.symm, hok, hcb, hb0]
      · simp [connect_outstanding, query_outstanding, hev_socks5_session_remote_read,
          World.set_buf, clear_idle]
  next c4 =>
    simp [hev_socks5_session_remote_read] at c4
    apply session_inv_alive
    · simp [error_free1, set_buffer1, hev_buffer_list_free, World.emit,
      hev_socks5_session_remote_read, World.set_buf, clear_idle, hf]
    · apply accounted_free1
      · refine accounted_frame M v _ hacc ?_ ?_ ?_ ?_ ?_ <;>
          simp [hev_socks5_session_remote_read, World.set_buf, clear_idle, new_events,
            Event.in_bounds, hBM, Event.is_teardown, Event.is_pool, World.buf, hs]
      · simpa [hev_socks5_session_remote_read, World.set_buf, clear_idle] using h1
    · refine ⟨?_, ?_, ?_, ?_, ?_⟩
      · intro op hop
        simp [error_free1, set_buffer1, hev_buffer_list_free, World.emit,
          hev_socks5_session_remote_read, World.set_buf, clear_idle, hev_pollable_fd_write_async,
          hev_pollable_fd_read_async, c4, World.reading, World.pfd] at hop
        obtain ⟨hne, hok, hb0, hrw, hcb⟩ := K5 op hop
        simp [op_ok, hBM, World.buf] at hok
        simp [World.writing, World.pfd] at hrw
        cases hrp : v.self.remote_pfd <;>
          simp [hrp] at hrw <;>
          simp [op_ok, hBM, error_free1, set_buffer1, hev_buffer_list_free, World.emit,
            hev_socks5_session_remote_read, World.set_buf, clear_idle,
            World.buf, List.getElem?_set, hne.symm, hok, hb0, hrw, hcb, hw, World.writing,
            World.pfd, hev_pollable_fd_write_async, hev_pollable_fd_read_async, c4, hrp]
      · intro op hop
        simp [error_free1, set_buffer1, hev_buffer_list_free, World.emit,
          hev_socks5_session_remote_read, World.set_buf, clear_idle, hev_pollable_fd_write_async,
          hev_pollable_fd_read_async, c4, hw] at hop
      · intro op hop
        simp [World.reading, World.pfd] at hrr
        cases hrp : v.self.remote_pfd <;>
          simp [hrp] at hrr <;>
          simp [error_free1, set_buffer1, hev_buffer_list_free, World.emit,
            hev_socks5_session_remote_read, World.set_buf, clear_idle, World.reading, World.pfd,
            hev_pollable_fd_write_async, hev_pollable_fd_read_async, c4, hrr, hrp] at hop
      · intro op hop
        have hop2 : v.writing PFD.remote = some op := by
          cases hrp : v.self.remote_pfd <;>
            simp [error_free1, set_buffer1, hev_buffer_list_free, World.emit,
              hev_socks5_session_remote_read, World.set_buf, clear_idle, World.writing, World.pfd,
              hev_pollable_fd_write_async, hev_pollable_fd_read_async, c4, hrp] at hop ⊢
          exact hop
        obtain ⟨hne, hok, hcb, hb0⟩ := K8 op hop2
        simp [op_ok, hBM, World.buf] at hok
        simp [op_ok, hBM, error_free1, set_buffer1, hev_buffer_list_free, World.emit,
          hev_socks5_session_remote_read, World.set_buf, clear_idle,
          World.buf, List.getElem?_set, hne.symm, hok, hcb, hb0]
      · simp [connect_outstanding, query_outstanding, error_free1, set_buffer1,
        hev_buffer_list_free, World.emit, hev_socks5_session_remote_read, World.set_buf, clear_idle]

theorem read_client_data_handler_fresh (env : Env) (size : Int) (buffer : Nat) (v : World)
    (hrw : v.writing PFD.remote = none) :
    fresh_submits v (read_client_data_handler env size buffer v) := by
  unfold read_client_data_handler
  simp only []
  split
  next c1 =>
    exact fresh_error_free0_destroy _ _ _ (by simp [clear_idle]) (fresh_clear_idle v)
  next c1 =>
  split
  next c2 =>
    simp [hev_socks5_session_remote_write] at c2
    intro which
    cases hrp : v.self.remote_pfd <;> cases which <;>
      (try simp [hrp, World.reading, World.writing, World.pfd] at hrw) <;>
      simp [hev_socks5_session_remote_write, World.set_buf, clear_idle, hrp, c2, hrw,
        new_events, reads_submitted, writes_submitted, Event.submits_read,
        Event.submits_write, submits_read_read, submits_write_write, World.reading,
        World.writing, World.pfd, hev_pollable_fd_read_async, hev_pollable_fd_write_async,
        ite_le_one]
  next c2 =>
    simp [hev_socks5_session_remote_write] at c2
    apply fresh_error_free0_destroy
    · simp [hev_socks5_session_remote_write, World.set_buf, clear_idle]
    · intro which
      cases hrp : v.self.remote_pfd <;> cases which <;>
        (try simp [hrp, World.reading, World.writing, World.pfd] at hrw) <;>
        simp [hev_socks5_session_remote_write, World.set_buf, clear_idle, hrp, c2, hrw,
          new_events, reads_submitted, writes_submitted, Event.submits_read,
        Event.submits_write, submits_read_read, submits_write_write, World.reading,
        World.writing, World.pfd, hev_pollable_fd_read_async, hev_pollable_fd_write_async,
        ite_le_one]

theorem write_remote_data_handler_fresh (B : Nat) (env : Env) (size : Int) (buffer : Nat)
    (v : World) (hr : v.self.client_pfd.reading = none) (hrw : v.writing PFD.remote = none) :
    fresh_submits v (write_remote_data_handler B env size buffer v) := by
  unfold write_remote_data_handler
  simp only []
  split
  next c1 =>
    exact fresh_error_free0_destroy _ _ _ (by simp [clear_idle]) (fresh_clear_idle v)
  next c1 =>
  split
  next c2 =>
    split
    next c3 =>
      simp [hev_socks5_session_remote_write] at c3
      intro which
      cases hrp : v.self.remote_pfd <;> cases which <;>
        (try simp [hrp, World.reading, World.writing, World.pfd] at hrw) <;>
        simp [hev_socks5_session_remote_write, World.set_buf, clear_idle, hrp, c3, hrw,
          new_events, reads_submitted, writes_submitted, Event.submits_read,
          Event.submits_write, submits_read_read, submits_write_write, World.reading,
          World.writing, World.pfd, hev_pollable_fd_read_async, hev_pollable_fd_write_async,
          ite_le_one]
    next c3 =>
      simp [hev_socks5_session_remote_write] at c3
      apply fresh_error_free0_destroy
      · simp [hev_socks5_session_remote_write, World.set_buf, clear_idle]
      · intro which
        cases hrp : v.self.remote_pfd <;> cases which <;>
          (try simp [hrp, World.reading, World.writing, World.pfd] at hrw) <;>
          simp [hev_socks5_session_remote_write, World.set_buf, clear_idle, hrp, c3, hrw,
            new_events, reads_submitted, writes_submitted, Event.submits_read,
          Event.submits_write, submits_read_read, submits_write_write, World.reading,
          World.writing, World.pfd, hev_pollable_fd_read_async, hev_pollable_fd_write_async,
          ite_le_one]
  next c2 =>
  split
  next c4 =>
    simp [hev_socks5_session_client_read] at c4
    intro which
    cases hrp : v.self.remote_pfd <;> cases which <;>
      simp [hev_socks5_session_client_read, World.set_buf, clear_idle, hrp, c4, hr,
        new_events, reads_submitted, writes_submitted, Event.submits_read,
        Event.submits_write, submits_read_read, submits_write_write, World.reading,
        World.writing, World.pfd, hev_pollable_fd_read_async, hev_pollable_fd_write_async,
        ite_le_one]
  next c4 =>
    simp [hev_socks5_session_client_read] at c4
    apply fresh_error_free0_destroy
    · simp [hev_socks5_session_client_read, World.set_buf, clear_idle]
    · intro which
      cases hrp : v.self.remote_pfd <;> cases which <;>
        simp [hev_socks5_session_client_read, World.set_buf, clear_idle, hrp, c4, hr,
          new_events, reads_submitted, writes_submitted, Event.submits_read,
        Event.submits_write, submits_read_read, submits_write_write, World.reading,
        World.writing, World.pfd, hev_pollable_fd_read_async, hev_pollable_fd_write_async,
        ite_le_one]

theorem read_remote_data_handler_fresh (env : Env) (size : Int) (buffer : Nat) (v : World)
    (hw : v.self.client_pfd.writing = none) :
    fresh_submits v (read_remote_data_handler env size buffer v) := by
  unfold read_remote_data_handler
  simp only []
  split
  next c1 =>
    exact fresh_free1 _ _ _ (by simp [clear_idle]) (fresh_clear_idle v)
  next c1 =>
  split
  next c2 =>
    simp [hev_socks5_session_client_write] at c2
    intro which
    cases hrp : v.self.remote_pfd <;> cases which <;>
      simp [hev_socks5_session_client_write, World.set_buf, clear_idle, hrp, c2, hw,
        new_events, reads_submitted, writes_submitted, Event.submits_read,
        Event.submits_write, submits_read_read, submits_write_write, World.reading,
        World.writing, World.pfd, hev_pollable_fd_read_async, hev_pollable_fd_write_async,
        ite_le_one]
  next c2 =>
    simp [hev_socks5_session_client_write] at c2
    apply fresh_free1
    · simp [hev_socks5_session_client_write, World.set_buf, clear_idle]
    · intro which
      cases hrp : v.self.remote_pfd <;> cases which <;>
        simp [hev_socks5_session_client_write, World.set_buf, clear_idle, hrp, c2, hw,
          new_events, reads_submitted, writes_submitted, Event.submits_read,
        Event.submits_write, submits_read_read, submits_write_write, World.reading,
        World.writing, World.pfd, hev_pollable_fd_read_async, hev_pollable_fd_write_async,
        ite_le_one]

theorem write_client_data_handler_fresh (B : Nat) (env : Env) (size : Int) (buffer : Nat)
    (v : World) (hw : v.self.client_pfd.writing = none) (hrr : v.reading PFD.remote = none) :
    fresh_submits v (write_client_data_handler B env size buffer v) := by
  unfold write_client_data_handler
  simp only []
  split
  next c1 =>
    exact fresh_free1 _ _ _ (by simp [clear_idle]) (fresh_clear_idle v)
  next c1 =>
  split
  next c2 =>
    split
    next c3 =>
      simp [hev_socks5_session_client_write] at c3
      intro which
      cases hrp : v.self.remote_pfd <;> cases which <;>
        simp [hev_socks5_session_client_write, World.set_buf, clear_idle, hrp, c3, hw,
          new_events, reads_submitted, writes_submitted, Event.submits_read,
          Event.submits_write, submits_read_read, submits_write_write, World.reading,
          World.writing, World.pfd, hev_pollable_fd_read_async, hev_pollable_fd_write_async,
          ite_le_one]
    next c3 =>
      simp [hev_socks5_session_client_write] at c3
      apply fresh_free1
      · simp [hev_socks5_session_client_write, World.set_buf, clear_idle]
      · intro which
        cases hrp : v.self.remote_pfd <;> cases which <;>
          simp [hev_socks5_session_client_write, World.set_buf, clear_idle, hrp, c3, hw,
            new_events, reads_submitted, writes_submitted, Event.submits_read,
          Event.submits_write, submits_read_read, submits_write_write, World.reading,
          World.writing, World.pfd, hev_pollable_fd_read_async, hev_pollable_fd_write_async,
          ite_le_one]
  next c2 =>
  split
  next c4 =>
    simp [hev_socks5_session_remote_read] at c4
    intro which
    cases hrp : v.self.remote_pfd <;> cases which <;>
      (try simp [hrp, World.reading, World.writing, World.pfd] at hrr) <;>
      simp [hev_socks5_session_remote_read, World.set_buf, clear_idle, hrp, c4, hrr,
        new_events, reads_submitted, writes_submitted, Event.submits_read,
        Event.submits_write, submits_read_read, submits_write_write, World.reading,
        World.writing, World.pfd, hev_pollable_fd_read_async, hev_pollable_fd_write_async,
        ite_le_one]
  next c4 =>
    simp [hev_socks5_session_remote_read] at c4
    apply fresh_free1
    · simp [hev_socks5_session_remote_read, World.set_buf, clear_idle]
    · intro which
      cases hrp : v.self.remote_pfd <;> cases which <;>
        (try simp [hrp, World.reading, World.writing, World.pfd] at hrr) <;>
        simp [hev_socks5_session_remote_read, World.set_buf, clear_idle, hrp, c4, hrr,
          new_events, reads_submitted, writes_submitted, Event.submits_read,
        Event.submits_write, submits_read_read, submits_write_write, World.reading,
        World.writing, World.pfd, hev_pollable_fd_read_async, hev_pollable_fd_write_async,
        ite_le_one]

theorem write_res_handler_fresh (B : Nat) (env : Env) (size : Int) (buffer : Nat) (v : World)
    (hr : v.self.client_pfd.reading = none) (hw : v.self.client_pfd.writing = none)
    (hrr : v.reading PFD.remote = none) :
    fresh_submits v (write_res_handler B env size buffer v) := by
  simp only [show write_res_error1 = error_free0_destroy from rfl, write_res_handler,
    write_res_error0]
  split
  next c1 =>
    exact fresh_error_free0_destroy _ _ _ (by simp [clear_idle]) (fresh_clear_idle v)
  next c1 =>
  split
  next c2 =>
    split
    next c3 =>
      simp [hev_socks5_session_client_write] at c3
      intro which
      cases which <;>
        simp [hev_socks5_session_client_write, World.set_buf, clear_idle, c3, hr, hw,
          new_events, reads_submitted, writes_submitted, Event.submits_read,
          Event.submits_write, submits_read_read, submits_write_write, World.reading,
          World.writing, World.pfd, hev_pollable_fd_read_async, hev_pollable_fd_write_async,
          ite_le_one]
    next c3 =>
      simp [hev_socks5_session_client_write] at c3
      apply fresh_error_free0_destroy
      · simp [hev_socks5_session_client_write, World.set_buf, clear_idle]
      · intro which
        cases which <;>
          simp [hev_socks5_session_client_write, World.set_buf, clear_idle, c3, hr, hw,
            new_events, reads_submitted, writes_submitted, Event.submits_read,
            Event.submits_write, submits_read_read, submits_write_write, World.reading,
            World.writing, World.pfd, ite_le_one]
  next c2 =>
  split
  next c4 =>
    simp [hev_socks5_session_client_read] at c4
    cases ha : env.buffer_alloc with
    | none =>
      simp only [hev_buffer_list_alloc, ha]
      apply fresh_destroy
      · simp [hev_socks5_session_client_read, World.set_buf, clear_idle, set_buffer1,
          World.emit]
      · intro which
        cases which <;>
          simp [hev_socks5_session_client_read, World.set_buf, clear_idle, set_buffer1,
            World.emit, c4, hr, hw, new_events, reads_submitted, writes_submitted,
            Event.submits_read, Event.submits_write, submits_read_read, submits_write_write,
            World.reading, World.writing, World.pfd, ite_le_one]
    | some d =>
      simp only [hev_buffer_list_alloc, ha]
      split
      next c5 =>
        simp [hev_socks5_session_remote_read] at c5
        intro which
        cases hrp : v.self.remote_pfd <;> cases which <;>
          (try simp [hrp, World.reading, World.writing, World.pfd] at hrr) <;>
          simp [hev_socks5_session_remote_read, hev_socks5_session_client_read,
            World.set_buf, clear_idle, set_buffer1, c4, c5, hr, hw, hrr, hrp, new_events,
            reads_submitted, writes_submitted, Event.submits_read, Event.submits_write,
            submits_read_read, submits_write_write, World.reading, World.writing, World.pfd,
            ite_le_one]
      next c5 =>
        simp [hev_socks5_session_remote_read] at c5
        apply fresh_error_free0_destroy
        · simp [hev_socks5_session_remote_read, hev_socks5_session_client_read,
            World.set_buf, clear_idle, set_buffer1, hev_buffer_list_free, World.emit]
        · intro which
          cases hrp : v.self.remote_pfd <;> cases which <;>
            (try simp [hrp, World.reading, World.writing, World.pfd] at hrr) <;>
            simp [hev_socks5_session_remote_read, hev_socks5_session_client_read,
              World.set_buf, clear_idle, set_buffer1, hev_buffer_list_free, World.emit, c4,
              c5, hr, hw, hrr, hrp, new_events, reads_submitted, writes_submitted,
              Event.submits_read, Event.submits_write, submits_read_read,
              submits_write_write, World.reading, World.writing, World.pfd, ite_le_one]
  next c4 =>
    simp [hev_socks5_session_client_read] at c4
    apply fresh_error_free0_destroy
    · simp [hev_socks5_session_client_read, World.set_buf, clear_idle]
    · intro which
      cases which <;>
        simp [hev_socks5_session_client_read, World.set_buf, clear_idle, c4, hr, hw,
          new_events, reads_submitted, writes_submitted, Event.submits_read,
          Event.submits_write, submits_read_read, submits_write_write, World.reading,
          World.writing, World.pfd, ite_le_one]

/-! ## Steps and runs -/

/-- The invariant on the operations in flight survives the completion of some of
them: a world with the same log, buffer fields and buffer windows in which every
operation in flight was already in flight. -/
theorem ops_inv_weaken (B : Nat) (w v : World) (h : ops_inv B w)
    (hlog : v.log = w.log) (h0 : v.self.buffer0 = w.self.buffer0)
    (h1 : v.self.buffer1 = w.self.buffer1)
    (hbuf : ∀ q, (v.buf q).offset = (w.buf q).offset ∧ (v.buf q).length = (w.buf q).length)
    (hcr : v.self.client_pfd.reading = w.self.client_pfd.reading ∨
      v.self.client_pfd.reading = none)
    (hcw : v.self.client_pfd.writing = w.self.client_pfd.writing ∨
      v.self.client_pfd.writing = none)
    (hrr : v.reading PFD.remote = w.reading PFD.remote ∨ v.reading PFD.remote = none)
    (hrw : v.writing PFD.remote = w.writing PFD.remote ∨ v.writing PFD.remote = none)
    (hrp : w.self.remote_pfd = none → v.self.remote_pfd = none) : ops_inv B v := by
  obtain ⟨J5, J6, J7, J8, J9⟩ := h
  have hok : ∀ op, op_ok B w op → op_ok B v op := by
    intro op hop
    simpa [op_ok, (hbuf op.buffer).1, (hbuf op.buffer).2] using hop
  have n_cr : w.self.client_pfd.reading = none → v.self.client_pfd.reading = none := by
    intro hn
    rcases hcr with h | h
    · rw [h, hn]
    · exact h
  have n_cw : w.self.client_pfd.writing = none → v.self.client_pfd.writing = none := by
    intro hn
    rcases hcw with h | h
    · rw [h, hn]
    · exact h
  have n_rr : w.reading PFD.remote = none → v.reading PFD.remote = none := by
    intro hn
    rcases hrr with h | h
    · rw [h, hn]
    · exact h
  have n_rw : w.writing PFD.remote = none → v.writing PFD.remote = none := by
    intro hn
    rcases hrw with h | h
    · rw [h, hn]
    · exact h
  have s_cr : ∀ op, v.self.client_pfd.reading = some op →
      w.self.client_pfd.reading = some op := by
    intro op hop
    rcases hcr with h | h
    · rw [← h, hop]
    · rw [h] at hop
      cases hop
  have s_cw : ∀ op, v.self.client_pfd.writing = some op →
      w.self.client_pfd.writing = some op := by
    intro op hop
    rcases hcw with h | h
    · rw [← h, hop]
    · rw [h] at hop
      cases hop
  have s_rr : ∀ op, v.reading PFD.remote = some op → w.reading PFD.remote = some op := by
    intro op hop
    rcases hrr with h | h
    · rw [← h, hop]
    · rw [h] at hop
      cases hop
  have s_rw : ∀ op, v.writing PFD.remote = some op → w.writing PFD.remote = some op := by
    intro op hop
    rcases hrw with h | h
    · rw [← h, hop]
    · rw [h] at hop
      cases hop
  refine ⟨?_, ?_, ?_, ?_, ?_⟩
  · intro op hop
    obtain ⟨a, b, c, d⟩ := J5 op (s_cr op hop)
    refine ⟨hok op a, by rw [h0, b], n_rw c, ?_⟩
    rcases d with ⟨d1, d2⟩ | ⟨d1, d2, d3, d4⟩
    · exact Or.inl ⟨d1, fun op2 h2 => d2 op2 (s_cw op2 h2)⟩
    · exact Or.inr ⟨d1, by rw [h1, d2], n_cw d3, hrp d4⟩
  · intro op hop
    obtain ⟨a, d⟩ := J6 op (s_cw op hop)
    refine ⟨hok op a, ?_⟩
    rcases d with ⟨d1, d2, d3⟩ | ⟨d1, d2, d3, d4, d5, d6⟩
    · exact Or.inl ⟨d1, by rw [h1, d2], n_rr d3⟩
    · refine Or.inr ⟨?_, by rw [h0, d2], by rw [h1, d3], n_cr d4, n_rr d5, n_rw d6⟩
      rcases d1 with ⟨e1, e2⟩ | e1
      · exact Or.inl ⟨e1, hrp e2⟩
      · exact Or.inr e1
  · intro op hop
    obtain ⟨a, b, c⟩ := J7 op (s_rr op hop)
    exact ⟨hok op a, b, by rw [h1, c]⟩
  · intro op hop
    obtain ⟨a, b, c⟩ := J8 op (s_rw op hop)
    exact ⟨hok op a, b, by rw [h0, c]⟩
  · intro ho
    have ho2 : connect_outstanding w = true ∨ query_outstanding w = true := by
      simpa [connect_outstanding, query_outstanding, hlog] using ho
    obtain ⟨a, b, c, d, e⟩ := J9 ho2
    exact ⟨by rw [h0, a], by rw [h1, b], n_cr c, n_cw d, hrp e⟩

theorem sock_reader_facts (b : HevBuffer) (count : Nat) (avail : Option (List Nat)) :
    (sock_reader b count avail).2.offset = b.offset ∧
    (sock_reader b count avail).2.length = b.length ∧
    (sock_reader b count avail).1 ≤ (count : Int) := by
  cases avail with
  | none =>
    simp [sock_reader]
    omega
  | some bytes => simp [sock_reader]

/-- The world a completion callback starts from: the submitted operation is no
longer in flight and a read has filled the buffer. -/
theorem accounted_of_same (B : Nat) (w v : World) (h : accounted B w)
    (hlog : v.log = w.log) (hh : v.heap.length = w.heap.length)
    (h0 : v.self.buffer0 = w.self.buffer0) (h1 : v.self.buffer1 = w.self.buffer1) :
    accounted B v := by
  refine accounted_frame B w v h ?_ ?_ hh h0 h1
  · rw [hlog]
  · simp [new_events, hlog]

/-- Submissions counted from the world a callback starts in are those counted from
the world before the completion. -/
theorem fresh_to_step (w v r : World) (hlog : v.log = w.log) (h : fresh_submits v r) :
    ∀ which,
      reads_submitted which (new_events w r)
        + (if (v.reading which).isSome then 1 else 0) ≤ 1 ∧
      writes_submitted which (new_events w r)
        + (if (v.writing which).isSome then 1 else 0) ≤ 1 := by
  intro which
  have := h which
  simpa [new_events, hlog] using this

theorem buf_set_buf_window (w : World) (p : Nat) (b : HevBuffer)
    (ho : b.offset = (w.buf p).offset) (hl : b.length = (w.buf p).length) (q : Nat) :
    ((w.set_buf p b).buf q).offset = (w.buf q).offset ∧
      ((w.set_buf p b).buf q).length = (w.buf q).length := by
  by_cases hq : q = p
  · subst hq
    by_cases hlt : q < w.heap.length
    · rw [buf_set_buf_same w q b hlt]
      exact ⟨ho, hl⟩
    · have hn : w.heap[q]? = none := List.getElem?_eq_none (Nat.le_of_not_lt hlt)
      have : (w.set_buf q b).buf q = w.buf q := by
        simp [World.buf, World.set_buf, List.getD_eq_getElem?_getD, List.getElem?_set, hlt, hn]
      rw [this]
      exact ⟨rfl, rfl⟩
  · rw [buf_set_buf_ne w p q b hq]
    exact ⟨rfl, rfl⟩

/-- What a step promises about submissions: on each pollable fd, the reads (writes)
it submits, plus the read (write) that was in flight and has not just completed, are
at most one. -/
theorem step_fresh_of (w v r : World) (i : Input) (hlog : v.log = w.log)
    (h : fresh_submits v r)
    (hrd : ∀ which, (w.reading which).isSome = true → i.completes_read which = false →
      (v.reading which).isSome = true)
    (hwr : ∀ which, (w.writing which).isSome = true → i.completes_write which = false →
      (v.writing which).isSome = true) :
    ∀ which,
      reads_submitted which (new_events w r)
        + (if (w.reading which).isSome = true ∧ i.completes_read which = false then 1 else 0)
        ≤ 1 ∧
      writes_submitted which (new_events w r)
        + (if (w.writing which).isSome = true ∧ i.completes_write which = false then 1 else 0)
        ≤ 1 := by
  intro which
  obtain ⟨a, b⟩ := fresh_to_step w v r hlog h which
  constructor
  · by_cases hc : (w.reading which).isSome = true ∧ i.completes_read which = false
    · rw [if_pos hc]
      rw [if_pos (hrd which hc.1 hc.2)] at a
      exact a
    · rw [if_neg hc]
      have : (if (v.reading which).isSome = true then 1 else 0) ≥ 0 := Nat.zero_le _
      omega
  · by_cases hc : (w.writing which).isSome = true ∧ i.completes_write which = false
    · rw [if_pos hc]
      rw [if_pos (hwr which hc.1 hc.2)] at b
      exact b
    · rw [if_neg hc]
      have : (if (v.writing which).isSome = true then 1 else 0) ≥ 0 := Nat.zero_le _
      omega

theorem step_read_client (M B : Nat) (hM : 262 ≤ M) (env : Env) (avail : Option (List Nat))
    (w : World) (hf : w.freed = false) (hacc : accounted M w) (hops : ops_inv M w)
    (op : AsyncOp) (hop : w.self.client_pfd.reading = some op) :
    session_inv M (dispatch B env op.callback (sock_reader (w.buf op.buffer) op.count avail).1
        op.buffer ((w.set_buf op.buffer (sock_reader (w.buf op.buffer) op.count avail).2).set_pfd
          PFD.client { w.self.client_pfd with reading := none })) ∧
    fresh_submits ((w.set_buf op.buffer (sock_reader (w.buf op.buffer) op.count avail).2).set_pfd
          PFD.client { w.self.client_pfd with reading := none })
      (dispatch B env op.callback (sock_reader (w.buf op.buffer) op.count avail).1
        op.buffer ((w.set_buf op.buffer (sock_reader (w.buf op.buffer) op.count avail).2).set_pfd
          PFD.client { w.self.client_pfd with reading := none })) := by
  obtain ⟨hok, hb0, hrw, hbr⟩ := hops.1 op hop
  obtain ⟨s1, s2, s3⟩ := sock_reader_facts (w.buf op.buffer) op.count avail
  have hwin := buf_set_buf_window w op.buffer _ s1 s2
  have hlt := buffer0_lt M w hacc op.buffer hb0
  generalize hv : (w.set_buf op.buffer (sock_reader (w.buf op.buffer) op.count avail).2).set_pfd
          PFD.client { w.self.client_pfd with reading := none } = v
  have v_log : v.log = w.log := by subst hv; rfl
  have v_freed : v.freed = false := by subst hv; exact hf
  have v_b0 : v.self.buffer0 = w.self.buffer0 := by subst hv; rfl
  have v_b1 : v.self.buffer1 = w.self.buffer1 := by subst hv; rfl
  have v_cr : v.self.client_pfd.reading = none := by subst hv; rfl
  have v_cw : v.self.client_pfd.writing = w.self.client_pfd.writing := by subst hv; rfl
  have v_rp : v.self.remote_pfd = w.self.remote_pfd := by subst hv; rfl
  have v_rr : v.reading PFD.remote = w.reading PFD.remote := by subst hv; rfl
  have v_rw : v.writing PFD.remote = w.writing PFD.remote := by subst hv; rfl
  have v_len : v.heap.length = w.heap.length := by
    subst hv
    simp [World.set_pfd, World.set_buf]
  have v_buf : ∀ q, (v.buf q).offset = (w.buf q).offset ∧ (v.buf q).length = (w.buf q).length := by
    subst hv
    exact hwin
  have v_acc : accounted M v := accounted_of_same M w v hacc v_log v_len v_b0 v_b1
  have v_ops : ops_inv M v :=
    ops_inv_weaken M w v hops v_log v_b0 v_b1 v_buf (Or.inr v_cr) (Or.inl v_cw) (Or.inl v_rr)
      (Or.inl v_rw) (fun h => by rw [v_rp, h])
  have v_bound : (v.buf op.buffer).offset + (v.buf op.buffer).length ≤ M := by
    rw [(v_buf op.buffer).1, (v_buf op.buffer).2, hok.1]
    exact hok.2
  have v_sz : (sock_reader (w.buf op.buffer) op.count avail).1 ≤ ((v.buf op.buffer).length : Int)
      := by
    rw [(v_buf op.buffer).2, hok.1]
    exact s3
  rcases hbr with ⟨hcb, hwc⟩ | ⟨hcb, hb1, hcw, hrp⟩
  · rw [hcb]
    simp only [dispatch]
    exact ⟨read_client_data_handler_inv M env _ op.buffer v v_freed v_acc v_ops
        (by rw [v_b0, hb0]) v_cr (fun op2 h2 => hwc op2 (by rw [← v_cw, h2])) v_bound v_sz,
      read_client_data_handler_fresh env _ op.buffer v (by rw [v_rw, hrw])⟩
  · rcases hcb with hcb | hcb
    · rw [hcb]
      simp only [dispatch]
      exact ⟨read_auth_req_handler_inv M env _ op.buffer v hM v_freed v_acc
          (by rw [v_b0, hb0]) (by rw [v_b1, hb1]) v_cr (by rw [v_cw, hcw]) (by rw [v_rp, hrp]),
        read_auth_req_handler_fresh env _ op.buffer v v_cr (by rw [v_cw, hcw])⟩
    · rw [hcb]
      simp only [dispatch]
      exact ⟨read_req_handler_inv M env _ op.buffer v hM v_freed v_acc
          (by rw [v_b0, hb0]) (by rw [v_b1, hb1]) v_cr (by rw [v_cw, hcw]) (by rw [v_rp, hrp]),
        read_req_handler_fresh env _ op.buffer v v_cr (by rw [v_cw, hcw])⟩

theorem step_write_client (M B : Nat) (hM : 262 ≤ M) (hBM : B ≤ M) (env : Env) (room : Option Nat)
    (w : World) (hf : w.freed = false) (hacc : accounted M w) (hops : ops_inv M w)
    (op : AsyncOp) (hop : w.self.client_pfd.writing = some op) :
    session_inv M (dispatch B env op.callback (sock_writer (w.buf op.buffer) op.count room).1
        op.buffer (w.set_pfd PFD.client { w.self.client_pfd with writing := none })) ∧
    fresh_submits (w.set_pfd PFD.client { w.self.client_pfd with writing := none })
      (dispatch B env op.callback (sock_writer (w.buf op.buffer) op.count room).1
        op.buffer (w.set_pfd PFD.client { w.self.client_pfd with writing := none })) := by
  obtain ⟨hok, hbr⟩ := hops.2.1 op hop
  generalize hv : w.set_pfd PFD.client { w.self.client_pfd with writing := none } = v
  have v_log : v.log = w.log := by subst hv; rfl
  have v_freed : v.freed = false := by subst hv; exact hf
  have v_b0 : v.self.buffer0 = w.self.buffer0 := by subst hv; rfl
  have v_b1 : v.self.buffer1 = w.self.buffer1 := by subst hv; rfl
  have v_cr : v.self.client_pfd.reading = w.self.client_pfd.reading := by subst hv; rfl
  have v_cw : v.self.client_pfd.writing = none := by subst hv; rfl
  have v_rp : v.self.remote_pfd = w.self.remote_pfd := by subst hv; rfl
  have v_rr : v.reading PFD.remote = w.reading PFD.remote := by subst hv; rfl
  have v_rw : v.writing PFD.remote = w.writing PFD.remote := by subst hv; rfl
  have v_len : v.heap.length = w.heap.length := by subst hv; rfl
  have v_buf : ∀ q, (v.buf q).offset = (w.buf q).offset ∧ (v.buf q).length = (w.buf q).length := by
    subst hv
    exact fun q => ⟨rfl, rfl⟩
  have v_acc : accounted M v := accounted_of_same M w v hacc v_log v_len v_b0 v_b1
  have v_ops : ops_inv M v :=
    ops_inv_weaken M w v hops v_log v_b0 v_b1 v_buf (Or.inl v_cr) (Or.inr v_cw) (Or.inl v_rr)
      (Or.inl v_rw) (fun h => by rw [v_rp, h])
  have v_bound : (v.buf op.buffer).offset + (v.buf op.buffer).length ≤ M := by
    rw [(v_buf op.buffer).1, (v_buf op.buffer).2, hok.1]
    exact hok.2
  rcases hbr with ⟨hcb, hb1, hrr⟩ | ⟨hcb, hb0, hb1, hcr, hrr, hrw⟩
  · rw [hcb]
    simp only [dispatch]
    exact ⟨write_client_data_handler_inv M B hBM env _ op.buffer v v_freed v_acc v_ops
        (by rw [v_b1, hb1]) v_cw (by rw [v_rr, hrr]) v_bound,
      write_client_data_handler_fresh B env _ op.buffer v v_cw (by rw [v_rr, hrr])⟩
  · rcases hcb with ⟨hcb, hrp⟩ | hcb
    · rw [hcb]
      simp only [dispatch]
      exact ⟨write_auth_res_handler_inv M env _ op.buffer v hM v_freed v_acc
          (by rw [v_b0, hb0]) (by rw [v_b1, hb1]) (by rw [v_cr, hcr]) v_cw
          (by rw [v_rp, hrp]) v_bound,
        write_auth_res_handler_fresh env _ op.buffer v (by rw [v_cr, hcr]) v_cw⟩
    · rw [hcb]
      simp only [dispatch]
      exact ⟨write_res_handler_inv M B hBM env _ op.buffer v v_freed v_acc
          (by rw [v_b0, hb0]) (by rw [v_b1, hb1]) (by rw [v_cr, hcr]) v_cw
          (by rw [v_rr, hrr]) (by rw [v_rw, hrw]) v_bound,
        write_res_handler_fresh B env _ op.buffer v (by rw [v_cr, hcr]) v_cw
          (by rw [v_rr, hrr])⟩

theorem step_read_remote (M B : Nat) (env : Env) (avail : Option (List Nat))
    (w : World) (hf : w.freed = false) (hacc : accounted M w) (hops : ops_inv M w)
    (p : HevPollableFD) (hp : w.self.remote_pfd = some p)
    (op : AsyncOp) (hop : p.reading = some op) :
    session_inv M (dispatch B env op.callback (sock_reader (w.buf op.buffer) op.count avail).1
        op.buffer ((w.set_buf op.buffer (sock_reader (w.buf op.buffer) op.count avail).2).set_pfd
          PFD.remote { p with reading := none })) ∧
    fresh_submits ((w.set_buf op.buffer (sock_reader (w.buf op.buffer) op.count avail).2).set_pfd
          PFD.remote { p with reading := none })
      (dispatch B env op.callback (sock_reader (w.buf op.buffer) op.count avail).1
        op.buffer ((w.set_buf op.buffer (sock_reader (w.buf op.buffer) op.count avail).2).set_pfd
          PFD.remote { p with reading := none })) := by
  have hop2 : w.reading PFD.remote = some op := by simp [World.reading, World.pfd, hp, hop]
  obtain ⟨hok, hcb, hb1⟩ := hops.2.2.1 op hop2
  have hcw : w.self.client_pfd.writing = none := by
    cases hc : w.self.client_pfd.writing with
    | none => rfl
    | some op2 =>
      obtain ⟨-, hbr⟩ := hops.2.1 op2 hc
      rcases hbr with ⟨-, -, hrr⟩ | ⟨-, -, -, -, hrr, -⟩ <;> simp [hrr] at hop2
  obtain ⟨s1, s2, s3⟩ := sock_reader_facts (w.buf op.buffer) op.count avail
  have hwin := buf_set_buf_window w op.buffer _ s1 s2
  generalize hv : (w.set_buf op.buffer (sock_reader (w.buf op.buffer) op.count avail).2).set_pfd
          PFD.remote { p with reading := none } = v
  have v_log : v.log = w.log := by subst hv; rfl
  have v_freed : v.freed = false := by subst hv; exact hf
  have v_b0 : v.self.buffer0 = w.self.buffer0 := by subst hv; rfl
  have v_b1 : v.self.buffer1 = w.self.buffer1 := by subst hv; rfl
  have v_cr : v.self.client_pfd.reading = w.self.client_pfd.reading := by subst hv; rfl
  have v_cw : v.self.client_pfd.writing = w.self.client_pfd.writing := by subst hv; rfl
  have v_rr : v.reading PFD.remote = none := by subst hv; rfl
  have v_rw : v.writing PFD.remote = w.writing PFD.remote := by
    subst hv
    simp [World.writing, World.pfd, World.set_pfd, World.set_buf, hp]
  have v_len : v.heap.length = w.heap.length := by
    subst hv
    simp [World.set_pfd, World.set_buf]
  have v_buf : ∀ q, (v.buf q).offset = (w.buf q).offset ∧ (v.buf q).length = (w.buf q).length := by
    subst hv
    exact hwin
  have v_acc : accounted M v := accounted_of_same M w v hacc v_log v_len v_b0 v_b1
  have v_ops : ops_inv M v :=
    ops_inv_weaken M w v hops v_log v_b0 v_b1 v_buf (Or.inl v_cr) (Or.inl v_cw) (Or.inr v_rr)
      (Or.inl v_rw) (fun h => by simp [hp] at h)
  have v_bound : (v.buf op.buffer).offset + (v.buf op.buffer).length ≤ M := by
    rw [(v_buf op.buffer).1, (v_buf op.buffer).2, hok.1]
    exact hok.2
  have v_sz : (sock_reader (w.buf op.buffer) op.count avail).1 ≤ ((v.buf op.buffer).length : Int)
      := by
    rw [(v_buf op.buffer).2, hok.1]
    exact s3
  rw [hcb]
  simp only [dispatch]
  exact ⟨read_remote_data_handler_inv M env _ op.buffer v v_freed v_acc v_ops
      (by rw [v_b1, hb1]) (by rw [v_cw, hcw]) v_rr v_bound v_sz,
    read_remote_data_handler_fresh env _ op.buffer v (by rw [v_cw, hcw])⟩

theorem step_write_remote (M B : Nat) (hBM : B ≤ M) (env : Env) (room : Option Nat)
    (w : World) (hf : w.freed = false) (hacc : accounted M w) (hops : ops_inv M w)
    (p : HevPollableFD) (hp : w.self.remote_pfd = some p)
    (op : AsyncOp) (hop : p.writing = some op) :
    session_inv M (dispatch B env op.callback (sock_writer (w.buf op.buffer) op.count room).1
        op.buffer (w.set_pfd PFD.remote { p with writing := none })) ∧
    fresh_submits (w.set_pfd PFD.remote { p with writing := none })
      (dispatch B env op.callback (sock_writer (w.buf op.buffer) op.count room).1
        op.buffer (w.set_pfd PFD.remote { p with writing := none })) := by
  have hop2 : w.writing PFD.remote = some op := by simp [World.writing, World.pfd, hp, hop]
  obtain ⟨hok, hcb, hb0⟩ := hops.2.2.2.1 op hop2
  have hcr : w.self.client_pfd.reading = none := by
    cases hc : w.self.client_pfd.reading with
    | none => rfl
    | some op2 =>
      obtain ⟨-, -, hrw, -⟩ := hops.1 op2 hc
      simp [hrw] at hop2
  have hwc : ∀ op2, w.self.client_pfd.writing = some op2 →
      op2.callback = Callback.write_client_data_handler := by
    intro op2 hc
    obtain ⟨-, hbr⟩ := hops.2.1 op2 hc
    rcases hbr with ⟨h, -⟩ | ⟨-, -, -, -, -, hrw⟩
    · exact h
    · simp [hrw] at hop2
  generalize hv : w.set_pfd PFD.remote { p with writing := none } = v
  have v_log : v.log = w.log := by subst hv; rfl
  have v_freed : v.freed = false := by subst hv; exact hf
  have v_b0 : v.self.buffer0 = w.self.buffer0 := by subst hv; rfl
  have v_b1 : v.self.buffer1 = w.self.buffer1 := by subst hv; rfl
  have v_cr : v.self.client_pfd.reading = w.self.client_pfd.reading := by subst hv; rfl
  have v_cw : v.self.client_pfd.writing = w.self.client_pfd.writing := by subst hv; rfl
  have v_rw : v.writing PFD.remote = none := by subst hv; rfl
  have v_rr : v.reading PFD.remote = w.reading PFD.remote := by
    subst hv
    simp [World.reading, World.pfd, World.set_pfd, hp]
  have v_len : v.heap.length = w.heap.length := by subst hv; rfl
  have v_buf : ∀ q, (v.buf q).offset = (w.buf q).offset ∧ (v.buf q).length = (w.buf q).length := by
    subst hv
    exact fun q => ⟨rfl, rfl⟩
  have v_acc : accounted M v := accounted_of_same M w v hacc v_log v_len v_b0 v_b1
  have v_ops : ops_inv M v :=
    ops_inv_weaken M w v hops v_log v_b0 v_b1 v_buf (Or.inl v_cr) (Or.inl v_cw) (Or.inl v_rr)
      (Or.inr v_rw) (fun h => by simp [hp] at h)
  have v_bound : (v.buf op.buffer).offset + (v.buf op.buffer).length ≤ M := by
    rw [(v_buf op.buffer).1, (v_buf op.buffer).2, hok.1]
    exact hok.2
  rw [hcb]
  simp only [dispatch]
  exact ⟨write_remote_data_handler_inv M B hBM env _ op.buffer v v_freed v_acc v_ops
      (by rw [v_b0, hb0]) (by rw [v_cr, hcr]) v_rw
      (fun op2 h2 => hwc op2 (by rw [← v_cw, h2])) v_bound,
    write_remote_data_handler_fresh B env _ op.buffer v (by rw [v_cr, hcr]) v_rw⟩

theorem step_quiet (w : World) (i : Input) :
    ∀ which,
      reads_submitted which (new_events w w)
        + (if (w.reading which).isSome = true ∧ i.completes_read which = false then 1 else 0)
        ≤ 1 ∧
      writes_submitted which (new_events w w)
        + (if (w.writing which).isSome = true ∧ i.completes_write which = false then 1 else 0)
        ≤ 1 := by
  intro which
  simp [new_events, reads_submitted, writes_submitted, ite_le_one]

/-- One callback keeps the invariant of the session, and on each pollable fd the reads
(writes) it submits, plus the read (write) that was in flight and has not just
completed, are at most one. -/
theorem step_session_inv (M B : Nat) (hM : 262 ≤ M) (hBM : B ≤ M) (env : Env) (i : Input)
    (w : World)
    (h : session_inv M w) :
    session_inv M (step B env i w) ∧
    ∀ which,
      reads_submitted which (new_events w (step B env i w))
        + (if (w.reading which).isSome = true ∧ i.completes_read which = false then 1 else 0)
        ≤ 1 ∧
      writes_submitted which (new_events w (step B env i w))
        + (if (w.writing which).isSome = true ∧ i.completes_write which = false then 1 else 0)
        ≤ 1 := by
  cases hfr : w.freed with
  | true =>
    have hs : step B env i w = w := by
      cases i <;> simp [step, read_ready, write_ready, hfr]
    rw [hs]
    exact ⟨h, step_quiet w i⟩
  | false =>
    obtain ⟨hacc, hops⟩ := h.2 hfr
    cases i with
    | read which avail =>
      cases which with
      | client =>
        cases hop : w.self.client_pfd.reading with
        | none =>
          have hs : step B env (Input.read PFD.client avail) w = w := by
            simp [step, read_ready, hfr, World.pfd, hop]
          rw [hs]
          exact ⟨h, step_quiet w _⟩
        | some op =>
          have hs : step B env (Input.read PFD.client avail) w =
              dispatch B env op.callback (sock_reader (w.buf op.buffer) op.count avail).1
                op.buffer
                ((w.set_buf op.buffer (sock_reader (w.buf op.buffer) op.count avail).2).set_pfd
                  PFD.client { w.self.client_pfd with reading := none }) := by
            simp [step, read_ready, hfr, World.pfd, hop]
          rw [hs]
          obtain ⟨a, b⟩ := step_read_client M B hM env avail w hfr hacc hops op hop
          refine ⟨a, step_fresh_of w _ _ _ ?_ b ?_ ?_⟩
          · rfl
          · intro y h1 h2
            cases y with
            | client => simp [Input.completes_read] at h2
            | remote => exact h1
          · intro y h1 h2
            cases y <;> exact h1
      | remote =>
        cases hp : w.self.remote_pfd with
        | none =>
          have hs : step B env (Input.read PFD.remote avail) w = w := by
            simp [step, read_ready, hfr, World.pfd, hp]
          rw [hs]
          exact ⟨h, step_quiet w _⟩
        | some p =>
          cases hop : p.reading with
          | none =>
            have hs : step B env (Input.read PFD.remote avail) w = w := by
              simp [step, read_ready, hfr, World.pfd, hp, hop]
            rw [hs]
            exact ⟨h, step_quiet w _⟩
          | some op =>
            have hs : step B env (Input.read PFD.remote avail) w =
                dispatch B env op.callback (sock_reader (w.buf op.buffer) op.count avail).1
                  op.buffer
                  ((w.set_buf op.buffer
                      (sock_reader (w.buf op.buffer) op.count avail).2).set_pfd
                    PFD.remote { p with reading := none }) := by
              simp [step, read_ready, hfr, World.pfd, hp, hop]
            rw [hs]
            obtain ⟨a, b⟩ := step_read_remote M B env avail w hfr hacc hops p hp op hop
            refine ⟨a, step_fresh_of w _ _ _ ?_ b ?_ ?_⟩
            · rfl
            · intro y h1 h2
              cases y with
              | client => exact h1
              | remote => simp [Input.completes_read] at h2
            · intro y h1 h2
              cases y with
              | client => exact h1
              | remote =>
                simpa [World.writing, World.pfd, World.set_pfd, World.set_buf, hp] using h1
    | write which room =>
      cases which with
      | client =>
        cases hop : w.self.client_pfd.writing with
        | none =>
          have hs : step B env (Input.write PFD.client room) w = w := by
            simp [step, write_ready, hfr, World.pfd, hop]
          rw [hs]
          exact ⟨h, step_quiet w _⟩
        | some op =>
          have hs : step B env (Input.write PFD.client room) w =
              dispatch B env op.callback (sock_writer (w.buf op.buffer) op.count room).1
                op.buffer (w.set_pfd PFD.client { w.self.client_pfd with writing := none }) := by
            simp [step, write_ready, hfr, World.pfd, hop]
          rw [hs]
          obtain ⟨a, b⟩ := step_write_client M B hM hBM env room w hfr hacc hops op hop
          refine ⟨a, step_fresh_of w _ _ _ ?_ b ?_ ?_⟩
          · rfl
          · intro y h1 h2
            cases y <;> exact h1
          · intro y h1 h2
            cases y with
            | client => simp [Input.completes_write] at h2
            | remote => exact h1
      | remote =>
        cases hp : w.self.remote_pfd with
        | none =>
          have hs : step B env (Input.write PFD.remote room) w = w := by
            simp [step, write_ready, hfr, World.pfd, hp]
          rw [hs]
          exact ⟨h, step_quiet w _⟩
        | some p =>
          cases hop : p.writing with
          | none =>
            have hs : step B env (Input.write PFD.remote room) w = w := by
              simp [step, write_ready, hfr, World.pfd, hp, hop]
            rw [hs]
            exact ⟨h, step_quiet w _⟩
          | some op =>
            have hs : step B env (Input.write PFD.remote room) w =
                dispatch B env op.callback (sock_writer (w.buf op.buffer) op.count room).1
                  op.buffer (w.set_pfd PFD.remote { p with writing := none }) := by
              simp [step, write_ready, hfr, World.pfd, hp, hop]
            rw [hs]
            obtain ⟨a, b⟩ := step_write_remote M B hBM env room w hfr hacc hops p hp op hop
            refine ⟨a, step_fresh_of w _ _ _ ?_ b ?_ ?_⟩
            · rfl
            · intro y h1 h2
              cases y with
              | client => exact h1
              | remote =>
                simpa [World.reading, World.pfd, World.set_pfd, hp] using h1
            · intro y h1 h2
              cases y with
              | client => exact h1
              | remote => simp [Input.completes_write] at h2
    | resolved ip =>
      cases hq : query_outstanding w with
      | false =>
        have hs : step B env (Input.resolved ip) w = w := by simp [step, hfr, hq]
        rw [hs]
        exact ⟨h, step_quiet w _⟩
      | true =>
        have hs : step B env (Input.resolved ip) w = resolver_handler env ip w := by
          simp [step, hfr, hq]
        rw [hs]
        obtain ⟨a0, a1, a2, a3, a4⟩ := hops.2.2.2.2 (Or.inr hq)
        refine ⟨resolver_handler_inv M env ip w hfr hacc a0 a1 a2 a3 a4,
          step_fresh_of w w _ _ rfl (resolver_handler_fresh env ip w) ?_ ?_⟩
        · intro y h1 _
          exact h1
        · intro y h1 _
          exact h1
    | connected status =>
      cases hq : connect_outstanding w with
      | false =>
        have hs : step B env (Input.connected status) w = w := by simp [step, hfr, hq]
        rw [hs]
        exact ⟨h, step_quiet w _⟩
      | true =>
        have hs : step B env (Input.connected status) w =
            socket_connect_handler env status w := by
          simp [step, hfr, hq]
        rw [hs]
        obtain ⟨a0, a1, a2, a3, a4⟩ := hops.2.2.2.2 (Or.inl hq)
        refine ⟨socket_connect_handler_inv M env status w hM hfr hacc a0 a1 a2,
          step_fresh_of w w _ _ rfl (socket_connect_handler_fresh env status w a3) ?_ ?_⟩
        · intro y h1 _
          exact h1
        · intro y h1 _
          exact h1

/-- The invariant holds along every run. -/
theorem run_session_inv (M B : Nat) (hM : 262 ≤ M) (hBM : B ≤ M) (steps : List (Env × Input))
    (w : World)
    (h : session_inv M w) : session_inv M (run B steps w) := by
  induction steps generalizing w with
  | nil => exact h
  | cons s rest ih => exact ih _ (step_session_inv M B hM hBM s.1 s.2 w h).1

/-- A new session satisfies the invariant. -/
theorem new_session_inv (M : Nat) (hM : 262 ≤ M) (env : Env) (fd : Int) (notify : Bool)
    (w : World) (h : (hev_socks5_session_new env fd notify).1 = some w) :
    session_inv M w := by
  unfold hev_socks5_session_new at h
  cases hm : env.malloc <;> simp [hm] at h
  cases hp : env.pfd_new <;> simp [hp] at h
  cases ha : env.buffer_alloc <;> simp [hev_buffer_list_alloc, ha] at h
  cases hr : env.client_read <;> simp [hev_socks5_session_client_read, hr] at h
  subst h
  apply session_inv_alive
  · rfl
  · refine ⟨?_, ?_, ?_, ?_⟩
    · simp [set_buffer0, World.set_buf, World.buf, malloc0_session, Event.in_bounds,
        hev_socks5_proto_auth_req_unpack]
      omega
    · intro p
      simp [set_buffer0, World.set_buf, World.buf, malloc0_session, alloc_count,
        Event.allocs, List.countP_cons]
      split_ifs <;> omega
    · simp [set_buffer0, World.set_buf, World.buf, malloc0_session, Event.is_teardown]
    · intro p
      simp [set_buffer0, World.set_buf, World.buf, malloc0_session, free_count,
        Event.frees, List.countP_cons, World.holds]
      split_ifs <;> omega
  · simp [ops_inv, op_ok, set_buffer0, World.set_buf, World.buf, malloc0_session,
      hev_pollable_fd_read_async, World.reading, World.writing, World.pfd,
      connect_outstanding, query_outstanding, hev_socks5_proto_auth_req_unpack]
    omega

/-! ## The notifier field is set once -/

theorem read_auth_req_keeps_notifer (env : Env) (size : Int) (buffer : Nat) (w : World) :
    (read_auth_req_handler env size buffer w).self.notifer = w.self.notifer := by
  unfold read_auth_req_handler
  simp only []
  split_ifs <;>
  simp [error_free0_destroy, hev_socks5_session_destroy, set_buffer0, hev_buffer_list_free,
    World.emit, clear_idle, hev_socks5_session_client_read, hev_socks5_session_client_write,
    World.set_buf]

theorem write_auth_res_keeps_notifer (env : Env) (size : Int) (buffer : Nat) (w : World) :
    (write_auth_res_handler env size buffer w).self.notifer = w.self.notifer := by
  unfold write_auth_res_handler
  simp only []
  split_ifs <;>
  simp [error_free0_destroy, hev_socks5_session_destroy, set_buffer0, hev_buffer_list_free,
    World.emit, clear_idle, hev_socks5_session_client_read, hev_socks5_session_client_write,
    World.set_buf]

theorem socket_connect_notifer (env : Env) (w : World) :
    (hev_socks5_session_socket_connect env w).2.self.notifer = w.self.notifer := by
  unfold hev_socks5_session_socket_connect
  cases env.socket_new <;> rfl

theorem read_req_keeps_notifer (env : Env) (size : Int) (buffer : Nat) (w : World) :
    (read_req_handler env size buffer w).self.notifer = w.self.notifer := by
  unfold read_req_handler
  simp only []
  split_ifs <;>
  simp [error_free0_destroy, hev_socks5_session_destroy, set_buffer0, hev_buffer_list_free,
    World.emit, clear_idle, hev_socks5_session_client_read, hev_socks5_session_client_write,
    World.set_buf, socket_connect_notifer]

theorem resolver_keeps_notifer (env : Env) (ip : List Nat) (w : World) :
    (resolver_handler env ip w).self.notifer = w.self.notifer := by
  unfold resolver_handler
  simp only []
  split_ifs <;>
  simp [hev_socks5_session_destroy, clear_idle, socket_connect_notifer]

theorem socket_connect_keeps_notifer (env : Env) (status : Int) (w : World) :
    (socket_connect_handler env status w).self.notifer = w.self.notifer := by
  unfold socket_connect_handler
  cases ha : env.buffer_alloc <;>
  simp only [hev_buffer_list_alloc, ha] <;>
  split_ifs <;>
  simp [hev_socks5_session_destroy, set_buffer0,
    World.emit, clear_idle, hev_socks5_session_client_write, World.set_buf]

theorem write_res_keeps_notifer (B : Nat) (env : Env) (size : Int) (buffer : Nat) (w : World) :
    (write_res_handler B env size buffer w).self.notifer = w.self.notifer := by
  unfold write_res_handler
  cases ha : env.buffer_alloc <;>
  simp only [hev_buffer_list_alloc, ha] <;>
  split_ifs <;>
  simp [write_res_error1, write_res_error0, hev_socks5_session_destroy, set_buffer0,
    set_buffer1, hev_buffer_list_free,
    World.emit, clear_idle, hev_socks5_session_client_read, hev_socks5_session_remote_read,
    hev_socks5_session_client_write, World.set_buf]

theorem read_client_data_keeps_notifer (env : Env) (size : Int) (buffer : Nat) (w : World) :
    (read_client_data_handler env size buffer w).self.notifer = w.self.notifer := by
  unfold read_client_data_handler
  simp only []
  split_ifs <;>
  simp [error_free0_destroy, hev_socks5_session_destroy, set_buffer0, hev_buffer_list_free,
    World.emit, clear_idle, hev_socks5_session_remote_write, World.set_buf]

theorem read_remote_data_keeps_notifer (env : Env) (size : Int) (buffer : Nat) (w : World) :
    (read_remote_data_handler env size buffer w).self.notifer = w.self.notifer := by
  unfold read_remote_data_handler
  simp only []
  split_ifs <;>
  simp [error_free1, set_buffer1, hev_buffer_list_free,
    World.emit, clear_idle, hev_socks5_session_client_write, World.set_buf]

theorem write_client_data_keeps_notifer (B : Nat) (env : Env) (size : Int) (buffer : Nat)
    (w : World) : (write_client_data_handler B env size buffer w).self.notifer = w.self.notifer
      := by
  unfold write_client_data_handler
  simp only []
  split_ifs <;>
  simp [error_free1, set_buffer1, hev_buffer_list_free,
    World.emit, clear_idle, hev_socks5_session_client_write, hev_socks5_session_remote_read,
    World.set_buf]

theorem write_remote_data_keeps_notifer (B : Nat) (env : Env) (size : Int) (buffer : Nat)
    (w : World) : (write_remote_data_handler B env size buffer w).self.notifer = w.self.notifer
      := by
  unfold write_remote_data_handler
  simp only []
  split_ifs <;>
  simp [error_free0_destroy, hev_socks5_session_destroy, set_buffer0, hev_buffer_list_free,
    World.emit, clear_idle, hev_socks5_session_remote_write, hev_socks5_session_client_read,
    World.set_buf]


theorem dispatch_keeps_notifer (B : Nat) (env : Env) (callback : Callback) (size : Int)
    (buffer : Nat) (w : World) :
    (dispatch B env callback size buffer w).self.notifer = w.self.notifer := by
  cases callback <;>
    simp [dispatch, read_auth_req_keeps_notifer, write_auth_res_keeps_notifer,
      read_req_keeps_notifer, write_res_keeps_notifer, read_client_data_keeps_notifer,
      read_remote_data_keeps_notifer, write_client_data_keeps_notifer,
      write_remote_data_keeps_notifer]

theorem step_keeps_notifer (B : Nat) (env : Env) (i : Input) (w : World) :
    (step B env i w).self.notifer = w.self.notifer := by
  cases i with
  | read which avail =>
    simp only [step, read_ready]
    split
    · rfl
    · split
      · rfl
      · split
        · rfl
        · rw [dispatch_keeps_notifer]
          cases which <;> rfl
  | write which room =>
    simp only [step, write_ready]
    split
    · rfl
    · split
      · rfl
      · split
        · rfl
        · simp only []
          rw [dispatch_keeps_notifer]
          cases which <;> rfl
  | resolved ip =>
    simp only [step]
    split
    · exact resolver_keeps_notifer env ip w
    · rfl
  | connected status =>
    simp only [step]
    split
    · exact socket_connect_keeps_notifer env status w
    · rfl

theorem run_keeps_notifer (B : Nat) (steps : List (Env × Input)) (w : World) :
    (run B steps w).self.notifer = w.self.notifer := by
  induction steps generalizing w with
  | nil => rfl
  | cons s rest ih =>
    simp only [run]
    rw [ih, step_keeps_notifer]

theorem new_session_notifer (env : Env) (fd : Int) (notify : Bool) (w : World)
    (h : (hev_socks5_session_new env fd notify).1 = some w) : w.self.notifer = notify := by
  unfold hev_socks5_session_new at h
  cases hm : env.malloc <;> simp [hm] at h
  cases hp : env.pfd_new <;> simp [hp] at h
  cases ha : env.buffer_alloc <;> simp [hev_buffer_list_alloc, ha] at h
  cases hr : env.client_read <;> simp [hev_socks5_session_client_read, hr] at h
  subst h
  rfl

/-- The calls of `hev_socks5_session_destroy`: first the releases (among them the
buffers held, the client pollable fd and the client fd), then the close notifier if
there is one, then the release of the session object. -/
theorem destroy_calls_shape (self : HevSocks5Session) :
    ∃ rel, destroy_calls self =
        rel ++ (if self.notifer = true then [Event.close_notify] else []) ++ [Event.free_self] ∧
      Event.close_notify ∉ rel ∧ Event.free_self ∉ rel ∧
      Event.pfd_destroy PFD.client ∈ rel ∧ Event.close self.client_fd ∈ rel ∧
      (∀ p, self.buffer0 = some p ∨ self.buffer1 = some p → Event.buffer_free p ∈ rel) := by
  refine ⟨(if self.socket.isSome then [Event.socket_destroy] else [])
    ++ (if self.resolver.isSome then [Event.resolver_destroy] else [])
    ++ (match self.buffer0 with
        | some p => [Event.buffer_free p]
        | none => [])
    ++ (match self.buffer1 with
        | some p => [Event.buffer_free p]
        | none => [])
    ++ [Event.pfd_destroy PFD.client]
    ++ (if self.remote_pfd.isSome then [Event.pfd_destroy PFD.remote] else [])
    ++ (if -1 < self.remote_fd then [Event.close self.remote_fd] else [])
    ++ [Event.close self.client_fd], ?_, ?_, ?_, ?_, ?_, ?_⟩
  · simp [destroy_calls]
  · simp only [List.mem_append, List.mem_singleton, not_or]
    refine ⟨⟨⟨⟨⟨⟨⟨?_, ?_⟩, ?_⟩, ?_⟩, ?_⟩, ?_⟩, ?_⟩, ?_⟩
    · split_ifs <;> simp
    · split_ifs <;> simp
    · cases self.buffer0 <;> simp
    · cases self.buffer1 <;> simp
    · simp
    · split_ifs <;> simp
    · split_ifs <;> simp
    · simp
  · simp only [List.mem_append, List.mem_singleton, not_or]
    refine ⟨⟨⟨⟨⟨⟨⟨?_, ?_⟩, ?_⟩, ?_⟩, ?_⟩, ?_⟩, ?_⟩, ?_⟩
    · split_ifs <;> simp
    · split_ifs <;> simp
    · cases self.buffer0 <;> simp
    · cases self.buffer1 <;> simp
    · simp
    · split_ifs <;> simp
    · split_ifs <;> simp
    · simp
  · simp
  · simp
  · intro p hp
    rcases hp with hp | hp <;> simp [hp]

/-! ## C12 -/

/-- C12 (counterexample to the order claimed): in the relaying session of scenario S2 a
read on the client pollable fd fails and `read_client_data_handler` destroys the
session.  The close notifier is called after both buffers have been freed, both
pollable fds destroyed and both fds closed; only the release of the session object
comes after it. -/
theorem close_notify_follows_the_releases :
    ex_s2_closed.freed = true ∧
    new_events ex_s2_relaying ex_s2_closed =
      [Event.buffer_free 1, Event.resolver_destroy, Event.buffer_free 2,
       Event.pfd_destroy PFD.client, Event.pfd_destroy PFD.remote, Event.close 6,
       Event.close 4, Event.close_notify, Event.free_self] := by
  decide

/-- C12 (amended): for every session created by `hev_socks5_session_new` with notifier
`notify` and every sequence of callbacks: while the session is live nothing has been
torn down and the notifier has not been called; once it is destroyed, the log ends
with the releases made by `hev_socks5_session_destroy` (the buffers still held, the
pollable fds, the fds), then the call of the close notifier, exactly one if the
notifier is non-NULL, then the one release of the session object.  So destroy ran
once, and the notifier is called from inside it after the buffers, pollable fds and fds
are released and before the session object is. -/
theorem close_notify_once_at_end_of_destroy (B : Nat) (env : Env) (fd : Int) (notify : Bool)
    (w0 : World) (steps : List (Env × Input))
    (hnew : (hev_socks5_session_new env fd notify).1 = some w0) :
    torn_down_once notify (run B steps w0) := by
  have hinv := run_session_inv (max B 262) B (le_max_right _ _) (le_max_left _ _) steps w0
    (new_session_inv (max B 262) (le_max_right _ _) env fd notify w0 hnew)
  have hn : (run B steps w0).self.notifer = notify := by
    rw [run_keeps_notifer, new_session_notifer env fd notify w0 hnew]
  constructor
  · intro hf
    exact (hinv.2 hf).1.2.2.1
  · intro hf
    obtain ⟨-, -, -, pre, hlog, hpre⟩ := hinv.1 hf
    obtain ⟨rel, hshape, h1, h2, h3, h4, h5⟩ := destroy_calls_shape (run B steps w0).self
    refine ⟨pre, rel, ?_, hpre, h1, h2, h3, h4, h5⟩
    rw [hlog, hshape, hn]
    simp only [List.append_assoc]

theorem close_notify_once_at_end_of_destroy_witness :
    (hev_socks5_session_new (Env.ok []) 4 true).1 = some ex_s1_new ∧
    torn_down_once true (run 8192 ex_steps_s1_closed ex_s1_new) :=
  ⟨by decide,
    close_notify_once_at_end_of_destroy 8192 (Env.ok []) 4 true ex_s1_new ex_steps_s1_closed
      (by decide)⟩

/-! ## C13 -/

theorem new_session_log_balanced (env : Env) (fd : Int) (notify : Bool) :
    log_balanced (hev_socks5_session_new env fd notify).2 := by
  intro p
  unfold hev_socks5_session_new
  cases hm : env.malloc <;> cases hp : env.pfd_new <;> cases ha : env.buffer_alloc <;>
    cases hr : env.client_read <;>
    simp [hev_buffer_list_alloc, hev_socks5_session_client_read, set_buffer0, World.emit,
      World.set_buf, alloc_count, free_count, Event.allocs, Event.frees,
      List.countP_cons, ha, hr]
  all_goals split_ifs
  all_goals simp

/-- C13: for every session created by `hev_socks5_session_new` and every sequence of
callbacks, each buffer pointer is handed out by the pool at most once; once the session
is destroyed every buffer it obtained has been returned exactly once; while it is
live every buffer it obtained has been returned once or is held in exactly one of
`buffer0`, `buffer1` (so a freed buffer is no longer in its field and destroy cannot
free it again).  On every path of `hev_socks5_session_new` that returns NULL the
buffer obtained, if any, has been returned once. -/
theorem buffers_returned_exactly_once (B : Nat) (env : Env) (fd : Int) (notify : Bool)
    (w0 : World) (steps : List (Env × Input))
    (hnew : (hev_socks5_session_new env fd notify).1 = some w0)
    (env2 : Env) (fd2 : Int) (notify2 : Bool) :
    buffers_balanced (run B steps w0) ∧
    log_balanced (hev_socks5_session_new env2 fd2 notify2).2 := by
  have hinv := run_session_inv (max B 262) B (le_max_right _ _) (le_max_left _ _) steps w0
    (new_session_inv (max B 262) (le_max_right _ _) env fd notify w0 hnew)
  refine ⟨?_, new_session_log_balanced env2 fd2 notify2⟩
  intro p
  cases hf : (run B steps w0).freed with
  | true =>
    obtain ⟨-, ha, hfree, -⟩ := hinv.1 hf
    refine ⟨?_, fun _ => ?_, fun h => by simp at h⟩
    · rw [ha p]
      exact ite_le_one _
    · rw [ha p, hfree p]
  | false =>
    obtain ⟨⟨-, ha, -, hfree⟩, -⟩ := hinv.2 hf
    refine ⟨?_, fun h => by simp at h, fun _ => ?_⟩
    · rw [ha p]
      exact ite_le_one _
    · rw [ha p, hfree p]

theorem buffers_returned_exactly_once_witness :
    (hev_socks5_session_new (Env.ok []) 4 true).1 = some ex_s1_new ∧
    buffers_balanced (run 8192 ex_steps_s1_closed ex_s1_new) ∧
    log_balanced (hev_socks5_session_new Env.no_client_read 4 true).2 :=
  ⟨by decide,
    buffers_returned_exactly_once 8192 (Env.ok []) 4 true ex_s1_new ex_steps_s1_closed
      (by decide) Env.no_client_read 4 true⟩

/-! ## C14 -/

/-- C14: when `B` (`HEV_BUFFER_DATA_SIZE`) is at least 262, for every session created by
`hev_socks5_session_new` and every sequence of callbacks (each completion reporting at
most the count submitted, the codec asking for the bytes of the SOCKS5 framing), every
read and every write the session has submitted has `offset + length ≤ B` (`0 ≤ offset`
holds by type). -/
theorem submissions_stay_in_buffer (B : Nat) (env : Env) (fd : Int) (notify : Bool)
    (w0 : World) (steps : List (Env × Input)) (hB : 262 ≤ B)
    (hnew : (hev_socks5_session_new env fd notify).1 = some w0) :
    submissions_in_bounds B (run B steps w0).log := by
  have hinv := run_session_inv B B hB (le_refl B) steps w0
    (new_session_inv B hB env fd notify w0 hnew)
  have hb : ∀ e ∈ (run B steps w0).log, e.in_bounds B = true := by
    cases hf : (run B steps w0).freed with
    | true => exact (hinv.1 hf).1
    | false => exact (hinv.2 hf).1.1
  intro pfd buffer offset count callback ok
  constructor
  · intro h
    simpa [Event.in_bounds] using hb _ h
  · intro h
    simpa [Event.in_bounds] using hb _ h

theorem submissions_stay_in_buffer_witness :
    262 ≤ 8192 ∧ (hev_socks5_session_new (Env.ok []) 4 true).1 = some ex_s1_new ∧
    submissions_in_bounds 8192 (run 8192 ex_steps_s1 ex_s1_new).log :=
  ⟨by decide, by decide,
    submissions_stay_in_buffer 8192 (Env.ok []) 4 true ex_s1_new ex_steps_s1 (by decide)
      (by decide)⟩

/-! ## C15 -/

/-- C15: for every session created by `hev_socks5_session_new`, every sequence of
callbacks and every further callback `i`: on each pollable fd, the reads `i` submits
(accepted or refused), together with the read that was in flight before and is not the
one `i` completes, are at most one, and the same holds for writes.  So no handler
submits a read (write) on a pollable fd on which an earlier read (write) has not
completed, and none submits two. -/
theorem one_read_one_write_in_flight (B : Nat) (env : Env) (fd : Int) (notify : Bool)
    (w0 : World) (steps : List (Env × Input))
    (hnew : (hev_socks5_session_new env fd notify).1 = some w0) (env2 : Env) (i : Input) :
    one_in_flight i (run B steps w0) (step B env2 i (run B steps w0)) := by
  have hinv := run_session_inv (max B 262) B (le_max_right _ _) (le_max_left _ _) steps w0
    (new_session_inv (max B 262) (le_max_right _ _) env fd notify w0 hnew)
  exact (step_session_inv (max B 262) B (le_max_right _ _) (le_max_left _ _) env2 i _ hinv).2

theorem one_read_one_write_in_flight_witness :
    (hev_socks5_session_new (Env.ok []) 4 true).1 = some ex_s1_new ∧
    one_in_flight (Input.read PFD.client (some [1, 2, 3])) (run 8192 ex_steps_s1 ex_s1_new)
      (step 8192 (Env.ok []) (Input.read PFD.client (some [1, 2, 3]))
        (run 8192 ex_steps_s1 ex_s1_new)) :=
  ⟨by decide,
    one_read_one_write_in_flight 8192 (Env.ok []) 4 true ex_s1_new ex_steps_s1 (by decide)
      (Env.ok []) (Input.read PFD.client (some [1, 2, 3]))⟩
/-! ## C16, C17, C18 -/

/-- C16 (the code at the failing input): scenario S2, a DOMAIN request whose DNS query
returns 93.184.216.34.  `resolver_handler` stores the address and starts the connect
without destroying the resolver: after it the resolver and the pending connect socket
are both present, and the resolver is still present while the reply is written and
while the session relays; no `hev_dns_resolver_destroy` call has been made. -/
theorem resolver_outlives_dns_query :
    ex_s2_req_read.self.resolver = some { server := [8, 8, 8, 8] } ∧
    ex_s2_req_read.self.socket = none ∧
    ex_s2_resolved.self.resolver = some { server := [8, 8, 8, 8] } ∧
    ex_s2_resolved.self.socket = some { fd := 5 } ∧
    ex_s2_connected.self.resolver = some { server := [8, 8, 8, 8] } ∧
    ex_s2_connected.writing PFD.client =
      some { buffer := 1, count := 10, callback := Callback.write_res_handler } ∧
    ex_s2_relaying.self.resolver = some { server := [8, 8, 8, 8] } ∧
    ex_s2_relaying.self.socket = none ∧
    Event.resolver_destroy ∉ ex_s2_relaying.log := by
  decide

/-- C17 (the code at the failing input): in scenario S1 (IPv4 request) the completion
that delivers the last byte of the request makes `read_req_handler` return buf0 to the
pool and only then read the four address bytes through `addr`, which points into that
buffer; in scenario S2 (DOMAIN request) it returns buf0 to the pool and only then
creates the resolver (on the same pool) and hands it `addr`, which points into that
buffer, as the name to query. -/
theorem read_req_handler_uses_buffer_after_free :
    new_events ex_s1_auth_written ex_s1_req_read =
      [Event.read_async (some PFD.client) 0 4 6 Callback.read_req_handler true,
        Event.buffer_free 0, Event.mem_read 0 4 4, Event.socket_new true,
        Event.socket_connect_async
          { sin_family := AF_INET, sin_port := [0, 80], s_addr := [127, 0, 0, 1] } true] ∧
    ex_s1_req_read.self.buffer0 = none ∧
    new_events ex_s1_auth_written ex_s2_req_read =
      [Event.read_async (some PFD.client) 0 4 1 Callback.read_req_handler true,
        Event.read_async (some PFD.client) 0 5 13 Callback.read_req_handler true,
        Event.buffer_free 0, Event.resolver_new true, Event.resolver_query_async 0 4 true] ∧
    ex_s2_req_read.self.buffer0 = none := by
  decide

/-- C18 (the code at the failing input): scenario S4, no acceptable method.  No connect
was ever started, `remote_fd` still holds the 0 that `hev_malloc0` left there, and
`hev_socks5_session_destroy`, whose test is `-1 < self->remote_fd`, closes fd 0 besides
the client fd 4. -/
theorem destroy_before_connect_closes_fd_zero :
    ex_s4_closed.freed = true ∧
    ex_s4_closed.self.remote_fd = 0 ∧
    ex_s4_closed.self.client_fd = 4 ∧
    ex_s4_closed.log =
      [Event.pfd_new PFD.client 4 true, Event.buffer_alloc (some 0),
        Event.read_async (some PFD.client) 0 0 2 Callback.read_auth_req_handler true,
        Event.read_async (some PFD.client) 0 2 1 Callback.read_auth_req_handler true,
        Event.buffer_free 0, Event.pfd_destroy PFD.client, Event.close 0, Event.close 4,
        Event.close_notify, Event.free_self] := by
  decide

end HevSocks5
